import Mathlib

/-!
# PSMoveSteamVRBridge: `ps_move_controller.cpp`

A shallow embedding of `steamvrbridge::PSMoveController`
(`src/main/cpp/driver/ps_move_controller.cpp`) and the properties proved about it.

Modelling conventions

* `float` / `double` values are exact rationals (`ℚ`): infinities and NaN are not
  modelled, and rounding is modelled in one place only, where a `float` is converted to an
  integer (line 707): there the product is first rounded to the nearest binary32 value,
  as the `float` multiplication does, so that the integer is the one the code obtains.
* A `std::chrono::high_resolution_clock::time_point` is a rational number of
  milliseconds since the clock's epoch; a default-constructed time point is `0`.
  Every call of `now()` in the source is an explicit argument of the embedding.
* Calls into collaborators (PSMoveClient, OpenVR, the `Controller` base class) are
  recorded, in program order, in a list of `Effect`s returned next to the new state.
* Answers of collaborators whose code is not part of this file (`Controller::HasButton`,
  `Controller::GetButtonState`, `Utils::GetMetersPosInRotSpace`, ...) are parameters.
-/

namespace steamvrbridge

/-! ## Data model -/

/-- Button state reported by the PSMoveClient API (`PSMButtonState`). -/
inductive PSMButtonState where
  | PSMButtonState_UP
  | PSMButtonState_PRESSED
  | PSMButtonState_DOWN
  | PSMButtonState_RELEASED
  deriving DecidableEq, Repr

export PSMButtonState (PSMButtonState_UP PSMButtonState_PRESSED PSMButtonState_DOWN
  PSMButtonState_RELEASED)

/-- Modelled from the spec: the enum `eEmulatedTrackpadAction` is declared in a header that
is not part of `ps_move_controller.cpp`; the spec gives its members in priority order
`None < Touch < Press < Left < Up < Right < Down < UpLeft < UpRight < DownLeft < DownRight`. -/
inductive eEmulatedTrackpadAction where
  | k_EmulatedTrackpadAction_None
  | k_EmulatedTrackpadAction_Touch
  | k_EmulatedTrackpadAction_Press
  | k_EmulatedTrackpadAction_Left
  | k_EmulatedTrackpadAction_Up
  | k_EmulatedTrackpadAction_Right
  | k_EmulatedTrackpadAction_Down
  | k_EmulatedTrackpadAction_UpLeft
  | k_EmulatedTrackpadAction_UpRight
  | k_EmulatedTrackpadAction_DownLeft
  | k_EmulatedTrackpadAction_DownRight
  deriving DecidableEq, Repr

export eEmulatedTrackpadAction (k_EmulatedTrackpadAction_None k_EmulatedTrackpadAction_Touch
  k_EmulatedTrackpadAction_Press k_EmulatedTrackpadAction_Left k_EmulatedTrackpadAction_Up
  k_EmulatedTrackpadAction_Right k_EmulatedTrackpadAction_Down k_EmulatedTrackpadAction_UpLeft
  k_EmulatedTrackpadAction_UpRight k_EmulatedTrackpadAction_DownLeft
  k_EmulatedTrackpadAction_DownRight)

/-- Integer value of an `eEmulatedTrackpadAction`: what the C++ comparisons `>=`, `>` on
the enum compare. -/
def eEmulatedTrackpadAction.toNat : eEmulatedTrackpadAction → Nat
  | k_EmulatedTrackpadAction_None => 0
  | k_EmulatedTrackpadAction_Touch => 1
  | k_EmulatedTrackpadAction_Press => 2
  | k_EmulatedTrackpadAction_Left => 3
  | k_EmulatedTrackpadAction_Up => 4
  | k_EmulatedTrackpadAction_Right => 5
  | k_EmulatedTrackpadAction_Down => 6
  | k_EmulatedTrackpadAction_UpLeft => 7
  | k_EmulatedTrackpadAction_UpRight => 8
  | k_EmulatedTrackpadAction_DownLeft => 9
  | k_EmulatedTrackpadAction_DownRight => 10

/-- Answer of `Controller::GetButtonState(id, out_state)` for the button with index `id`:
`some st` when the call returns `true` with `out_state = st`, `none` when it returns
`false`. -/
abbrev ButtonStateQuery := Nat → Option PSMButtonState

/-- The array `psButtonIDToEmulatedTouchpadAction`, indexed by button index. -/
abbrev ActionMap := Nat → eEmulatedTrackpadAction

/-! ## Touchpad emulation: the winning action -/

/-- The scan of `UpdateEmulatedTrackpad` (lines 434-452) over the remaining button indices
`idxs`, with `highestPriorityAction` the running winner. A button is counted when its
mapped action is not `None` and `Controller::GetButtonState` returns `true`; the state the
call stores in `button_state` is not read by the loop. -/
def scanTouchpadActions (actions : ActionMap) (query : ButtonStateQuery) :
    List Nat → eEmulatedTrackpadAction → eEmulatedTrackpadAction
  | [], highestPriorityAction => highestPriorityAction
  | buttonIndex :: rest, highestPriorityAction =>
    let action := actions buttonIndex
    if action ≠ k_EmulatedTrackpadAction_None then
      match query buttonIndex with
      | some _button_state =>
        let highest :=
          if action.toNat ≥ highestPriorityAction.toNat then action else highestPriorityAction
        if action.toNat ≥ k_EmulatedTrackpadAction_Press.toNat then
          highest
        else
          scanTouchpadActions actions query rest highest
      | none => scanTouchpadActions actions query rest highestPriorityAction
    else
      scanTouchpadActions actions query rest highestPriorityAction

/-- The value of `highestPriorityAction` after the loop of lines 434-452, for
`k_PSMButtonID_Count = count`. -/
def highestPriorityAction (count : Nat) (actions : ActionMap) (query : ButtonStateQuery) :
    eEmulatedTrackpadAction :=
  scanTouchpadActions actions query (List.range count) k_EmulatedTrackpadAction_None

/-- The running-maximum step of the scan: `if (action >= highest) highest = action`. -/
def raisePriority (highest action : eEmulatedTrackpadAction) : eEmulatedTrackpadAction :=
  if action.toNat ≥ highest.toNat then action else highest

/-- The maximum-priority action of a list of actions, `None` for the empty list. -/
def maxPriorityAction (l : List eEmulatedTrackpadAction) : eEmulatedTrackpadAction :=
  l.foldl raisePriority k_EmulatedTrackpadAction_None

/-- Whether a reported button state is `Pressed` or `Down`. -/
def isPressedOrDown : Option PSMButtonState → Bool
  | some PSMButtonState_PRESSED => true
  | some PSMButtonState_DOWN => true
  | _ => false

/-- The actions, in button order, of the buttons whose state is `Pressed` or `Down` and
whose mapped action is not `None`: the candidates named by the specification. -/
def pressedMappedActions (count : Nat) (actions : ActionMap) (query : ButtonStateQuery) :
    List eEmulatedTrackpadAction :=
  (List.range count).filterMap fun i =>
    if actions i ≠ k_EmulatedTrackpadAction_None ∧ isPressedOrDown (query i) = true then
      some (actions i)
    else none

/-- The actions, in scan order, of the buttons the scan counts: those with a non-`None`
mapping for which `Controller::GetButtonState` returns `true`. -/
def countedActions (actions : ActionMap) (query : ButtonStateQuery) (idxs : List Nat) :
    List eEmulatedTrackpadAction :=
  idxs.filterMap fun i =>
    if actions i ≠ k_EmulatedTrackpadAction_None ∧ (query i).isSome = true then
      some (actions i)
    else none

/-- The prefix of a list of actions up to and including the first action at or above
`Press`. -/
def throughFirstPress : List eEmulatedTrackpadAction → List eEmulatedTrackpadAction
  | [] => []
  | a :: rest =>
    if a.toNat ≥ k_EmulatedTrackpadAction_Press.toNat then [a] else a :: throughFirstPress rest

/-! ## Geometry, telemetry and host types -/

/-- The PSMoveClient vector type `PSMVector3f`. -/
structure PSMVector3f where
  x : ℚ
  y : ℚ
  z : ℚ
  deriving DecidableEq

/-- The PSMoveClient quaternion type `PSMQuatf`. -/
structure PSMQuatf where
  w : ℚ
  x : ℚ
  y : ℚ
  z : ℚ
  deriving DecidableEq

/-- The PSMoveClient pose type `PSMPosef`. -/
structure PSMPosef where
  Position : PSMVector3f
  Orientation : PSMQuatf
  deriving DecidableEq

/-- The constant `*k_psm_float_vector3_zero`. -/
def k_psm_float_vector3_zero : PSMVector3f := ⟨0, 0, 0⟩

/-- The constant `*k_psm_quaternion_identity`. -/
def k_psm_quaternion_identity : PSMQuatf := ⟨1, 0, 0, 0⟩

/-- Component-wise difference, `PSM_Vector3fSubtract(a, b)`. -/
def PSM_Vector3fSubtract (a b : PSMVector3f) : PSMVector3f :=
  ⟨a.x - b.x, a.y - b.y, a.z - b.z⟩

/-- The C function `fmaxf` on exact values. -/
def fmaxf (a b : ℚ) : ℚ := if a < b then b else a

/-- The C function `fminf` on exact values. -/
def fminf (a b : ℚ) : ℚ := if b < a then b else a

/-- The value of `(float)M_PI_2`, the single-precision number nearest to π/2. -/
def M_PI_2 : ℚ := 13176795 / 8388608

/-- The battery level enum `PSMBatteryState`. -/
inductive PSMBatteryState where
  | PSMBattery_0
  | PSMBattery_20
  | PSMBattery_40
  | PSMBattery_60
  | PSMBattery_80
  | PSMBattery_100
  | PSMBattery_Charging
  | PSMBattery_Charged
  deriving DecidableEq, Repr

export PSMBatteryState (PSMBattery_0 PSMBattery_20 PSMBattery_40 PSMBattery_60 PSMBattery_80
  PSMBattery_100 PSMBattery_Charging PSMBattery_Charged)

/-- The telemetry view `PSMPSMove` (`ControllerState.PSMoveState`), restricted to the
members read by `ps_move_controller.cpp`. `TriggerValue` is an `unsigned char`. -/
structure PSMPSMove where
  bIsPositionValid : Bool
  bIsOrientationValid : Bool
  Pose : PSMPosef
  TriangleButton : PSMButtonState
  CircleButton : PSMButtonState
  CrossButton : PSMButtonState
  SquareButton : PSMButtonState
  SelectButton : PSMButtonState
  StartButton : PSMButtonState
  PSButton : PSMButtonState
  MoveButton : PSMButtonState
  TriggerValue : Nat
  BatteryValue : PSMBatteryState
  deriving DecidableEq

/-- The OpenVR enum `vr::ETrackedControllerRole`. -/
inductive ETrackedControllerRole where
  | TrackedControllerRole_Invalid
  | TrackedControllerRole_LeftHand
  | TrackedControllerRole_RightHand
  | TrackedControllerRole_OptOut
  deriving DecidableEq, Repr

export ETrackedControllerRole (TrackedControllerRole_Invalid TrackedControllerRole_LeftHand
  TrackedControllerRole_RightHand TrackedControllerRole_OptOut)

/-- The OpenVR enum `vr::ETrackingResult`. -/
inductive ETrackingResult where
  | TrackingResult_Uninitialized
  | TrackingResult_Calibrating_InProgress
  | TrackingResult_Calibrating_OutOfRange
  | TrackingResult_Running_OK
  | TrackingResult_Running_OutOfRange
  | TrackingResult_Fallback_RotationOnly
  deriving DecidableEq, Repr

export ETrackingResult (TrackingResult_Uninitialized TrackingResult_Running_OK)

/-- The members of `ePSMButtonID` named in `ps_move_controller.cpp`. -/
inductive ePSMButtonID where
  | k_PSMButtonID_PS
  | k_PSMButtonID_Triangle
  | k_PSMButtonID_Circle
  | k_PSMButtonID_Cross
  | k_PSMButtonID_Square
  | k_PSMButtonID_Move
  | k_PSMButtonID_Select
  | k_PSMButtonID_Start
  | k_PSMButtonID_EmulatedTrackpadTouched
  | k_PSMButtonID_EmulatedTrackpadPressed
  deriving DecidableEq, Repr

export ePSMButtonID (k_PSMButtonID_PS k_PSMButtonID_Triangle k_PSMButtonID_Circle
  k_PSMButtonID_Cross k_PSMButtonID_Square k_PSMButtonID_Move k_PSMButtonID_Select
  k_PSMButtonID_Start k_PSMButtonID_EmulatedTrackpadTouched
  k_PSMButtonID_EmulatedTrackpadPressed)

/-- The members of `ePSMAxisID` named in `ps_move_controller.cpp`. -/
inductive ePSMAxisID where
  | k_PSMAxisID_Trigger
  | k_PSMAxisID_EmulatedTrackpad_X
  | k_PSMAxisID_EmulatedTrackpad_Y
  deriving DecidableEq, Repr

export ePSMAxisID (k_PSMAxisID_Trigger k_PSMAxisID_EmulatedTrackpad_X
  k_PSMAxisID_EmulatedTrackpad_Y)

/-- The members of `vr::DriverPose_t` written by `UpdateTrackingState`. -/
structure DriverPose_t where
  result : ETrackingResult
  deviceIsConnected : Bool
  willDriftInYaw : Bool
  shouldApplyHeadModel : Bool
  poseTimeOffset : ℚ
  qDriverFromHeadRotation : PSMQuatf
  vecDriverFromHeadTranslation : PSMVector3f
  vecPosition : PSMVector3f
  qRotation : PSMQuatf
  poseIsValid : Bool
  deriving DecidableEq

/-- A call from the controller into one of its collaborators. -/
inductive Effect where
  /-- The call `PSM_ResetControllerOrientationAsync(id, &target, nullptr)`. -/
  | ResetControllerOrientationAsync (target : PSMQuatf)
  /-- The call `Utils::RealignHMDTrackingSpace(q, offset, id, hmdPose, useOrientation)`. -/
  | RealignHMDTrackingSpace (controllerOrientationInHmdSpaceQuat : PSMQuatf)
      (controllerLocalOffsetFromHmdPosition : PSMVector3f) (hmdPose : PSMPosef)
      (bUseControllerOrientation : Bool)
  /-- The call `g_ServerTrackedDeviceProvider.SetHMDTrackingSpace(realignedPose)`. -/
  | SetHMDTrackingSpace (realignedPose : PSMPosef)
  /-- The call `Logger::Error(e.what())` of the `catch` block. -/
  | LoggerError
  /-- The call `Controller::UpdateButton(id, state)`. -/
  | UpdateButton (id : ePSMButtonID) (state : PSMButtonState)
  /-- The call `Controller::UpdateAxis(id, value)`. -/
  | UpdateAxis (id : ePSMAxisID) (value : ℚ)
  /-- The call `SetBoolProperty(container, Prop_DeviceIsCharging_Bool, value)`. -/
  | SetDeviceIsCharging (value : Bool)
  /-- The call `SetFloatProperty(container, Prop_DeviceBatteryPercentage_Float, value)`. -/
  | SetDeviceBatteryPercentage (value : ℚ)
  /-- The call `PSM_SetControllerRumble(id, PSMControllerRumbleChannel_All, fraction)`. -/
  | SetControllerRumble (rumble_fraction : ℚ)
  /-- The call `TrackedDevicePoseUpdated(id, m_Pose, sizeof(DriverPose_t))`. -/
  | TrackedDevicePoseUpdated (pose : DriverPose_t)
  deriving DecidableEq

/-- Constants and pure helper functions that `ps_move_controller.cpp` takes from headers
and libraries outside the file. -/
structure Env where
  /-- The enum bound `k_PSMButtonID_Count`. -/
  k_PSMButtonID_Count : Nat
  /-- The macro `DEFAULT_HAPTIC_DURATION`. -/
  DEFAULT_HAPTIC_DURATION : ℚ
  /-- The macro `DEFAULT_HAPTIC_AMPLITUDE`. -/
  DEFAULT_HAPTIC_AMPLITUDE : ℚ
  /-- The macro `DEFAULT_HAPTIC_FREQUENCY`. -/
  DEFAULT_HAPTIC_FREQUENCY : ℚ
  /-- The constant `k_fScalePSMoveAPIToMeters`. -/
  k_fScalePSMoveAPIToMeters : ℚ
  /-- The library function `PSM_QuatfCreateFromAngles`. -/
  PSM_QuatfCreateFromAngles : PSMVector3f → PSMQuatf
  /-- The helper `Utils::GetMetersPosInRotSpace(rotation, out_position, view)`, as the
  function from its inputs to `*out_position`. -/
  GetMetersPosInRotSpace : PSMQuatf → PSMPSMove → PSMVector3f
  /-- The integer value of a member of `ePSMButtonID`, used as an array index. -/
  buttonIndex : ePSMButtonID → Nat
  /-- The table `k_PSMButtonNames`, read at a member of `ePSMButtonID`. -/
  k_PSMButtonNames : ePSMButtonID → String
  /-- The table `k_VRTouchpadDirectionNames` of `k_max_vr_touchpad_directions` action
  names, read at the action whose integer value is the table index. -/
  k_VRTouchpadDirectionNames : eEmulatedTrackpadAction → String
  /-- The library function `PSM_QuatfRotateVector(q, v)`. -/
  PSM_QuatfRotateVector : PSMQuatf → PSMVector3f → PSMVector3f

/-- What the collaborators answer during one frame, and the clock readings of that frame. -/
structure HostFrame where
  /-- Answer of `HasButton(k_PSMButtonID_EmulatedTrackpadPressed)`. -/
  HasButton_EmulatedTrackpadPressed : Bool
  /-- Answers of `Controller::GetButtonState` during the touchpad scan. -/
  GetButtonState : ButtonStateQuery
  /-- Result of `Utils::GetHMDPoseInMeters()`; `none` when it throws. -/
  GetHMDPoseInMeters : Option PSMPosef
  /-- Result of `Utils::RealignHMDTrackingSpace(...)`; `none` when it throws. -/
  RealignHMDTrackingSpace : PSMQuatf → PSMVector3f → PSMPosef → Bool → Option PSMPosef
  /-- The reading of `now()` in the hold detector of `UpdateControllerState`. -/
  nowResetPose : ℚ
  /-- The reading of `now()` in `UpdateEmulatedTrackpad`. -/
  nowTouchpad : ℚ

/-- The data members of `PSMoveController` (and of its base classes, as far as
`ps_move_controller.cpp` uses them). -/
structure PSMoveController where
  m_TrackedControllerRole : ETrackedControllerRole
  m_trackingStatus : ETrackingResult
  m_Pose : DriverPose_t
  m_nPoseSequenceNumber : Int
  m_bIsBatteryCharging : Bool
  m_fBatteryChargeFraction : ℚ
  m_bRumbleSuppressed : Bool
  m_pendingHapticDurationSecs : ℚ
  m_pendingHapticAmplitude : ℚ
  m_pendingHapticFrequency : ℚ
  m_lastTimeRumbleSent : ℚ
  m_lastTimeRumbleSentValid : Bool
  m_resetPoseButtonPressTime : ℚ
  m_bResetPoseRequestSent : Bool
  m_resetAlignButtonPressTime : ℚ
  m_bResetAlignRequestSent : Bool
  m_fVirtuallExtendControllersZMeters : ℚ
  m_fVirtuallExtendControllersYMeters : ℚ
  m_fVirtuallyRotateController : Bool
  m_bDelayAfterTouchpadPress : Bool
  m_bTouchpadWasActive : Bool
  m_lastTouchpadPressTime : ℚ
  m_fMetersPerTouchpadAxisUnits : ℚ
  m_fControllerMetersInFrontOfHmdAtCalibration : ℚ
  m_posMetersAtTouchpadPressTime : PSMVector3f
  m_driverSpaceRotationAtTouchpadPressTime : PSMQuatf
  m_bDisableHMDAlignmentGesture : Bool
  m_bUseControllerOrientationInHMDAlignment : Bool
  m_fLinearVelocityMultiplier : ℚ
  m_fLinearVelocityExponent : ℚ
  psButtonIDToEmulatedTouchpadAction : ActionMap

/-! ## Battery normalizer -/

/-- The `switch` of `UpdateBatteryChargeState` (lines 768-804): the charging flag and the
charge fraction looked up for a battery enum value. -/
def batteryLookup : PSMBatteryState → Bool × ℚ
  | PSMBattery_0 => (false, 0)
  | PSMBattery_20 => (false, 2 / 10)
  | PSMBattery_40 => (false, 4 / 10)
  | PSMBattery_60 => (false, 6 / 10)
  | PSMBattery_80 => (false, 8 / 10)
  | PSMBattery_100 => (false, 1)
  | PSMBattery_Charging => (true, 99 / 100)
  | PSMBattery_Charged => (true, 1)

/-- The method `PSMoveController::UpdateBatteryChargeState` (lines 766-815). -/
def UpdateBatteryChargeState (newBatteryEnum : PSMBatteryState) (c : PSMoveController) :
    PSMoveController × List Effect :=
  let bIsBatteryCharging := (batteryLookup newBatteryEnum).1
  let fBatteryChargeFraction := (batteryLookup newBatteryEnum).2
  let r1 : PSMoveController × List Effect :=
    if bIsBatteryCharging ≠ c.m_bIsBatteryCharging then
      ({ c with m_bIsBatteryCharging := bIsBatteryCharging },
        [Effect.SetDeviceIsCharging bIsBatteryCharging])
    else (c, [])
  if fBatteryChargeFraction ≠ r1.1.m_fBatteryChargeFraction then
    ({ r1.1 with m_fBatteryChargeFraction := fBatteryChargeFraction },
      r1.2 ++ [Effect.SetDeviceBatteryPercentage fBatteryChargeFraction])
  else r1

/-! ## Touchpad emulation engine -/

/-- The local variables of `UpdateEmulatedTrackpad` that are published at its end, with
their initial values (lines 454-457). -/
structure TrackpadLocals where
  touchpad_x : ℚ := 0
  touchpad_y : ℚ := 0
  emulatedTouchPadTouchedState : PSMButtonState := PSMButtonState_UP
  emulatedTouchPadPressedState : PSMButtonState := PSMButtonState_UP
  deriving DecidableEq

/-- Lines 459-467: the touched and pressed flags for `Touch` and `Press`. -/
def touchOrPressFlags (highest : eEmulatedTrackpadAction) (l : TrackpadLocals) :
    TrackpadLocals :=
  if highest = k_EmulatedTrackpadAction_Touch then
    { l with emulatedTouchPadTouchedState := PSMButtonState_DOWN }
  else if highest = k_EmulatedTrackpadAction_Press then
    { l with emulatedTouchPadTouchedState := PSMButtonState_DOWN,
             emulatedTouchPadPressedState := PSMButtonState_DOWN }
  else l

/-- The `switch` of lines 476-510: the fixed axis pair of a direction action; the axes are
left as they are for the other actions. -/
def directionAxes (highest : eEmulatedTrackpadAction) (l : TrackpadLocals) : TrackpadLocals :=
  match highest with
  | k_EmulatedTrackpadAction_Left => { l with touchpad_x := -1, touchpad_y := 0 }
  | k_EmulatedTrackpadAction_Up => { l with touchpad_x := 0, touchpad_y := 1 }
  | k_EmulatedTrackpadAction_Right => { l with touchpad_x := 1, touchpad_y := 0 }
  | k_EmulatedTrackpadAction_Down => { l with touchpad_x := 0, touchpad_y := -1 }
  | k_EmulatedTrackpadAction_UpLeft =>
    { l with touchpad_x := -(707 / 1000), touchpad_y := 707 / 1000 }
  | k_EmulatedTrackpadAction_UpRight =>
    { l with touchpad_x := 707 / 1000, touchpad_y := 707 / 1000 }
  | k_EmulatedTrackpadAction_DownLeft =>
    { l with touchpad_x := -(707 / 1000), touchpad_y := -(707 / 1000) }
  | k_EmulatedTrackpadAction_DownRight =>
    { l with touchpad_x := 707 / 1000, touchpad_y := -(707 / 1000) }
  | _ => l

/-- Lines 471-511: a direction action sets both flags and the fixed axis pair. -/
def fixedDirection (highest : eEmulatedTrackpadAction) (l : TrackpadLocals) : TrackpadLocals :=
  if highest.toNat > k_EmulatedTrackpadAction_Press.toNat then
    directionAxes highest
      { l with emulatedTouchPadTouchedState := PSMButtonState_DOWN,
               emulatedTouchPadPressedState := PSMButtonState_DOWN }
  else l

/-- Lines 517-530: the value of `bIsNewTouchpadLocation`, where `now` is the clock reading
of line 520. -/
def bIsNewTouchpadLocation (now : ℚ) (c : PSMoveController) : Bool :=
  if c.m_bDelayAfterTouchpadPress then
    if !c.m_bTouchpadWasActive then
      decide (now - c.m_lastTouchpadPressTime ≥ 2000)
    else true
  else true

/-- Line 529: with the delay-after-press setting, the press time is set to `now`. -/
def stampLastTouchpadPressTime (now : ℚ) (c : PSMoveController) : PSMoveController :=
  if c.m_bDelayAfterTouchpadPress then { c with m_lastTouchpadPressTime := now } else c

/-- Lines 535-538 ("Just pressed"): the anchor orientation and the anchor position are
replaced by a snapshot of the current pose. -/
def snapshotTouchpadAnchor (env : Env) (view : PSMPSMove) (c : PSMoveController) :
    PSMoveController :=
  let rotation := view.Pose.Orientation
  { c with
    m_driverSpaceRotationAtTouchpadPressTime := rotation,
    m_posMetersAtTouchpadPressTime := env.GetMetersPosInRotSpace rotation view }

/-- Lines 547-558 ("Held"): the axes from the offset to the anchor. -/
def heldTouchpadAxes (env : Env) (view : PSMPSMove) (c : PSMoveController)
    (l : TrackpadLocals) : TrackpadLocals :=
  let newPosMeters :=
    env.GetMetersPosInRotSpace c.m_driverSpaceRotationAtTouchpadPressTime view
  let offsetMeters := PSM_Vector3fSubtract newPosMeters c.m_posMetersAtTouchpadPressTime
  { l with
    touchpad_x := fminf (fmaxf (offsetMeters.x / c.m_fMetersPerTouchpadAxisUnits) (-1)) 1,
    touchpad_y := fminf (fmaxf (-offsetMeters.z / c.m_fMetersPerTouchpadAxisUnits) (-1)) 1 }

/-- Lines 514-565: the spatial offset method used for `Touch` and `Press`. -/
def spatialOffset (env : Env) (now : ℚ) (view : PSMPSMove)
    (highest : eEmulatedTrackpadAction) (c : PSMoveController) (l : TrackpadLocals) :
    PSMoveController × TrackpadLocals :=
  if highest = k_EmulatedTrackpadAction_Touch ∨ highest = k_EmulatedTrackpadAction_Press then
    let isNew := bIsNewTouchpadLocation now c
    let c1 := stampLastTouchpadPressTime now c
    if isNew then
      if !c1.m_bTouchpadWasActive then
        (snapshotTouchpadAnchor env view c1, l)
      else
        (c1, heldTouchpadAxes env view c1 l)
    else (c1, l)
  else (c, l)

/-- Lines 567-571: the four publishing calls. -/
def publishTrackpad (l : TrackpadLocals) : List Effect :=
  [Effect.UpdateButton k_PSMButtonID_EmulatedTrackpadTouched l.emulatedTouchPadTouchedState,
   Effect.UpdateButton k_PSMButtonID_EmulatedTrackpadPressed l.emulatedTouchPadPressedState,
   Effect.UpdateAxis k_PSMAxisID_EmulatedTrackpad_X l.touchpad_x,
   Effect.UpdateAxis k_PSMAxisID_EmulatedTrackpad_Y l.touchpad_y]

/-- The method `PSMoveController::UpdateEmulatedTrackpad` (lines 428-575), once the
winning action `highest` is known (lines 454-575). -/
def UpdateEmulatedTrackpadWith (env : Env) (now : ℚ) (view : PSMPSMove)
    (highest : eEmulatedTrackpadAction) (c : PSMoveController) :
    PSMoveController × List Effect :=
  let l0 : TrackpadLocals := {}
  let l1 := touchOrPressFlags highest l0
  let l2 := fixedDirection highest l1
  let r := spatialOffset env now view highest c l2
  ({ r.1 with m_bTouchpadWasActive := decide (highest ≠ k_EmulatedTrackpadAction_None) },
    publishTrackpad r.2)

/-- The method `PSMoveController::UpdateEmulatedTrackpad` (lines 428-575). -/
def UpdateEmulatedTrackpad (env : Env) (host : HostFrame) (view : PSMPSMove)
    (c : PSMoveController) : PSMoveController × List Effect :=
  if (!host.HasButton_EmulatedTrackpadPressed && !host.HasButton_EmulatedTrackpadPressed) then
    (c, [])
  else
    UpdateEmulatedTrackpadWith env host.nowTouchpad view
      (highestPriorityAction env.k_PSMButtonID_Count c.psButtonIDToEmulatedTouchpadAction
        host.GetButtonState) c

/-- Both axes of the locals lie in `[-1, 1]`. -/
def AxesBounded (l : TrackpadLocals) : Prop :=
  (-1 ≤ l.touchpad_x ∧ l.touchpad_x ≤ 1) ∧ (-1 ≤ l.touchpad_y ∧ l.touchpad_y ≤ 1)

/-! ## Haptic rate limiter -/

/-- Rounding of a rational to the nearest integer, ties to the even one. -/
def roundHalfEven (x : ℚ) : ℤ :=
  let f := ⌊x⌋
  if x - f < 1 / 2 then f
  else if x - f > 1 / 2 then f + 1
  else if f % 2 = 0 then f else f + 1

/-- The binary exponent of a binary32 value of the magnitude of `x`: `⌊log₂ |x|⌋`, and
`-126` in the subnormal range. -/
def binaryExponent (x : ℚ) : ℤ := max (Int.log 2 |x|) (-126)

/-- The result of a `float` operation whose exact result is `x`: the nearest binary32 value
(24 significant bits), ties to even, which is the IEEE 754 default rounding. Overflow to
infinity is not modelled. -/
def roundToBinary32 (x : ℚ) : ℚ :=
  let ulp : ℚ := 2 ^ (binaryExponent x - 23)
  (roundHalfEven (x / ulp) : ℚ) * ulp

/-- The conversion `static_cast<uint16_t>(x)` of a floating-point value: the fractional
part is discarded (rounding toward zero) and the result is kept in 16 bits. For a value
outside `0 .. 65535` C++ leaves the result undefined; it is modelled by reduction modulo
`2 ^ 16`. -/
def toUInt16 (x : ℚ) : Nat :=
  ((if 0 ≤ x then ⌊x⌋ else ⌈x⌉) % 65536).toNat

/-- Lines 713-719: the value of `bTimoutElapsed` for the clock reading `now`. -/
def bTimoutElapsed (now : ℚ) (c : PSMoveController) : Bool :=
  if c.m_lastTimeRumbleSentValid then
    decide (now - c.m_lastTimeRumbleSent ≥ 33)
  else true

/-- Lines 707 and 723-740: the rumble fraction sent for a pending request. In line 707 the
product `m_pendingHapticDurationSecs * 1000000` is a `float` multiplication, so it is
rounded to binary32 before `static_cast<uint16_t>` cuts off the fractional part. -/
def rumbleFraction (m_pendingHapticDurationSecs m_pendingHapticAmplitude : ℚ) : ℚ :=
  let pendingHapticPulseDurationMicroSecs :=
    toUInt16 (roundToBinary32 (m_pendingHapticDurationSecs * 1000000))
  let f0 : ℚ := ((pendingHapticPulseDurationMicroSecs : ℚ) / 5000) * m_pendingHapticAmplitude
  let f1 : ℚ :=
    if m_pendingHapticDurationSecs ≠ 0 then
      if f0 < 35 / 100 then 35 / 100 else f0
    else f0
  if f1 > 1 then 1 else f1

/-- The pending haptic request reset to the defaults (lines 754-756 and 760-762). -/
def resetPendingHaptic (env : Env) (c : PSMoveController) : PSMoveController :=
  { c with
    m_pendingHapticDurationSecs := env.DEFAULT_HAPTIC_DURATION,
    m_pendingHapticAmplitude := env.DEFAULT_HAPTIC_AMPLITUDE,
    m_pendingHapticFrequency := env.DEFAULT_HAPTIC_FREQUENCY }

/-- The method `PSMoveController::UpdateRumbleState` (lines 698-764), where `now` is the
clock reading of line 712. -/
def UpdateRumbleState (env : Env) (now : ℚ) (c : PSMoveController) :
    PSMoveController × List Effect :=
  if !c.m_bRumbleSuppressed then
    if bTimoutElapsed now c then
      let rumble_fraction :=
        rumbleFraction c.m_pendingHapticDurationSecs c.m_pendingHapticAmplitude
      (resetPendingHaptic env
          { c with m_lastTimeRumbleSent := now, m_lastTimeRumbleSentValid := true },
        [Effect.SetControllerRumble rumble_fraction])
    else (c, [])
  else (resetPendingHaptic env c, [])

/-- The haptic event fields read by `SetPendingHapticVibration`. -/
structure VREvent_HapticVibration_t where
  fDurationSeconds : ℚ
  fFrequency : ℚ
  fAmplitude : ℚ
  deriving DecidableEq

/-- The method `PSMoveController::SetPendingHapticVibration` (lines 686-694);
`isRumble` is the answer of `IsHapticIDForHapticData(k_PSMHapticID_Rumble, hapticData)`. -/
def SetPendingHapticVibration (isRumble : Bool) (hapticData : VREvent_HapticVibration_t)
    (c : PSMoveController) : PSMoveController :=
  if isRumble then
    { c with
      m_pendingHapticDurationSecs := hapticData.fDurationSeconds,
      m_pendingHapticAmplitude := hapticData.fAmplitude,
      m_pendingHapticFrequency := hapticData.fFrequency }
  else c

/-! ## Alignment gesture detector and per-frame controller update -/

/-- Lines 277-280: the chord-trigger predicate `bStartRealignHMDTriggered`. -/
def bStartRealignHMDTriggered (clientView : PSMPSMove) : Bool :=
  (clientView.StartButton == PSMButtonState_PRESSED &&
      clientView.SelectButton == PSMButtonState_PRESSED) ||
    (clientView.StartButton == PSMButtonState_PRESSED &&
      clientView.SelectButton == PSMButtonState_DOWN) ||
    (clientView.StartButton == PSMButtonState_DOWN &&
      clientView.SelectButton == PSMButtonState_PRESSED)

/-- Lines 285-296: the state of the role-designated recenter button. -/
def resetPoseButtonState (role : ETrackedControllerRole) (clientView : PSMPSMove) :
    PSMButtonState :=
  match role with
  | TrackedControllerRole_LeftHand => clientView.SelectButton
  | TrackedControllerRole_RightHand => clientView.StartButton
  | _ => clientView.SelectButton

/-- Lines 298-319: the hold detector. It returns the updated controller and the value of
`bRecenterRequestTriggered`; `now` is the clock reading of line 301 or 307. -/
def holdDetector (now : ℚ) (state : PSMButtonState) (c : PSMoveController) :
    PSMoveController × Bool :=
  match state with
  | PSMButtonState_PRESSED => ({ c with m_resetPoseButtonPressTime := now }, false)
  | PSMButtonState_DOWN =>
    if !c.m_bResetPoseRequestSent then
      (c, decide (now - c.m_resetPoseButtonPressTime ≥ 250))
    else (c, false)
  | PSMButtonState_RELEASED => ({ c with m_bResetPoseRequestSent := false }, false)
  | PSMButtonState_UP => (c, false)

/-- Lines 345-356: the `try` block of the chord branch and its `catch`. -/
def realignTrackingSpace (host : HostFrame) (controllerOrientationInHmdSpaceQuat : PSMQuatf)
    (controllerLocalOffsetFromHmdPosition : PSMVector3f) (bUseOrientation : Bool) :
    List Effect :=
  match host.GetHMDPoseInMeters with
  | none => [Effect.LoggerError]
  | some hmdPose =>
    Effect.RealignHMDTrackingSpace controllerOrientationInHmdSpaceQuat
        controllerLocalOffsetFromHmdPosition hmdPose bUseOrientation ::
      match host.RealignHMDTrackingSpace controllerOrientationInHmdSpaceQuat
          controllerLocalOffsetFromHmdPosition hmdPose bUseOrientation with
      | none => [Effect.LoggerError]
      | some realignedPose => [Effect.SetHMDTrackingSpace realignedPose]

/-- Lines 326-358: the chord branch of `UpdateControllerState`. -/
def chordBranch (env : Env) (host : HostFrame) (c : PSMoveController) :
    PSMoveController × List Effect :=
  let controllerBallPointedUpQuat := env.PSM_QuatfCreateFromAngles ⟨M_PI_2, 0, 0⟩
  let controllerOrientationInHmdSpaceQuat := env.PSM_QuatfCreateFromAngles ⟨M_PI_2, 0, 0⟩
  let controllerLocalOffsetFromHmdPosition : PSMVector3f :=
    ⟨0, 0, -1 * c.m_fControllerMetersInFrontOfHmdAtCalibration⟩
  ({ c with m_bResetPoseRequestSent := true, m_bResetAlignRequestSent := true },
    Effect.ResetControllerOrientationAsync controllerBallPointedUpQuat ::
      realignTrackingSpace host controllerOrientationInHmdSpaceQuat
        controllerLocalOffsetFromHmdPosition c.m_bUseControllerOrientationInHMDAlignment)

/-- Lines 360-363: the hold-recenter branch of `UpdateControllerState`. -/
def recenterBranch (c : PSMoveController) : PSMoveController × List Effect :=
  ({ c with m_bResetPoseRequestSent := true },
    [Effect.ResetControllerOrientationAsync k_psm_quaternion_identity])

/-- Lines 367-374: the eight native button updates, in program order. -/
def nativeButtonUpdates (clientView : PSMPSMove) : List Effect :=
  [Effect.UpdateButton k_PSMButtonID_Circle clientView.CircleButton,
   Effect.UpdateButton k_PSMButtonID_Cross clientView.CrossButton,
   Effect.UpdateButton k_PSMButtonID_Move clientView.MoveButton,
   Effect.UpdateButton k_PSMButtonID_PS clientView.PSButton,
   Effect.UpdateButton k_PSMButtonID_Select clientView.SelectButton,
   Effect.UpdateButton k_PSMButtonID_Square clientView.SquareButton,
   Effect.UpdateButton k_PSMButtonID_Start clientView.StartButton,
   Effect.UpdateButton k_PSMButtonID_Triangle clientView.TriangleButton]

/-- Line 380: the trigger axis update. -/
def triggerAxisUpdate (clientView : PSMPSMove) : Effect :=
  Effect.UpdateAxis k_PSMAxisID_Trigger ((clientView.TriggerValue : ℚ) / 255)

/-- Lines 366-383: the normal branch of `UpdateControllerState`. -/
def normalBranch (env : Env) (host : HostFrame) (clientView : PSMPSMove)
    (c : PSMoveController) : PSMoveController × List Effect :=
  let touchpad := UpdateEmulatedTrackpad env host clientView c
  let battery := UpdateBatteryChargeState clientView.BatteryValue touchpad.1
  (battery.1,
    nativeButtonUpdates clientView ++ touchpad.2 ++ [triggerAxisUpdate clientView] ++ battery.2)

/-- The method `PSMoveController::UpdateControllerState` (lines 269-385). -/
def UpdateControllerState (env : Env) (host : HostFrame) (clientView : PSMPSMove)
    (c : PSMoveController) : PSMoveController × List Effect :=
  let hold := holdDetector host.nowResetPose
    (resetPoseButtonState c.m_TrackedControllerRole clientView) c
  if (bStartRealignHMDTriggered clientView && !hold.1.m_bDisableHMDAlignmentGesture) then
    chordBranch env host hold.1
  else if hold.2 then
    recenterBranch hold.1
  else
    normalBranch env host clientView hold.1

/-! ## Construction -/

/-- What the settings store answers. `GetString` is `none` when the fetch reports an
error; `LoadBool` and `LoadFloat` are the helpers of `SettingsUtil`, taking section, key
and default value. -/
structure IVRSettings where
  GetString : String → String → Option String
  LoadBool : String → String → Bool → Bool
  LoadFloat : String → String → ℚ → ℚ

/-- The values of `eEmulatedTrackpadAction` in the order of their integer values: the range
of the loop index `vr_touchpad_direction_index`. -/
def touchpadDirections : List eEmulatedTrackpadAction :=
  [k_EmulatedTrackpadAction_None, k_EmulatedTrackpadAction_Touch,
   k_EmulatedTrackpadAction_Press, k_EmulatedTrackpadAction_Left,
   k_EmulatedTrackpadAction_Up, k_EmulatedTrackpadAction_Right,
   k_EmulatedTrackpadAction_Down, k_EmulatedTrackpadAction_UpLeft,
   k_EmulatedTrackpadAction_UpRight, k_EmulatedTrackpadAction_DownLeft,
   k_EmulatedTrackpadAction_DownRight]

/-- The test `strcasecmp(a, b) == 0`: the two strings agree character by character once
every character is lower-cased. -/
def strcasecmpIsZero (a b : String) : Bool :=
  a.data.map Char.toLower == b.data.map Char.toLower

/-- Lines 140-145 (and 156-161): the first action whose name equals the configured string
ignoring case replaces the current direction; without a match the direction is kept. -/
def matchTouchpadDirection (env : Env) (remapString : String)
    (vrTouchpadDirection : eEmulatedTrackpadAction) : eEmulatedTrackpadAction :=
  match touchpadDirections.find?
      (fun a => strcasecmpIsZero remapString (env.k_VRTouchpadDirectionNames a)) with
  | some a => a
  | none => vrTouchpadDirection

/-- The name of the per-controller touchpad section built by `snprintf` in line 150. -/
def perControllerSection (controllerId : Int) : String :=
  "psmove_touchpad_directions_" ++ toString controllerId

/-- Lines 127-164: the value of `vrTouchpadDirection` when the mapping is saved. -/
def resolveTouchpadDirection (env : Env) (pSettings : Option IVRSettings)
    (psButtonID : ePSMButtonID) (controllerId : Int) : eEmulatedTrackpadAction :=
  match pSettings with
  | none => k_EmulatedTrackpadAction_None
  | some settings =>
    let szPSButtonName := env.k_PSMButtonNames psButtonID
    let fromDefaultSection :=
      match settings.GetString "psmove_touchpad_directions" szPSButtonName with
      | some str => matchTouchpadDirection env str k_EmulatedTrackpadAction_None
      | none => k_EmulatedTrackpadAction_None
    if 0 ≤ controllerId ∧ controllerId ≤ 9 then
      match settings.GetString (perControllerSection controllerId) szPSButtonName with
      | some str => matchTouchpadDirection env str fromDefaultSection
      | none => fromDefaultSection
    else fromDefaultSection

/-- The method `PSMoveController::LoadEmulatedTouchpadActions` (lines 122-169). -/
def LoadEmulatedTouchpadActions (env : Env) (pSettings : Option IVRSettings)
    (psButtonID : ePSMButtonID) (controllerId : Int) (c : PSMoveController) :
    PSMoveController :=
  { c with
    psButtonIDToEmulatedTouchpadAction :=
      Function.update c.psButtonIDToEmulatedTouchpadAction (env.buttonIndex psButtonID)
        (resolveTouchpadDirection env pSettings psButtonID controllerId) }

/-- The member initialisers of the constructor (lines 25-59 and 69-75). `now` is the clock
reading of line 59, `basePose` the value the base class gives `m_Pose`, and
`indeterminate` the value of the member `m_fMetersPerTouchpadAxisUnits`, which has no
initialiser. -/
def memberDefaults (trackedControllerRole : ETrackedControllerRole) (now : ℚ)
    (basePose : DriverPose_t) (indeterminate : ℚ) (env : Env) : PSMoveController :=
  { m_TrackedControllerRole := trackedControllerRole
    m_trackingStatus := TrackingResult_Uninitialized
    m_Pose := basePose
    m_nPoseSequenceNumber := 0
    m_bIsBatteryCharging := false
    m_fBatteryChargeFraction := 0
    m_bRumbleSuppressed := false
    m_pendingHapticDurationSecs := env.DEFAULT_HAPTIC_DURATION
    m_pendingHapticAmplitude := env.DEFAULT_HAPTIC_AMPLITUDE
    m_pendingHapticFrequency := env.DEFAULT_HAPTIC_FREQUENCY
    m_lastTimeRumbleSent := 0
    m_lastTimeRumbleSentValid := false
    m_resetPoseButtonPressTime := 0
    m_bResetPoseRequestSent := false
    m_resetAlignButtonPressTime := 0
    m_bResetAlignRequestSent := false
    m_fVirtuallExtendControllersZMeters := 0
    m_fVirtuallExtendControllersYMeters := 0
    m_fVirtuallyRotateController := false
    m_bDelayAfterTouchpadPress := false
    m_bTouchpadWasActive := false
    m_lastTouchpadPressTime := now
    m_fMetersPerTouchpadAxisUnits := indeterminate
    m_fControllerMetersInFrontOfHmdAtCalibration := 0
    m_posMetersAtTouchpadPressTime := k_psm_float_vector3_zero
    m_driverSpaceRotationAtTouchpadPressTime := k_psm_quaternion_identity
    m_bDisableHMDAlignmentGesture := false
    m_bUseControllerOrientationInHMDAlignment := false
    m_fLinearVelocityMultiplier := 1
    m_fLinearVelocityExponent := 0
    psButtonIDToEmulatedTouchpadAction := fun _ => k_EmulatedTrackpadAction_None }

/-- Lines 79-108: the settings loaded when `pSettings` is not null. -/
def loadSettings (env : Env) (settings : IVRSettings) (psmControllerId : Int)
    (c : PSMoveController) : PSMoveController :=
  let load := fun (id : ePSMButtonID) (c : PSMoveController) =>
    LoadEmulatedTouchpadActions env (some settings) id psmControllerId c
  let c := load k_PSMButtonID_PS c
  let c := load k_PSMButtonID_Move c
  let c := load k_PSMButtonID_Triangle c
  let c := load k_PSMButtonID_Square c
  let c := load k_PSMButtonID_Circle c
  let c := load k_PSMButtonID_Cross c
  let c := load k_PSMButtonID_Select c
  let c := load k_PSMButtonID_Start c
  { c with
    m_bDelayAfterTouchpadPress :=
      settings.LoadBool "psmove_touchpad" "delay_after_touchpad_press"
        c.m_bDelayAfterTouchpadPress
    m_fMetersPerTouchpadAxisUnits :=
      settings.LoadFloat "psmove" "meters_per_touchpad_units" (75 / 1000)
    m_fLinearVelocityMultiplier :=
      settings.LoadFloat "psmove_settings" "linear_velocity_multiplier" 1
    m_fLinearVelocityExponent :=
      settings.LoadFloat "psmove_settings" "linear_velocity_exponent" 0
    m_bRumbleSuppressed :=
      settings.LoadBool "psmove_settings" "rumble_suppressed" c.m_bRumbleSuppressed
    m_fVirtuallExtendControllersYMeters :=
      settings.LoadFloat "psmove_settings" "psmove_extend_y" 0
    m_fVirtuallExtendControllersZMeters :=
      settings.LoadFloat "psmove_settings" "psmove_extend_z" 0
    m_fVirtuallyRotateController :=
      settings.LoadBool "psmove_settings" "psmove_rotate" false
    m_fControllerMetersInFrontOfHmdAtCalibration :=
      settings.LoadFloat "psmove" "m_fControllerMetersInFrontOfHmdAtCallibration" (6 / 100)
    m_bDisableHMDAlignmentGesture :=
      settings.LoadBool "psmove_settings" "disable_alignment_gesture" false
    m_bUseControllerOrientationInHMDAlignment :=
      settings.LoadBool "psmove_settings" "use_orientation_in_alignment" true }

/-- The constructor `PSMoveController::PSMoveController` (lines 21-115). -/
def PSMoveController.construct (env : Env) (psmControllerId : Int)
    (trackedControllerRole : ETrackedControllerRole) (pSettings : Option IVRSettings)
    (now : ℚ) (basePose : DriverPose_t) (indeterminate : ℚ) : PSMoveController :=
  let c0 := memberDefaults trackedControllerRole now basePose indeterminate env
  let c1 :=
    match pSettings with
    | some settings => loadSettings env settings psmControllerId c0
    | none => c0
  { c1 with
    m_trackingStatus :=
      if c1.m_bDisableHMDAlignmentGesture then TrackingResult_Running_OK
      else TrackingResult_Uninitialized }

/-! ## Pose transform pipeline -/

/-- The library function `PSM_Vector3fScaleAndAdd(v, s, b)`, which returns `v * s + b`. -/
def PSM_Vector3fScaleAndAdd (v : PSMVector3f) (s : ℚ) (b : PSMVector3f) : PSMVector3f :=
  ⟨v.x * s + b.x, v.y * s + b.y, v.z * s + b.z⟩

/-- Lines 606-611: the raw position scaled to meters. -/
def scaledPosition (env : Env) (position : PSMVector3f) : PSMVector3f :=
  ⟨position.x * env.k_fScalePSMoveAPIToMeters, position.y * env.k_fScalePSMoveAPIToMeters,
    position.z * env.k_fScalePSMoveAPIToMeters⟩

/-- Lines 614-638: the virtual extension of the controller, applied to the position
`vecPosition` written before. -/
def virtualExtension (env : Env) (c : PSMoveController) (orientation : PSMQuatf)
    (vecPosition : PSMVector3f) : PSMVector3f :=
  if c.m_fVirtuallExtendControllersYMeters ≠ 0 ∨ c.m_fVirtuallExtendControllersZMeters ≠ 0 then
    let shift := vecPosition
    let shift :=
      if c.m_fVirtuallExtendControllersZMeters ≠ 0 then
        PSM_Vector3fScaleAndAdd (env.PSM_QuatfRotateVector orientation ⟨0, 0, -1⟩)
          c.m_fVirtuallExtendControllersZMeters shift
      else shift
    let shift :=
      if c.m_fVirtuallExtendControllersYMeters ≠ 0 then
        PSM_Vector3fScaleAndAdd (env.PSM_QuatfRotateVector orientation ⟨0, -1, 0⟩)
          c.m_fVirtuallExtendControllersYMeters shift
      else shift
    shift
  else vecPosition

/-- Lines 641-648: the rotation published for an orientation, mirrored when
`m_fVirtuallyRotateController` is set. -/
def mirrorRotation (m_fVirtuallyRotateController : Bool) (orientation : PSMQuatf) : PSMQuatf :=
  { w := if m_fVirtuallyRotateController then -orientation.w else orientation.w
    x := orientation.x
    y := orientation.y
    z := if m_fVirtuallyRotateController then -orientation.z else orientation.z }

/-- Lines 582-679: the value of `m_Pose` at the end of `UpdateTrackingState`; `isConnected`
is `m_PSMServiceController->IsConnected`. -/
def trackedPose (env : Env) (isConnected : Bool) (view : PSMPSMove) (c : PSMoveController) :
    DriverPose_t :=
  { c.m_Pose with
    result := c.m_trackingStatus
    deviceIsConnected := isConnected
    willDriftInYaw := false
    shouldApplyHeadModel := false
    poseTimeOffset := -(16 / 1000)
    qDriverFromHeadRotation := ⟨1, 0, 0, 0⟩
    vecDriverFromHeadTranslation := ⟨0, 0, 0⟩
    vecPosition :=
      virtualExtension env c view.Pose.Orientation (scaledPosition env view.Pose.Position)
    qRotation := mirrorRotation c.m_fVirtuallyRotateController view.Pose.Orientation
    poseIsValid := view.bIsPositionValid && view.bIsOrientationValid }

/-- The method `PSMoveController::UpdateTrackingState` (lines 577-684). -/
def UpdateTrackingState (env : Env) (isConnected : Bool) (view : PSMPSMove)
    (c : PSMoveController) : PSMoveController × List Effect :=
  let m_Pose := trackedPose env isConnected view c
  ({ c with m_Pose := m_Pose }, [Effect.TrackedDevicePoseUpdated m_Pose])

/-- The members of `*m_PSMServiceController` read by `Update`. -/
structure PSMController where
  IsConnected : Bool
  OutputSequenceNum : Int
  PSMoveState : PSMPSMove

/-- Line 825: the sequence number of the sample is recorded as the last processed one. -/
def recordSequenceNumber (service : PSMController) (c : PSMoveController) :
    PSMoveController :=
  { c with m_nPoseSequenceNumber := service.OutputSequenceNum }

/-- Lines 824-829: the processing of a telemetry sample that is newer than the last
processed one. -/
def processNewSample (env : Env) (host : HostFrame) (service : PSMController)
    (c : PSMoveController) : PSMoveController × List Effect :=
  if c.m_nPoseSequenceNumber < service.OutputSequenceNum then
    let tracking := UpdateTrackingState env service.IsConnected service.PSMoveState
      (recordSequenceNumber service c)
    let controls := UpdateControllerState env host service.PSMoveState tracking.1
    (controls.1, tracking.2 ++ controls.2)
  else (c, [])

/-- Modelled from the spec: the base-class method `Controller::Update()`, called in line
818, is not part of `ps_move_controller.cpp`. The spec gives the base class no per-frame
work and has a skipped frame hold every output, so the call leaves the members of the
controller as they are and issues no effect. -/
def Controller_Update (c : PSMoveController) : PSMoveController := c

/-- The method `PSMoveController::Update` (lines 817-834). `isActivated` is the answer of
`IsActivated()` and `nowRumble` the clock reading of `UpdateRumbleState`. -/
def Update (env : Env) (host : HostFrame) (isActivated : Bool) (nowRumble : ℚ)
    (service : PSMController) (c : PSMoveController) : PSMoveController × List Effect :=
  let c := Controller_Update c
  if (isActivated && service.IsConnected) then
    let sample := processNewSample env host service c
    let rumble := UpdateRumbleState env nowRumble sample.1
    (rumble.1, sample.2 ++ rumble.2)
  else (c, [])

/-- The method `PSMoveController::RefreshWorldFromDriverPose` (lines 836-841);
`baseRefresh` is what the base-class call `TrackableDevice::RefreshWorldFromDriverPose()`
does to `m_Pose`. -/
def RefreshWorldFromDriverPose (baseRefresh : DriverPose_t → DriverPose_t)
    (c : PSMoveController) : PSMoveController :=
  { c with m_Pose := baseRefresh c.m_Pose, m_trackingStatus := TrackingResult_Running_OK }

/-! ## Call sequences of the haptic rate limiter -/

/-- One call of `UpdateRumbleState`: the rumble haptic event delivered through
`SetPendingHapticVibration` since the previous call, if any, and the clock reading of the
call. The other methods of the controller do not write the members the limiter uses. -/
structure RumbleCall where
  hapticEvent : Option VREvent_HapticVibration_t
  now : ℚ

/-- The fraction carried by a rumble command; `none` for any other effect. -/
def rumbleCommand : Effect → Option ℚ
  | Effect.SetControllerRumble rumble_fraction => some rumble_fraction
  | _ => none

/-- The controller after the haptic event of a call, if any, has been stored. -/
def deliverHaptic (call : RumbleCall) (c : PSMoveController) : PSMoveController :=
  match call.hapticEvent with
  | some hapticData => SetPendingHapticVibration true hapticData c
  | none => c

/-- The clock readings, in call order, of the calls of a sequence in which
`UpdateRumbleState` sends a rumble command. -/
def rumbleSendTimes (env : Env) : PSMoveController → List RumbleCall → List ℚ
  | _, [] => []
  | c, call :: rest =>
    let r := UpdateRumbleState env call.now (deliverHaptic call c)
    (r.2.filterMap rumbleCommand).map (fun _ => call.now) ++ rumbleSendTimes env r.1 rest

/-- Three calls at 0 ms, 20 ms and 40 ms, the first one after a haptic event. -/
def sampleRumbleCalls : List RumbleCall :=
  [⟨some ⟨2 / 1000, 200, 1 / 2⟩, 0⟩, ⟨none, 20⟩, ⟨none, 40⟩]

/-! ## Observations on effects and members -/

/-- Whether an effect is a `ResetOrientation` request. -/
def Effect.isResetOrientation : Effect → Bool
  | Effect.ResetControllerOrientationAsync _ => true
  | _ => false

/-- Whether an effect is a `RealignTrackingSpace` request. -/
def Effect.isRealignTrackingSpace : Effect → Bool
  | Effect.RealignHMDTrackingSpace _ _ _ _ => true
  | _ => false

/-- Whether an effect belongs to the normal input processing of a frame: a button update
(native or emulated touchpad), an axis update (trigger or emulated touchpad) or a battery
change event. -/
def Effect.isInputUpdate : Effect → Bool
  | Effect.UpdateButton _ _ => true
  | Effect.UpdateAxis _ _ => true
  | Effect.SetDeviceIsCharging _ => true
  | Effect.SetDeviceBatteryPercentage _ => true
  | _ => false

/-- The members used by the alignment gesture detector: role, press time of the recenter
button, the two request flags and the disable flag. -/
def alignmentMembers (c : PSMoveController) :
    ETrackedControllerRole × ℚ × Bool × Bool × Bool :=
  (c.m_TrackedControllerRole, c.m_resetPoseButtonPressTime, c.m_bResetPoseRequestSent,
    c.m_bResetAlignRequestSent, c.m_bDisableHMDAlignmentGesture)

/-- The touchpad runtime state and the committed battery state. -/
def touchpadAndBatteryMembers (c : PSMoveController) :
    Bool × PSMQuatf × PSMVector3f × ℚ × ℚ × Bool :=
  (c.m_bTouchpadWasActive, c.m_driverSpaceRotationAtTouchpadPressTime,
    c.m_posMetersAtTouchpadPressTime, c.m_lastTouchpadPressTime, c.m_fBatteryChargeFraction,
    c.m_bIsBatteryCharging)

/-- Whether an effect is a pose publication. -/
def Effect.isPosePublication : Effect → Bool
  | Effect.TrackedDevicePoseUpdated _ => true
  | _ => false

/-- Whether an effect belongs to the handling of an alignment gesture: a `ResetOrientation`
request, a `RealignTrackingSpace` request, the update of the tracking space or the logged
failure of the realignment. -/
def Effect.isGestureHandling : Effect → Bool
  | Effect.ResetControllerOrientationAsync _ => true
  | Effect.RealignHMDTrackingSpace _ _ _ _ => true
  | Effect.SetHMDTrackingSpace _ => true
  | Effect.LoggerError => true
  | _ => false

/-- The tracking status, the published pose and the last processed sequence number. -/
def poseMembers (c : PSMoveController) : ETrackingResult × DriverPose_t × Int :=
  (c.m_trackingStatus, c.m_Pose, c.m_nPoseSequenceNumber)

/-- The ordering stated by the specification for an effect list: no effect of gesture
handling or input processing comes after a pose publication. -/
def poseComesLast : List Effect → Bool
  | [] => true
  | e :: rest =>
    (!e.isPosePublication || rest.all fun x => !(x.isGestureHandling || x.isInputUpdate)) &&
      poseComesLast rest

/-- The ordering of the source for an effect list: no pose publication comes after an
effect of gesture handling or input processing. -/
def poseComesFirst : List Effect → Bool
  | [] => true
  | e :: rest =>
    (!(e.isGestureHandling || e.isInputUpdate) || rest.all fun x => !x.isPosePublication) &&
      poseComesFirst rest

/-! ## Frame sequences of `UpdateControllerState` -/

/-- One frame handed to `UpdateControllerState`: the telemetry sample and what the
collaborators answer during the frame. The clock reading of the frame's hold detector is
`host.nowResetPose`. -/
structure Frame where
  host : HostFrame
  view : PSMPSMove

/-- The controller after `UpdateControllerState` has processed the frames in order. -/
def runFrames (env : Env) (c : PSMoveController) (frames : List Frame) : PSMoveController :=
  frames.foldl (fun c f => (UpdateControllerState env f.host f.view c).1) c

/-- The state of the role-designated recenter button in a frame. -/
def recenterButton (role : ETrackedControllerRole) (f : Frame) : PSMButtonState :=
  resetPoseButtonState role f.view

/-- Whether the hold detector decides a recenter (`bRecenterRequestTriggered`) when the
controller `c` processes the frame `f`. -/
def recenterDecided (c : PSMoveController) (f : Frame) : Bool :=
  (holdDetector f.host.nowResetPose (recenterButton c.m_TrackedControllerRole f) c).2

/-- Whether the hold-to-recenter request, `ResetOrientation` with the identity target, is
issued when the controller `c` processes the frame `f`. -/
def holdRecenterIssued (env : Env) (c : PSMoveController) (f : Frame) : Prop :=
  Effect.ResetControllerOrientationAsync k_psm_quaternion_identity ∈
    (UpdateControllerState env f.host f.view c).2

/-- Specification-side monitor of "held since a Pressed edge", one frame: a `Pressed` frame
starts a run at its clock reading, a `Down` frame continues the run it follows (if any),
and `Up` or `Released` ends it. -/
def holdRunStep (state : PSMButtonState) (now : ℚ) (runStart : Option ℚ) : Option ℚ :=
  match state with
  | PSMButtonState_PRESSED => some now
  | PSMButtonState_DOWN => runStart
  | _ => none

/-- Specification-side monitor over a frame sequence: `some t` when the sequence ends in a
`Pressed` frame at clock reading `t` followed only by `Down` frames, `none` otherwise. -/
def holdRunStart (role : ETrackedControllerRole) (runStart : Option ℚ) (frames : List Frame) :
    Option ℚ :=
  frames.foldl (fun acc f => holdRunStep (recenterButton role f) f.host.nowResetPose acc)
    runStart

/-- The edge protocol of the telemetry for the recenter button: a frame reports `Down` only
right after a frame that reported `Pressed` or `Down`; `previous` is the state reported
before the first frame of the list. -/
def obeysEdgeProtocol (role : ETrackedControllerRole) :
    PSMButtonState → List Frame → Prop
  | _, [] => True
  | previous, f :: rest =>
    (recenterButton role f = PSMButtonState_DOWN →
        previous = PSMButtonState_PRESSED ∨ previous = PSMButtonState_DOWN) ∧
      obeysEdgeProtocol role (recenterButton role f) rest

/-- The condition of the specification for a hold recenter in the frame `f` that follows
the frames `frames`: an earlier frame `g` reported the recenter button `Pressed`, every
frame after `g` reported it `Down`, `f` reports it `Down`, and at least 250 ms lie between
the clock readings of `g` and `f`. -/
def HeldSincePress (role : ETrackedControllerRole) (frames : List Frame) (f : Frame) : Prop :=
  ∃ (pre : List Frame) (g : Frame) (mid : List Frame),
    frames = pre ++ g :: mid ∧
      recenterButton role g = PSMButtonState_PRESSED ∧
      (∀ m ∈ mid, recenterButton role m = PSMButtonState_DOWN) ∧
      recenterButton role f = PSMButtonState_DOWN ∧
      250 ≤ f.host.nowResetPose - g.host.nowResetPose

/-! ## Specification-side tables and concrete inputs -/

/-- The fixed axis pair the specification assigns to each of the eight direction actions
(and nothing to `None`, `Touch` and `Press`). -/
def specFixedAxisPair : eEmulatedTrackpadAction → Option (ℚ × ℚ)
  | k_EmulatedTrackpadAction_Left => some (-1, 0)
  | k_EmulatedTrackpadAction_Up => some (0, 1)
  | k_EmulatedTrackpadAction_Right => some (1, 0)
  | k_EmulatedTrackpadAction_Down => some (0, -1)
  | k_EmulatedTrackpadAction_UpLeft => some (-(707 / 1000), 707 / 1000)
  | k_EmulatedTrackpadAction_UpRight => some (707 / 1000, 707 / 1000)
  | k_EmulatedTrackpadAction_DownLeft => some (-(707 / 1000), -(707 / 1000))
  | k_EmulatedTrackpadAction_DownRight => some (707 / 1000, -(707 / 1000))
  | _ => none

/-- A concrete environment: ten buttons, haptic defaults `0, 1, 200`, one raw position
unit is a centimetre, and the rotation-space position is the scaled raw position. -/
def sampleEnv : Env :=
  { k_PSMButtonID_Count := 10
    DEFAULT_HAPTIC_DURATION := 0
    DEFAULT_HAPTIC_AMPLITUDE := 1
    DEFAULT_HAPTIC_FREQUENCY := 200
    k_fScalePSMoveAPIToMeters := 1 / 100
    PSM_QuatfCreateFromAngles := fun _ => ⟨0, 1, 0, 0⟩
    GetMetersPosInRotSpace := fun _ view =>
      ⟨view.Pose.Position.x / 100, view.Pose.Position.y / 100, view.Pose.Position.z / 100⟩
    buttonIndex := fun id =>
      match id with
      | k_PSMButtonID_PS => 0
      | k_PSMButtonID_Triangle => 1
      | k_PSMButtonID_Circle => 2
      | k_PSMButtonID_Cross => 3
      | k_PSMButtonID_Square => 4
      | k_PSMButtonID_Move => 5
      | k_PSMButtonID_Select => 6
      | k_PSMButtonID_Start => 7
      | k_PSMButtonID_EmulatedTrackpadTouched => 8
      | k_PSMButtonID_EmulatedTrackpadPressed => 9
    k_PSMButtonNames := fun _ => ""
    k_VRTouchpadDirectionNames := fun _ => ""
    PSM_QuatfRotateVector := fun _ v => v }

/-- A telemetry sample with every button `Up`, at raw position `(30, 0, -15)`. -/
def sampleView : PSMPSMove :=
  { bIsPositionValid := true
    bIsOrientationValid := true
    Pose := ⟨⟨30, 0, -15⟩, k_psm_quaternion_identity⟩
    TriangleButton := PSMButtonState_UP
    CircleButton := PSMButtonState_UP
    CrossButton := PSMButtonState_UP
    SquareButton := PSMButtonState_UP
    SelectButton := PSMButtonState_UP
    StartButton := PSMButtonState_UP
    PSButton := PSMButtonState_UP
    MoveButton := PSMButtonState_UP
    TriggerValue := 0
    BatteryValue := PSMBattery_80 }

/-- A frame in which the emulated touchpad exists, every button is reported `Down`, the
head pose is available and realignment succeeds; all clock readings are `1000` ms. -/
def sampleHost : HostFrame :=
  { HasButton_EmulatedTrackpadPressed := true
    GetButtonState := fun _ => some PSMButtonState_DOWN
    GetHMDPoseInMeters := some ⟨k_psm_float_vector3_zero, k_psm_quaternion_identity⟩
    RealignHMDTrackingSpace := fun _ _ hmdPose _ => some hmdPose
    nowResetPose := 1000
    nowTouchpad := 1000 }

/-- A pose record as the base class may initialise it. -/
def samplePose : DriverPose_t :=
  { result := TrackingResult_Uninitialized
    deviceIsConnected := false
    willDriftInYaw := false
    shouldApplyHeadModel := false
    poseTimeOffset := 0
    qDriverFromHeadRotation := k_psm_quaternion_identity
    vecDriverFromHeadTranslation := k_psm_float_vector3_zero
    vecPosition := k_psm_float_vector3_zero
    qRotation := k_psm_quaternion_identity
    poseIsValid := false }

/-- The controller right after construction without a settings store: a right-hand
controller, constructed at clock reading `0`. -/
def sampleController : PSMoveController :=
  PSMoveController.construct sampleEnv 0 TrackedControllerRole_RightHand none 0 samplePose
    (75 / 1000)

/-- A controller whose button `5` is mapped to `Touch` and whose touchpad was active in the
previous frame, anchored at the origin. -/
def touchController : PSMoveController :=
  { sampleController with
    m_bTouchpadWasActive := true
    psButtonIDToEmulatedTouchpadAction := fun i =>
      if i = 5 then k_EmulatedTrackpadAction_Touch else k_EmulatedTrackpadAction_None }

/-- A controller whose button `5` is mapped to `UpRight`. -/
def upRightController : PSMoveController :=
  { sampleController with
    psButtonIDToEmulatedTouchpadAction := fun i =>
      if i = 5 then k_EmulatedTrackpadAction_UpRight else k_EmulatedTrackpadAction_None }

/-- A controller whose button `5` is mapped to `Press`, inactive in the previous frame,
with a stale anchor away from the origin. -/
def pressController : PSMoveController :=
  { sampleController with
    m_bTouchpadWasActive := false
    m_posMetersAtTouchpadPressTime := ⟨5, 5, 5⟩
    psButtonIDToEmulatedTouchpadAction := fun i =>
      if i = 5 then k_EmulatedTrackpadAction_Press else k_EmulatedTrackpadAction_None }

/-- A controller with a pending haptic request of 2 ms at amplitude `1 / 2`. -/
def rumbleController : PSMoveController :=
  { sampleController with
    m_pendingHapticDurationSecs := 2 / 1000
    m_pendingHapticAmplitude := 1 / 2 }

/-- A chord frame: `Start` freshly pressed while `Select` is held. -/
def chordView : PSMPSMove :=
  { sampleView with
    StartButton := PSMButtonState_PRESSED
    SelectButton := PSMButtonState_DOWN }

/-- A frame with `Start` held down and no other button active. -/
def holdView : PSMPSMove :=
  { sampleView with StartButton := PSMButtonState_DOWN }

/-- A frame with `Start` freshly pressed and no other button active. -/
def pressView : PSMPSMove :=
  { sampleView with StartButton := PSMButtonState_PRESSED }

/-- A frame with `Start` released and no other button active. -/
def releaseView : PSMPSMove :=
  { sampleView with StartButton := PSMButtonState_RELEASED }

/-- The freshly constructed controller with the alignment gesture disabled. -/
def gestureDisabledController : PSMoveController :=
  { sampleController with m_bDisableHMDAlignmentGesture := true }

/-- A host whose head-pose accessor throws. -/
def headPoseFailingHost : HostFrame :=
  { sampleHost with GetHMDPoseInMeters := none }

/-- The host of `sampleHost` with the hold detector's clock reading set to `now`. -/
def hostAt (now : ℚ) : HostFrame :=
  { sampleHost with nowResetPose := now }

/-- The controller of `rumbleController` with rumble suppressed and a send recorded at
500 ms. -/
def suppressedController : PSMoveController :=
  { rumbleController with
    m_bRumbleSuppressed := true
    m_lastTimeRumbleSent := 500
    m_lastTimeRumbleSentValid := true }

/-- A connected telemetry service delivering `sampleView` with sequence number 1. -/
def sampleService : PSMController :=
  { IsConnected := true
    OutputSequenceNum := 1
    PSMoveState := sampleView }

/-- A connected telemetry service whose sequence number 0 is not newer than the one the
freshly constructed controller has processed. -/
def staleService : PSMController :=
  { IsConnected := true
    OutputSequenceNum := 0
    PSMoveState := chordView }

/-- The shaping of a raw fraction `f` for a duration, as the specification words it: raised
to `0.35` when the duration is non-zero and `f < 0.35`, then capped at `1`. -/
def shapeRumbleFraction (duration f : ℚ) : ℚ :=
  let raised := if duration ≠ 0 ∧ f < 35 / 100 then 35 / 100 else f
  if raised > 1 then 1 else raised

/-- The rumble fraction as the specification words it: the duration in microseconds,
neither truncated nor wrapped, divided by 5000 and multiplied by the amplitude, then
shaped. -/
def specRumbleFraction (duration amplitude : ℚ) : ℚ :=
  shapeRumbleFraction duration ((duration * 1000000 / 5000) * amplitude)

/-- A controller with a pending haptic request of `1 / 256` s (the `float` `0.00390625f`,
3906.25 microseconds) at amplitude `1`. -/
def fractionalMicrosController : PSMoveController :=
  { sampleController with
    m_pendingHapticDurationSecs := 1 / 256
    m_pendingHapticAmplitude := 1 }

/-- A controller with a pending haptic request of `9 / 128` s (the `float` `0.0703125f`,
70312.5 microseconds) at amplitude `1`. -/
def longPulseController : PSMoveController :=
  { sampleController with
    m_pendingHapticDurationSecs := 9 / 128
    m_pendingHapticAmplitude := 1 }

/-- A controller with a pending haptic request of `0.005f` seconds, the `float` nearest to
5 ms, which is `5368709 / 2 ^ 30` and lies below 5 ms, at amplitude `1`. -/
def fiveMillisecondsController : PSMoveController :=
  { sampleController with
    m_pendingHapticDurationSecs := 5368709 / 1073741824
    m_pendingHapticAmplitude := 1 }

/-- The configured string `str` is, ignoring case, the name of the action `a` in the table
`k_VRTouchpadDirectionNames`. -/
def namesAction (env : Env) (str : String) (a : eEmulatedTrackpadAction) : Prop :=
  strcasecmpIsZero str (env.k_VRTouchpadDirectionNames a) = true

/-- The action stored for a button by `LoadEmulatedTouchpadActions` with a settings
store. -/
def storedTouchpadAction (env : Env) (settings : IVRSettings) (psButtonID : ePSMButtonID)
    (controllerId : Int) (c : PSMoveController) : eEmulatedTrackpadAction :=
  (LoadEmulatedTouchpadActions env (some settings) psButtonID controllerId
    c).psButtonIDToEmulatedTouchpadAction (env.buttonIndex psButtonID)

/-- The environment of `sampleEnv` with button and action names. -/
def namedEnv : Env :=
  { sampleEnv with
    k_PSMButtonNames := fun id =>
      match id with
      | k_PSMButtonID_PS => "ps"
      | k_PSMButtonID_Triangle => "triangle"
      | k_PSMButtonID_Circle => "circle"
      | k_PSMButtonID_Cross => "cross"
      | k_PSMButtonID_Square => "square"
      | k_PSMButtonID_Move => "move"
      | k_PSMButtonID_Select => "select"
      | k_PSMButtonID_Start => "start"
      | k_PSMButtonID_EmulatedTrackpadTouched => "emulated_trackpad_touched"
      | k_PSMButtonID_EmulatedTrackpadPressed => "emulated_trackpad_pressed"
    k_VRTouchpadDirectionNames := fun a =>
      match a with
      | k_EmulatedTrackpadAction_None => "none"
      | k_EmulatedTrackpadAction_Touch => "touchpad_touch"
      | k_EmulatedTrackpadAction_Press => "touchpad_press"
      | k_EmulatedTrackpadAction_Left => "touchpad_left"
      | k_EmulatedTrackpadAction_Up => "touchpad_up"
      | k_EmulatedTrackpadAction_Right => "touchpad_right"
      | k_EmulatedTrackpadAction_Down => "touchpad_down"
      | k_EmulatedTrackpadAction_UpLeft => "touchpad_up-left"
      | k_EmulatedTrackpadAction_UpRight => "touchpad_up-right"
      | k_EmulatedTrackpadAction_DownLeft => "touchpad_down-left"
      | k_EmulatedTrackpadAction_DownRight => "touchpad_down-right" }

/-- A settings store whose default touchpad section maps `move` to `touchpad_press` and
whose section for controller 3 maps `move` to `Touchpad_Up`; every flag and number has its
default value. -/
def sampleSettings : IVRSettings :=
  { GetString := fun sectionName key =>
      if sectionName = "psmove_touchpad_directions" ∧ key = "move" then
        some "touchpad_press"
      else if sectionName = "psmove_touchpad_directions_3" ∧ key = "move" then
        some "Touchpad_Up"
      else none
    LoadBool := fun _ _ defaultValue => defaultValue
    LoadFloat := fun _ _ defaultValue => defaultValue }

/-- The controller of `rumbleController` with a send recorded at 990 ms. -/
def recentSendController : PSMoveController :=
  { rumbleController with
    m_lastTimeRumbleSent := 990
    m_lastTimeRumbleSentValid := true }

/-- A host whose head-pose accessor answers and whose realignment collaborator throws. -/
def realignFailingHost : HostFrame :=
  { sampleHost with RealignHMDTrackingSpace := fun _ _ _ _ => none }

/-- A chord frame in which `Start` is held down and `Select` is freshly pressed. -/
def chordWhileHoldingView : PSMPSMove :=
  { sampleView with
    StartButton := PSMButtonState_DOWN
    SelectButton := PSMButtonState_PRESSED }

/-- The controller of `pressController` with the delay-after-press setting on and an
earlier press recorded at the epoch. -/
def delayedPressController : PSMoveController :=
  { pressController with
    m_bDelayAfterTouchpadPress := true
    m_lastTouchpadPressTime := 0 }

/-- The fractions, in call order, of the rumble commands sent over a sequence of calls of
`UpdateRumbleState`. -/
def rumbleFractionsSent (env : Env) : PSMoveController → List RumbleCall → List ℚ
  | _, [] => []
  | c, call :: rest =>
    let r := UpdateRumbleState env call.now (deliverHaptic call c)
    r.2.filterMap rumbleCommand ++ rumbleFractionsSent env r.1 rest

/-- Two later calls without a haptic event, at 1040 ms and 1080 ms. -/
def quietRumbleCalls : List RumbleCall :=
  [⟨none, 1040⟩, ⟨none, 1080⟩]

/-- One call of `Update`: what the host answers during the call, the answer of
`IsActivated()`, the clock reading of `UpdateRumbleState`, and the telemetry record. -/
structure UpdateCall where
  host : HostFrame
  isActivated : Bool
  nowRumble : ℚ
  service : PSMController

/-- The values of `m_nPoseSequenceNumber` after each call of a sequence of `Update` calls,
in call order. -/
def processedSequenceNumbers (env : Env) : PSMoveController → List UpdateCall → List Int
  | _, [] => []
  | c, call :: rest =>
    let next := (Update env call.host call.isActivated call.nowRumble call.service c).1
    next.m_nPoseSequenceNumber :: processedSequenceNumbers env next rest

/-- Three calls of `Update`: a new sample numbered 1, the same sample again, and a call
while the controller is not activated. -/
def sampleUpdateCalls : List UpdateCall :=
  [⟨sampleHost, true, 1000, sampleService⟩, ⟨sampleHost, true, 1040, sampleService⟩,
   ⟨sampleHost, false, 1080, staleService⟩]

/-- The winning action as the specification words it, with the early stop: the
maximum-priority action among the buttons that are `Pressed` or `Down` and have a
non-`None` mapping, taken in button order up to and including the first of them mapped at
or above `Press`. -/
def specWinningActionThroughPress (count : Nat) (actions : ActionMap)
    (query : ButtonStateQuery) : eEmulatedTrackpadAction :=
  maxPriorityAction (throughFirstPress (pressedMappedActions count actions query))

/-- An action map over two buttons: `Press`, then `DownRight`. -/
def pressThenDownRight : ActionMap := fun i =>
  if i = 0 then k_EmulatedTrackpadAction_Press else k_EmulatedTrackpadAction_DownRight

/-- Button states in which the first button is `Up` and every other button is `Down`. -/
def firstButtonUp : ButtonStateQuery := fun i =>
  if i = 0 then some PSMButtonState_UP else some PSMButtonState_DOWN

/-! ## Theorems -/

/-- The scan equals the running maximum over the counted actions through the first one at
or above `Press`, from any starting winner. -/
theorem scanTouchpadActions_eq_foldl (actions : ActionMap) (query : ButtonStateQuery)
    (idxs : List Nat) (highest : eEmulatedTrackpadAction) :
    scanTouchpadActions actions query idxs highest =
      (throughFirstPress (countedActions actions query idxs)).foldl raisePriority highest := by
  induction idxs generalizing highest with
  | nil => simp [scanTouchpadActions, countedActions, throughFirstPress]
  | cons i rest ih =>
    unfold scanTouchpadActions
    by_cases hNone : actions i = k_EmulatedTrackpadAction_None
    · simpa [hNone, countedActions] using ih highest
    · cases hq : query i with
      | none => simpa [hNone, countedActions, hq] using ih highest
      | some st =>
        by_cases hPress : (actions i).toNat ≥ k_EmulatedTrackpadAction_Press.toNat
        · simp [hNone, countedActions, hq, throughFirstPress, hPress, raisePriority]
        · have h := ih (raisePriority highest (actions i))
          simp only [countedActions, raisePriority] at h
          simpa [hNone, countedActions, hq, throughFirstPress, hPress, raisePriority] using h

/-- The running maximum dominates its start value and every action of the list, and it is
the start value or an action of the list. -/
theorem foldl_raisePriority_spec (l : List eEmulatedTrackpadAction) :
    ∀ start : eEmulatedTrackpadAction,
      (start.toNat ≤ (l.foldl raisePriority start).toNat ∧
          ∀ a ∈ l, a.toNat ≤ (l.foldl raisePriority start).toNat) ∧
        (l.foldl raisePriority start = start ∨ l.foldl raisePriority start ∈ l) := by
  induction l with
  | nil => intro start; simp
  | cons b rest ih =>
    intro start
    obtain ⟨⟨hStart, hAll⟩, hMem⟩ := ih (raisePriority start b)
    have hb : start.toNat ≤ (raisePriority start b).toNat ∧
        b.toNat ≤ (raisePriority start b).toNat := by
      unfold raisePriority
      split_ifs with h
      · exact ⟨h, le_refl _⟩
      · exact ⟨le_refl _, by omega⟩
    have hOr : raisePriority start b = start ∨ raisePriority start b = b := by
      unfold raisePriority
      split_ifs
      · exact Or.inr rfl
      · exact Or.inl rfl
    simp only [List.foldl_cons, List.mem_cons]
    refine ⟨⟨le_trans hb.1 hStart, fun a ha => ?_⟩, ?_⟩
    · rcases ha with rfl | ha
      · exact le_trans hb.2 hStart
      · exact hAll a ha
    · rcases hMem with hEq | hIn
      · rcases hOr with h | h
        · exact Or.inl (hEq.trans h)
        · exact Or.inr (Or.inl (hEq.trans h))
      · exact Or.inr (Or.inr hIn)

/-- The composition `fminf(fmaxf(v, -1), 1)` lies in `[-1, 1]`. -/
theorem clamp_mem_unit (v : ℚ) : -1 ≤ fminf (fmaxf v (-1)) 1 ∧ fminf (fmaxf v (-1)) 1 ≤ 1 := by
  unfold fminf fmaxf
  split_ifs <;> constructor <;> linarith

/-- The flag stage leaves the axes alone. -/
theorem touchOrPressFlags_axes (highest : eEmulatedTrackpadAction) (l : TrackpadLocals) :
    (touchOrPressFlags highest l).touchpad_x = l.touchpad_x ∧
      (touchOrPressFlags highest l).touchpad_y = l.touchpad_y := by
  unfold touchOrPressFlags
  split_ifs <;> exact ⟨rfl, rfl⟩

/-- The direction stage keeps the axes in range. -/
theorem fixedDirection_bounded (highest : eEmulatedTrackpadAction) (l : TrackpadLocals)
    (hl : AxesBounded l) : AxesBounded (fixedDirection highest l) := by
  unfold fixedDirection
  split_ifs
  · cases highest <;> simp only [directionAxes, AxesBounded] <;>
      first | exact hl | norm_num
  · exact hl

/-- The axes computed while the touchpad is held lie in `[-1, 1]`. -/
theorem heldTouchpadAxes_bounded (env : Env) (view : PSMPSMove) (c : PSMoveController)
    (l : TrackpadLocals) : AxesBounded (heldTouchpadAxes env view c l) :=
  ⟨clamp_mem_unit _, clamp_mem_unit _⟩

/-- The spatial stage keeps the axes in range. -/
theorem spatialOffset_bounded (env : Env) (now : ℚ) (view : PSMPSMove)
    (highest : eEmulatedTrackpadAction) (c : PSMoveController) (l : TrackpadLocals)
    (hl : AxesBounded l) : AxesBounded (spatialOffset env now view highest c l).2 := by
  unfold spatialOffset
  dsimp only
  split_ifs
  · exact hl
  · exact heldTouchpadAxes_bounded _ _ _ _
  · exact hl
  · exact hl

/-- The axes published by `UpdateEmulatedTrackpadWith` lie in `[-1, 1]`. -/
theorem trackpadWith_axes_bounded (env : Env) (now : ℚ) (view : PSMPSMove)
    (highest : eEmulatedTrackpadAction) (c : PSMoveController) (id : ePSMAxisID) (v : ℚ)
    (h : Effect.UpdateAxis id v ∈ (UpdateEmulatedTrackpadWith env now view highest c).2) :
    -1 ≤ v ∧ v ≤ 1 := by
  have h0 : AxesBounded (fixedDirection highest (touchOrPressFlags highest {})) := by
    apply fixedDirection_bounded
    have := touchOrPressFlags_axes highest {}
    simp only [AxesBounded, this.1, this.2]
    norm_num
  have hb := spatialOffset_bounded env now view highest c _ h0
  simp only [UpdateEmulatedTrackpadWith, publishTrackpad, List.mem_cons, List.mem_singleton,
    Effect.UpdateAxis.injEq, reduceCtorEq, false_or, List.mem_nil_iff, or_false] at h
  rcases h with ⟨-, rfl⟩ | ⟨-, rfl⟩
  · exact hb.1
  · exact hb.2


/-- When the emulated touchpad exists, `UpdateEmulatedTrackpad` is its body run at the
winning action of the scan. -/
theorem UpdateEmulatedTrackpad_of_hasButton (env : Env) (host : HostFrame) (view : PSMPSMove)
    (c : PSMoveController) (hHas : host.HasButton_EmulatedTrackpadPressed = true) :
    UpdateEmulatedTrackpad env host view c =
      UpdateEmulatedTrackpadWith env host.nowTouchpad view
        (highestPriorityAction env.k_PSMButtonID_Count c.psButtonIDToEmulatedTouchpadAction
          host.GetButtonState) c := by
  simp [UpdateEmulatedTrackpad, hHas]

/-- C2: whatever the winning action, the controller position, the stored anchor, the
delay-after-press setting and the non-zero meters-per-touchpad-unit value, every axis
value published by `UpdateEmulatedTrackpad` (the emulated touchpad X and Y axes) lies in
`[-1, 1]`. -/
theorem C2_published_axes_in_unit_interval (env : Env) (host : HostFrame) (view : PSMPSMove)
    (c : PSMoveController) (_hMeters : c.m_fMetersPerTouchpadAxisUnits ≠ 0)
    (id : ePSMAxisID) (v : ℚ)
    (h : Effect.UpdateAxis id v ∈ (UpdateEmulatedTrackpad env host view c).2) :
    -1 ≤ v ∧ v ≤ 1 := by
  unfold UpdateEmulatedTrackpad at h
  split_ifs at h
  · simp at h
  · exact trackpadWith_axes_bounded _ _ _ _ _ _ _ h


/-- C2 witness: a held `Touch` with the controller 30 cm right of and 15 cm in front of the
anchor publishes the clamped axes `(1, 1)`. -/
theorem C2_published_axes_in_unit_interval_witness :
    touchController.m_fMetersPerTouchpadAxisUnits ≠ 0 ∧
      Effect.UpdateAxis k_PSMAxisID_EmulatedTrackpad_X 1 ∈
        (UpdateEmulatedTrackpad sampleEnv sampleHost sampleView touchController).2 ∧
      ((-1 : ℚ) ≤ 1 ∧ (1 : ℚ) ≤ 1) := by
  have hMeters : touchController.m_fMetersPerTouchpadAxisUnits ≠ 0 := by
    have : touchController.m_fMetersPerTouchpadAxisUnits = 75 / 1000 := rfl
    rw [this]
    norm_num
  have hw : highestPriorityAction sampleEnv.k_PSMButtonID_Count
      touchController.psButtonIDToEmulatedTouchpadAction sampleHost.GetButtonState =
    k_EmulatedTrackpadAction_Touch := by decide
  have hMem : Effect.UpdateAxis k_PSMAxisID_EmulatedTrackpad_X 1 ∈
      (UpdateEmulatedTrackpad sampleEnv sampleHost sampleView touchController).2 := by
    rw [UpdateEmulatedTrackpad_of_hasButton _ _ _ _ rfl, hw]
    simp [UpdateEmulatedTrackpadWith, touchOrPressFlags, fixedDirection, spatialOffset,
      publishTrackpad, bIsNewTouchpadLocation, stampLastTouchpadPressTime, heldTouchpadAxes,
      eEmulatedTrackpadAction.toNat, touchController, sampleController,
      PSMoveController.construct, memberDefaults, sampleEnv, sampleView, PSM_Vector3fSubtract,
      k_psm_float_vector3_zero, fminf, fmaxf]
    norm_num
  exact ⟨hMeters, hMem,
    C2_published_axes_in_unit_interval sampleEnv sampleHost sampleView touchController
      hMeters _ _ hMem⟩

/-- Stamping the press time does not change `m_bTouchpadWasActive`. -/
theorem stampLastTouchpadPressTime_wasActive (now : ℚ) (c : PSMoveController) :
    (stampLastTouchpadPressTime now c).m_bTouchpadWasActive = c.m_bTouchpadWasActive := by
  unfold stampLastTouchpadPressTime
  split_ifs <;> rfl

/-- C3: when the winning action is one of the eight fixed directions,
`UpdateEmulatedTrackpad` publishes touched = pressed = `Down` and the fixed axis pair of
that direction, for every pose sample, stored anchor, value of `m_bTouchpadWasActive` and
delay-after-press setting. -/
theorem C3_fixed_direction_publishes_fixed_pair (env : Env) (host : HostFrame)
    (view : PSMPSMove) (c : PSMoveController) (axes : ℚ × ℚ)
    (hHas : host.HasButton_EmulatedTrackpadPressed = true)
    (hDir : specFixedAxisPair
      (highestPriorityAction env.k_PSMButtonID_Count c.psButtonIDToEmulatedTouchpadAction
        host.GetButtonState) = some axes) :
    (UpdateEmulatedTrackpad env host view c).2 =
      [Effect.UpdateButton k_PSMButtonID_EmulatedTrackpadTouched PSMButtonState_DOWN,
       Effect.UpdateButton k_PSMButtonID_EmulatedTrackpadPressed PSMButtonState_DOWN,
       Effect.UpdateAxis k_PSMAxisID_EmulatedTrackpad_X axes.1,
       Effect.UpdateAxis k_PSMAxisID_EmulatedTrackpad_Y axes.2] := by
  rw [UpdateEmulatedTrackpad_of_hasButton _ _ _ _ hHas]
  generalize highestPriorityAction env.k_PSMButtonID_Count
    c.psButtonIDToEmulatedTouchpadAction host.GetButtonState = w at hDir
  cases w <;> simp only [specFixedAxisPair, Option.some.injEq, reduceCtorEq] at hDir <;>
    subst hDir <;>
    simp [UpdateEmulatedTrackpadWith, touchOrPressFlags, fixedDirection, directionAxes,
      spatialOffset, publishTrackpad, eEmulatedTrackpadAction.toNat]

/-- C3 witness: a button mapped to `UpRight` publishes `(0.707, 0.707)`. -/
theorem C3_fixed_direction_publishes_fixed_pair_witness :
    (UpdateEmulatedTrackpad sampleEnv sampleHost sampleView upRightController).2 =
      [Effect.UpdateButton k_PSMButtonID_EmulatedTrackpadTouched PSMButtonState_DOWN,
       Effect.UpdateButton k_PSMButtonID_EmulatedTrackpadPressed PSMButtonState_DOWN,
       Effect.UpdateAxis k_PSMAxisID_EmulatedTrackpad_X (707 / 1000),
       Effect.UpdateAxis k_PSMAxisID_EmulatedTrackpad_Y (707 / 1000)] :=
  C3_fixed_direction_publishes_fixed_pair sampleEnv sampleHost sampleView upRightController
    (707 / 1000, 707 / 1000) rfl
    (by
      have hw : highestPriorityAction sampleEnv.k_PSMButtonID_Count
          upRightController.psButtonIDToEmulatedTouchpadAction sampleHost.GetButtonState =
        k_EmulatedTrackpadAction_UpRight := by decide
      rw [hw]
      rfl)

/-- C4: when the winning action is `Touch` or `Press` and the touchpad was not active in the
previous frame, `UpdateEmulatedTrackpad` publishes the axes `(0, 0)` (with touched `Down`,
and pressed `Down` exactly for `Press`), for every current pose, every stored anchor and
both values of the delay-after-press setting. -/
theorem C4_rising_edge_publishes_zero_axes (env : Env) (host : HostFrame) (view : PSMPSMove)
    (c : PSMoveController)
    (hHas : host.HasButton_EmulatedTrackpadPressed = true)
    (hWin : highestPriorityAction env.k_PSMButtonID_Count
        c.psButtonIDToEmulatedTouchpadAction host.GetButtonState =
          k_EmulatedTrackpadAction_Touch ∨
      highestPriorityAction env.k_PSMButtonID_Count
        c.psButtonIDToEmulatedTouchpadAction host.GetButtonState =
          k_EmulatedTrackpadAction_Press)
    (hInactive : c.m_bTouchpadWasActive = false) :
    (UpdateEmulatedTrackpad env host view c).2 =
      [Effect.UpdateButton k_PSMButtonID_EmulatedTrackpadTouched PSMButtonState_DOWN,
       Effect.UpdateButton k_PSMButtonID_EmulatedTrackpadPressed
         (if highestPriorityAction env.k_PSMButtonID_Count
            c.psButtonIDToEmulatedTouchpadAction host.GetButtonState =
              k_EmulatedTrackpadAction_Press
          then PSMButtonState_DOWN else PSMButtonState_UP),
       Effect.UpdateAxis k_PSMAxisID_EmulatedTrackpad_X 0,
       Effect.UpdateAxis k_PSMAxisID_EmulatedTrackpad_Y 0] := by
  rw [UpdateEmulatedTrackpad_of_hasButton _ _ _ _ hHas]
  generalize highestPriorityAction env.k_PSMButtonID_Count
    c.psButtonIDToEmulatedTouchpadAction host.GetButtonState = w at hWin
  have hStamp := stampLastTouchpadPressTime_wasActive host.nowTouchpad c
  rcases hWin with rfl | rfl <;>
    simp only [UpdateEmulatedTrackpadWith, spatialOffset, true_or, or_true, if_true] <;>
    split_ifs <;>
    simp_all [touchOrPressFlags, fixedDirection, publishTrackpad,
      eEmulatedTrackpadAction.toNat]

/-- C4 witness: a fresh `Press` with a stale anchor far from the current position
publishes the axes `(0, 0)`. -/
theorem C4_rising_edge_publishes_zero_axes_witness :
    pressController.m_bTouchpadWasActive = false ∧
      (UpdateEmulatedTrackpad sampleEnv sampleHost sampleView pressController).2 =
        [Effect.UpdateButton k_PSMButtonID_EmulatedTrackpadTouched PSMButtonState_DOWN,
         Effect.UpdateButton k_PSMButtonID_EmulatedTrackpadPressed PSMButtonState_DOWN,
         Effect.UpdateAxis k_PSMAxisID_EmulatedTrackpad_X 0,
         Effect.UpdateAxis k_PSMAxisID_EmulatedTrackpad_Y 0] := by
  have hw : highestPriorityAction sampleEnv.k_PSMButtonID_Count
      pressController.psButtonIDToEmulatedTouchpadAction sampleHost.GetButtonState =
        k_EmulatedTrackpadAction_Press := by decide
  have h := C4_rising_edge_publishes_zero_axes sampleEnv sampleHost sampleView
    pressController rfl (Or.inr hw) rfl
  rw [if_pos hw] at h
  exact ⟨rfl, h⟩

/-! ### Rounding to binary32 -/

/-- Rounding to the nearest integer gives the integer part or the next integer. -/
theorem roundHalfEven_bounds (y : ℚ) :
    ⌊y⌋ ≤ roundHalfEven y ∧ roundHalfEven y ≤ ⌊y⌋ + 1 := by
  unfold roundHalfEven
  dsimp only
  split_ifs <;> omega

/-- Rounding to the nearest integer, once the integer part is known. -/
theorem roundHalfEven_of_floor (x : ℚ) (f : ℤ) (hFloor : ⌊x⌋ = f) :
    roundHalfEven x =
      if x - f < 1 / 2 then f
      else if x - f > 1 / 2 then f + 1
      else if f % 2 = 0 then f else f + 1 := by
  unfold roundHalfEven
  rw [hFloor]

/-- The binary exponent of a value in the binade `[2 ^ e, 2 ^ (e + 1))`. -/
theorem binaryExponent_eq (x : ℚ) (e : ℤ) (hLow : (2 : ℚ) ^ e ≤ |x|)
    (hHigh : |x| < (2 : ℚ) ^ (e + 1)) (hNormal : -126 ≤ e) : binaryExponent x = e := by
  have hPos : 0 < |x| := lt_of_lt_of_le (by positivity) hLow
  have h1 : e ≤ Int.log 2 |x| := by
    rw [← Int.zpow_le_iff_le_log (by norm_num) hPos]
    exact_mod_cast hLow
  have h2 : Int.log 2 |x| < e + 1 := by
    rw [← Int.lt_zpow_iff_log_lt (by norm_num) hPos]
    exact_mod_cast hHigh
  unfold binaryExponent
  rw [max_eq_left (by omega)]
  omega

/-- Below `2 ^ 24` the binary exponent is at most `23`: the spacing of the binary32 values
is at most `1`. -/
theorem binaryExponent_le (x : ℚ) (h : |x| < 16777216) : binaryExponent x ≤ 23 := by
  unfold binaryExponent
  apply max_le _ (by norm_num)
  rcases eq_or_lt_of_le (abs_nonneg x) with h0 | hPos
  · rw [← h0]
    simp
  · have hLt : |x| < ((2 : ℕ) : ℚ) ^ (24 : ℤ) := by
      norm_num
      exact h
    have := (Int.lt_zpow_iff_log_lt (by norm_num) hPos).mp hLt
    omega

/-- Rounding a value in `[0, 2 ^ 24)` to binary32 does not cross an integer: the result
lies between the integer part of the value and the next integer. -/
theorem roundToBinary32_near_floor (x : ℚ) (h0 : 0 ≤ x) (h : x < 16777216) :
    ((⌊x⌋ : ℤ) : ℚ) ≤ roundToBinary32 x ∧ roundToBinary32 x ≤ ((⌊x⌋ : ℤ) : ℚ) + 1 := by
  have hExp : binaryExponent x ≤ 23 := binaryExponent_le x (by rwa [abs_of_nonneg h0])
  obtain ⟨m, hm⟩ : ∃ m : ℕ, binaryExponent x - 23 = -(m : ℤ) :=
    ⟨(23 - binaryExponent x).toNat, by omega⟩
  have hUlp : (2 : ℚ) ^ (binaryExponent x - 23) = ((2 : ℚ) ^ m)⁻¹ := by
    rw [hm, zpow_neg, zpow_natCast]
  have hM : (0 : ℚ) < (2 : ℚ) ^ m := by positivity
  unfold roundToBinary32
  dsimp only
  rw [hUlp, div_inv_eq_mul]
  obtain ⟨hLow, hHigh⟩ := roundHalfEven_bounds (x * 2 ^ m)
  have hFloorLow : ⌊x⌋ * 2 ^ m ≤ ⌊x * 2 ^ m⌋ := by
    rw [Int.le_floor]
    push_cast
    exact mul_le_mul_of_nonneg_right (Int.floor_le x) hM.le
  have hFloorHigh : ⌊x * 2 ^ m⌋ < (⌊x⌋ + 1) * 2 ^ m := by
    rw [Int.floor_lt]
    push_cast
    exact mul_lt_mul_of_pos_right (Int.lt_floor_add_one x) hM
  have h1 : ((⌊x⌋ * 2 ^ m : ℤ) : ℚ) ≤ (roundHalfEven (x * 2 ^ m) : ℚ) := by
    exact_mod_cast le_trans hFloorLow hLow
  have h2 : (roundHalfEven (x * 2 ^ m) : ℚ) ≤ (((⌊x⌋ + 1) * 2 ^ m : ℤ) : ℚ) := by
    have hInt : roundHalfEven (x * 2 ^ m) ≤ (⌊x⌋ + 1) * 2 ^ m :=
      le_trans hHigh (Int.add_one_le_iff.mpr hFloorHigh)
    exact_mod_cast hInt
  push_cast at h1 h2
  constructor
  · rw [← div_eq_mul_inv, le_div_iff₀ hM]
    exact h1
  · rw [← div_eq_mul_inv, div_le_iff₀ hM]
    exact h2

/-- The whole number of a value in `[0, 2 ^ 24)` after rounding to binary32 is the whole
number of the value or the next integer. -/
theorem roundToBinary32_floor (x : ℚ) (h0 : 0 ≤ x) (h : x < 16777216) :
    ⌊x⌋ ≤ ⌊roundToBinary32 x⌋ ∧ ⌊roundToBinary32 x⌋ ≤ ⌊x⌋ + 1 := by
  obtain ⟨hLow, hHigh⟩ := roundToBinary32_near_floor x h0 h
  constructor
  · exact Int.le_floor.mpr hLow
  · have hLt : roundToBinary32 x < ((⌊x⌋ + 1 + 1 : ℤ) : ℚ) := by
      push_cast
      linarith
    have := Int.floor_lt.mpr hLt
    omega

/-- Zero is a binary32 value. -/
theorem roundToBinary32_zero : roundToBinary32 0 = 0 := by
  simp [roundToBinary32, roundHalfEven]

/-- Rounding to binary32 a value whose binade `[2 ^ e, 2 ^ (e + 1))` is known. -/
theorem roundToBinary32_of_binade (x : ℚ) (e : ℤ) (hLow : (2 : ℚ) ^ e ≤ |x|)
    (hHigh : |x| < (2 : ℚ) ^ (e + 1)) (hNormal : -126 ≤ e) :
    roundToBinary32 x = (roundHalfEven (x / 2 ^ (e - 23)) : ℚ) * 2 ^ (e - 23) := by
  unfold roundToBinary32
  rw [binaryExponent_eq x e hLow hHigh hNormal]

/-- The rumble fraction lies in `[0, 1]` and is at least `0.35` for a non-zero duration. -/
theorem rumbleFraction_bounds (duration amplitude : ℚ) :
    (0 ≤ rumbleFraction duration amplitude ∧ rumbleFraction duration amplitude ≤ 1) ∧
      (duration ≠ 0 → 35 / 100 ≤ rumbleFraction duration amplitude) := by
  unfold rumbleFraction
  by_cases hd : duration = 0
  · subst hd
    norm_num [toUInt16, roundToBinary32_zero]
  · simp only [ne_eq, hd, not_false_eq_true, if_true]
    split_ifs <;> refine ⟨⟨?_, ?_⟩, fun _ => ?_⟩ <;> linarith

/-- C5: whenever `UpdateRumbleState` emits a rumble command, for any pending duration and
amplitude, the emitted fraction lies in `[0, 1]`, and it is at least `0.35` when the
requested duration is greater than `0`. -/
theorem C5_emitted_rumble_fraction_bounds (env : Env) (now : ℚ) (c : PSMoveController)
    (fraction : ℚ)
    (h : Effect.SetControllerRumble fraction ∈ (UpdateRumbleState env now c).2) :
    (0 ≤ fraction ∧ fraction ≤ 1) ∧
      (0 < c.m_pendingHapticDurationSecs → 35 / 100 ≤ fraction) := by
  have hb := rumbleFraction_bounds c.m_pendingHapticDurationSecs c.m_pendingHapticAmplitude
  unfold UpdateRumbleState at h
  split_ifs at h
  · simp only [List.mem_singleton, Effect.SetControllerRumble.injEq] at h
    subst h
    exact ⟨hb.1, fun hpos => hb.2 (ne_of_gt hpos)⟩
  · simp at h
  · simp at h


/-- C5 witness: a pending request of 2 ms at amplitude `1 / 2` (raw fraction `0.2`) is sent
as `0.35`. -/
theorem C5_emitted_rumble_fraction_bounds_witness :
    Effect.SetControllerRumble (35 / 100) ∈
        (UpdateRumbleState sampleEnv 1000 rumbleController).2 ∧
      ((0 : ℚ) ≤ 35 / 100 ∧ (35 / 100 : ℚ) ≤ 1) ∧
      (0 < rumbleController.m_pendingHapticDurationSecs → (35 / 100 : ℚ) ≤ 35 / 100) := by
  have hMem : Effect.SetControllerRumble (35 / 100) ∈
      (UpdateRumbleState sampleEnv 1000 rumbleController).2 := by
    have hd : rumbleController.m_pendingHapticDurationSecs = 2 / 1000 := rfl
    have ha : rumbleController.m_pendingHapticAmplitude = 1 / 2 := rfl
    have hs : rumbleController.m_bRumbleSuppressed = false := rfl
    have hv : rumbleController.m_lastTimeRumbleSentValid = false := rfl
    have hn : (Int.toNat 2000 : ℚ) = 2000 := by
      have : Int.toNat 2000 = 2000 := rfl
      rw [this]
      norm_num
    have hRound : roundToBinary32 (2 / 1000 * 1000000) = 2000 := by
      rw [roundToBinary32_of_binade _ 10 (by norm_num [abs_of_nonneg])
        (by norm_num [abs_of_nonneg]) (by norm_num)]
      have hFloor : ⌊(2 / 1000 * 1000000 : ℚ) / 2 ^ ((10 : ℤ) - 23)⌋ = 16384000 := by
        rw [Int.floor_eq_iff]
        norm_num
      rw [roundHalfEven_of_floor _ _ hFloor]
      norm_num
    simp only [UpdateRumbleState, bTimoutElapsed, hd, ha, hs, hv, rumbleFraction, hRound,
      toUInt16]
    norm_num [hn]
  exact ⟨hMem, C5_emitted_rumble_fraction_bounds sampleEnv 1000 rumbleController _ hMem⟩

/-- Storing a haptic event does not touch the limiter state. -/
theorem deliverHaptic_limiter (call : RumbleCall) (c : PSMoveController) :
    (deliverHaptic call c).m_lastTimeRumbleSentValid = c.m_lastTimeRumbleSentValid ∧
      (deliverHaptic call c).m_lastTimeRumbleSent = c.m_lastTimeRumbleSent := by
  unfold deliverHaptic SetPendingHapticVibration
  cases call.hapticEvent <;> simp

/-- One call of `UpdateRumbleState` either sends nothing and keeps the limiter state, or
sends one command, records `now` as the send time, and was allowed to send: no send was
recorded before, or at least 33 ms have passed since the recorded one. -/
theorem UpdateRumbleState_cases (env : Env) (now : ℚ) (c : PSMoveController) :
    ((UpdateRumbleState env now c).2 = [] ∧
        (UpdateRumbleState env now c).1.m_lastTimeRumbleSentValid =
          c.m_lastTimeRumbleSentValid ∧
        (UpdateRumbleState env now c).1.m_lastTimeRumbleSent = c.m_lastTimeRumbleSent) ∨
      ((∃ fraction, (UpdateRumbleState env now c).2 = [Effect.SetControllerRumble fraction]) ∧
        (UpdateRumbleState env now c).1.m_lastTimeRumbleSentValid = true ∧
        (UpdateRumbleState env now c).1.m_lastTimeRumbleSent = now ∧
        c.m_bRumbleSuppressed = false ∧
        (c.m_lastTimeRumbleSentValid = false ∨ 33 ≤ now - c.m_lastTimeRumbleSent)) := by
  unfold UpdateRumbleState
  by_cases hs : c.m_bRumbleSuppressed = true
  · left
    simp [hs, resetPendingHaptic]
  · by_cases ht : bTimoutElapsed now c = true
    · right
      have hgate : c.m_lastTimeRumbleSentValid = false ∨ 33 ≤ now - c.m_lastTimeRumbleSent := by
        unfold bTimoutElapsed at ht
        by_cases hv : c.m_lastTimeRumbleSentValid = true
        · right
          simpa [hv] using ht
        · left
          simpa using hv
      simp only [Bool.not_eq_true] at hs
      simp [hs, ht, resetPendingHaptic, hgate]
    · left
      simp [hs, ht]

/-- Every send time of a sequence lies at least 33 ms after the send recorded before the
sequence, and the send times are pairwise at least 33 ms apart. -/
theorem rumbleSendTimes_spaced (env : Env) (calls : List RumbleCall) :
    ∀ c : PSMoveController,
      (c.m_lastTimeRumbleSentValid = true →
          ∀ t ∈ rumbleSendTimes env c calls, 33 ≤ t - c.m_lastTimeRumbleSent) ∧
        (rumbleSendTimes env c calls).Pairwise (fun t1 t2 => 33 ≤ t2 - t1) := by
  induction calls with
  | nil => intro c; simp [rumbleSendTimes]
  | cons call rest ih =>
    intro c
    have hd := deliverHaptic_limiter call c
    have hstep := UpdateRumbleState_cases env call.now (deliverHaptic call c)
    have hrest := ih (UpdateRumbleState env call.now (deliverHaptic call c)).1
    simp only [rumbleSendTimes]
    rcases hstep with ⟨hnil, hvalid, hlast⟩ | ⟨⟨fraction, hone⟩, hvalid, hlast, -, hgate⟩
    · rw [hnil]
      rw [hvalid, hlast, hd.1, hd.2] at hrest
      simpa using hrest
    · rw [hone]
      rw [hlast] at hrest
      have hafter := hrest.1 hvalid
      simp only [List.filterMap_cons, rumbleCommand, List.filterMap_nil, List.map_cons,
        List.map_nil, List.singleton_append, List.mem_cons, List.pairwise_cons]
      refine ⟨fun hv t ht => ?_, hafter, hrest.2⟩
      have hgate33 : 33 ≤ call.now - c.m_lastTimeRumbleSent := by
        rcases hgate with hfalse | h33
        · rw [hd.1, hv] at hfalse
          cases hfalse
        · rwa [hd.2] at h33
      rcases ht with rfl | ht
      · exact hgate33
      · have := hafter t ht
        linarith

/-- C6: in every sequence of `UpdateRumbleState` calls (whatever haptic events arrive in
between) any two rumble commands sent are at least 33 ms apart, and a single call sends a
command only if rumble is not suppressed and either no send is recorded or at least 33 ms
have passed since the recorded send time. The spacing needs no assumption on the clock
readings: a command is only sent 33 ms after the previous one. -/
theorem C6_rumble_commands_33ms_apart (env : Env) (c : PSMoveController)
    (calls : List RumbleCall) :
    (rumbleSendTimes env c calls).Pairwise (fun t1 t2 => 33 ≤ t2 - t1) ∧
      ∀ (now fraction : ℚ),
        Effect.SetControllerRumble fraction ∈ (UpdateRumbleState env now c).2 →
          c.m_bRumbleSuppressed = false ∧
            (c.m_lastTimeRumbleSentValid = false ∨ 33 ≤ now - c.m_lastTimeRumbleSent) := by
  refine ⟨(rumbleSendTimes_spaced env calls c).2, fun now fraction h => ?_⟩
  rcases UpdateRumbleState_cases env now c with ⟨hnil, -, -⟩ | ⟨-, -, -, hs, hgate⟩
  · rw [hnil] at h
    cases h
  · exact ⟨hs, hgate⟩


/-- C6 witness: calls at 0 ms, 20 ms and 40 ms from the freshly constructed controller send
at 0 ms and 40 ms; the call at 20 ms is held back. -/
theorem C6_rumble_commands_33ms_apart_witness :
    rumbleSendTimes sampleEnv sampleController sampleRumbleCalls = [0, 40] ∧
      (rumbleSendTimes sampleEnv sampleController sampleRumbleCalls).Pairwise
        (fun t1 t2 => 33 ≤ t2 - t1) := by
  refine ⟨?_, (C6_rumble_commands_33ms_apart sampleEnv sampleController sampleRumbleCalls).1⟩
  have hs : sampleController.m_bRumbleSuppressed = false := rfl
  have hv : sampleController.m_lastTimeRumbleSentValid = false := rfl
  have hcmd : ∀ fraction : ℚ,
      List.filterMap rumbleCommand [Effect.SetControllerRumble fraction] = [fraction] :=
    fun _ => rfl
  simp only [rumbleSendTimes, sampleRumbleCalls, deliverHaptic, SetPendingHapticVibration,
    UpdateRumbleState, bTimoutElapsed, resetPendingHaptic, hs, hv, if_true]
  norm_num [hcmd]

/-! ### The branches of `UpdateControllerState` -/

/-- The hold detector writes only the press time and the request flag of the recenter
button. -/
theorem holdDetector_others (now : ℚ) (state : PSMButtonState) (c : PSMoveController) :
    (holdDetector now state c).1.m_TrackedControllerRole = c.m_TrackedControllerRole ∧
      (holdDetector now state c).1.m_bDisableHMDAlignmentGesture =
        c.m_bDisableHMDAlignmentGesture ∧
      (holdDetector now state c).1.m_fControllerMetersInFrontOfHmdAtCalibration =
        c.m_fControllerMetersInFrontOfHmdAtCalibration ∧
      (holdDetector now state c).1.m_bUseControllerOrientationInHMDAlignment =
        c.m_bUseControllerOrientationInHMDAlignment ∧
      touchpadAndBatteryMembers (holdDetector now state c).1 = touchpadAndBatteryMembers c := by
  unfold holdDetector
  cases state
  · exact ⟨rfl, rfl, rfl, rfl, rfl⟩
  · exact ⟨rfl, rfl, rfl, rfl, rfl⟩
  · dsimp only
    split_ifs <;> exact ⟨rfl, rfl, rfl, rfl, rfl⟩
  · exact ⟨rfl, rfl, rfl, rfl, rfl⟩

/-- With the chord triggered and the gesture enabled the chord branch runs. -/
theorem UpdateControllerState_chord (env : Env) (host : HostFrame) (view : PSMPSMove)
    (c : PSMoveController) (hChord : bStartRealignHMDTriggered view = true)
    (hEnabled : c.m_bDisableHMDAlignmentGesture = false) :
    UpdateControllerState env host view c =
      chordBranch env host
        (holdDetector host.nowResetPose
          (resetPoseButtonState c.m_TrackedControllerRole view) c).1 := by
  have h := (holdDetector_others host.nowResetPose
    (resetPoseButtonState c.m_TrackedControllerRole view) c).2.1
  unfold UpdateControllerState
  simp only [hChord, h, hEnabled, Bool.not_false, Bool.and_self, if_true]

/-- Without the chord branch, a decided hold runs the recenter branch. -/
theorem UpdateControllerState_recenter (env : Env) (host : HostFrame) (view : PSMPSMove)
    (c : PSMoveController)
    (hNoChord : bStartRealignHMDTriggered view = false ∨
      c.m_bDisableHMDAlignmentGesture = true)
    (hHold : (holdDetector host.nowResetPose
      (resetPoseButtonState c.m_TrackedControllerRole view) c).2 = true) :
    UpdateControllerState env host view c =
      recenterBranch
        (holdDetector host.nowResetPose
          (resetPoseButtonState c.m_TrackedControllerRole view) c).1 := by
  have h := (holdDetector_others host.nowResetPose
    (resetPoseButtonState c.m_TrackedControllerRole view) c).2.1
  unfold UpdateControllerState
  rcases hNoChord with hNo | hDis
  · simp only [hNo, Bool.false_and, Bool.false_eq_true, if_false, hHold, if_true]
  · simp only [h, hDis, Bool.not_true, Bool.and_false, Bool.false_eq_true, if_false, hHold,
      if_true]

/-- Without the chord branch and without a decided hold the normal branch runs. -/
theorem UpdateControllerState_normal (env : Env) (host : HostFrame) (view : PSMPSMove)
    (c : PSMoveController)
    (hNoChord : bStartRealignHMDTriggered view = false ∨
      c.m_bDisableHMDAlignmentGesture = true)
    (hNoHold : (holdDetector host.nowResetPose
      (resetPoseButtonState c.m_TrackedControllerRole view) c).2 = false) :
    UpdateControllerState env host view c =
      normalBranch env host view
        (holdDetector host.nowResetPose
          (resetPoseButtonState c.m_TrackedControllerRole view) c).1 := by
  have h := (holdDetector_others host.nowResetPose
    (resetPoseButtonState c.m_TrackedControllerRole view) c).2.1
  unfold UpdateControllerState
  rcases hNoChord with hNo | hDis
  · simp only [hNo, Bool.false_and, Bool.false_eq_true, if_false, hNoHold]
  · simp only [h, hDis, Bool.not_true, Bool.and_false, Bool.false_eq_true, if_false, hNoHold]

/-- The `try` block issues no input update, and it issues the realignment request whenever
the head pose is available. -/
theorem realignTrackingSpace_effects (host : HostFrame) (q : PSMQuatf) (offset : PSMVector3f)
    (flag : Bool) :
    (∀ e ∈ realignTrackingSpace host q offset flag, e.isInputUpdate = false) ∧
      (∀ hmdPose, host.GetHMDPoseInMeters = some hmdPose →
        Effect.RealignHMDTrackingSpace q offset hmdPose flag ∈
          realignTrackingSpace host q offset flag) := by
  unfold realignTrackingSpace
  cases hPose : host.GetHMDPoseInMeters with
  | none => simp [Effect.isInputUpdate]
  | some hmdPose =>
    cases hRealign : host.RealignHMDTrackingSpace q offset hmdPose flag <;>
      simp [Effect.isInputUpdate, hRealign]

/-- C7 (as stated) is refuted twice. With the alignment gesture disabled by configuration,
a chord frame (`Start` pressed, `Select` down) issues no `ResetOrientation` request and
processes the native buttons as usual. With the gesture enabled and a failing head-pose
accessor, a chord frame issues no `RealignTrackingSpace` request. -/
theorem C7_counterexample :
    (bStartRealignHMDTriggered chordView = true ∧
        (UpdateControllerState sampleEnv sampleHost chordView
          gestureDisabledController).2.any Effect.isResetOrientation = false ∧
        Effect.UpdateButton k_PSMButtonID_Start PSMButtonState_PRESSED ∈
          (UpdateControllerState sampleEnv sampleHost chordView
            gestureDisabledController).2) ∧
      (UpdateControllerState sampleEnv headPoseFailingHost chordView sampleController).2 =
        [Effect.ResetControllerOrientationAsync ⟨0, 1, 0, 0⟩, Effect.LoggerError] := by
  have hChord : bStartRealignHMDTriggered chordView = true := by decide
  refine ⟨⟨hChord, ?_, ?_⟩, ?_⟩
  · rw [UpdateControllerState_normal sampleEnv sampleHost chordView gestureDisabledController
      (Or.inr rfl) rfl]
    simp [normalBranch, nativeButtonUpdates, triggerAxisUpdate, UpdateEmulatedTrackpad,
      UpdateEmulatedTrackpadWith, publishTrackpad, UpdateBatteryChargeState,
      Effect.isResetOrientation]
    split_ifs <;> simp [Effect.isResetOrientation]
  · rw [UpdateControllerState_normal sampleEnv sampleHost chordView gestureDisabledController
      (Or.inr rfl) rfl]
    simp [normalBranch, nativeButtonUpdates, chordView]
  · rw [UpdateControllerState_chord _ _ _ _ hChord rfl]
    rfl

/-- C7 (amended): in every frame in which the chord is triggered and the alignment gesture
is not disabled by configuration, `UpdateControllerState` issues a `ResetOrientation`
request and, whenever the head-pose accessor returns a pose, a `RealignTrackingSpace`
request; it performs no native-button, emulated-touchpad, trigger-axis or battery update:
no such effect is issued and the touchpad and battery members keep their values. -/
theorem C7_chord_realigns_and_skips_inputs (env : Env) (host : HostFrame) (view : PSMPSMove)
    (c : PSMoveController) (hChord : bStartRealignHMDTriggered view = true)
    (hEnabled : c.m_bDisableHMDAlignmentGesture = false) :
    Effect.ResetControllerOrientationAsync (env.PSM_QuatfCreateFromAngles ⟨M_PI_2, 0, 0⟩) ∈
        (UpdateControllerState env host view c).2 ∧
      (∀ hmdPose, host.GetHMDPoseInMeters = some hmdPose →
        Effect.RealignHMDTrackingSpace (env.PSM_QuatfCreateFromAngles ⟨M_PI_2, 0, 0⟩)
            ⟨0, 0, -1 * c.m_fControllerMetersInFrontOfHmdAtCalibration⟩ hmdPose
            c.m_bUseControllerOrientationInHMDAlignment ∈
          (UpdateControllerState env host view c).2) ∧
      (∀ e ∈ (UpdateControllerState env host view c).2, e.isInputUpdate = false) ∧
      touchpadAndBatteryMembers (UpdateControllerState env host view c).1 =
        touchpadAndBatteryMembers c := by
  obtain ⟨-, -, hFront, hUse, hKeep⟩ := holdDetector_others host.nowResetPose
    (resetPoseButtonState c.m_TrackedControllerRole view) c
  rw [UpdateControllerState_chord env host view c hChord hEnabled]
  simp only [chordBranch, hFront, hUse]
  have hTry := realignTrackingSpace_effects host
    (env.PSM_QuatfCreateFromAngles ⟨M_PI_2, 0, 0⟩)
    ⟨0, 0, -1 * c.m_fControllerMetersInFrontOfHmdAtCalibration⟩
    c.m_bUseControllerOrientationInHMDAlignment
  refine ⟨List.mem_cons_self _ _, fun hmdPose hPose => List.mem_cons_of_mem _ (hTry.2 _ hPose),
    ?_, ?_⟩
  · intro e he
    rcases List.mem_cons.mp he with rfl | he
    · rfl
    · exact hTry.1 e he
  · rw [← hKeep]
    rfl

/-- C7 witness: the sample chord frame on the freshly constructed controller. -/
theorem C7_chord_realigns_and_skips_inputs_witness :
    bStartRealignHMDTriggered chordView = true ∧
      sampleController.m_bDisableHMDAlignmentGesture = false ∧
      Effect.ResetControllerOrientationAsync
          (sampleEnv.PSM_QuatfCreateFromAngles ⟨M_PI_2, 0, 0⟩) ∈
        (UpdateControllerState sampleEnv sampleHost chordView sampleController).2 :=
  ⟨by decide, rfl,
    (C7_chord_realigns_and_skips_inputs sampleEnv sampleHost chordView sampleController
      (by decide) rfl).1⟩


/-! ### Members of the alignment gesture detector along a frame -/

/-- The spatial stage does not write the alignment members. -/
theorem spatialOffset_alignment (env : Env) (now : ℚ) (view : PSMPSMove)
    (highest : eEmulatedTrackpadAction) (c : PSMoveController) (l : TrackpadLocals) :
    alignmentMembers (spatialOffset env now view highest c l).1 = alignmentMembers c := by
  unfold spatialOffset stampLastTouchpadPressTime snapshotTouchpadAnchor
  dsimp only
  split_ifs <;> rfl

/-- The touchpad engine does not write the alignment members. -/
theorem UpdateEmulatedTrackpad_alignment (env : Env) (host : HostFrame) (view : PSMPSMove)
    (c : PSMoveController) :
    alignmentMembers (UpdateEmulatedTrackpad env host view c).1 = alignmentMembers c := by
  unfold UpdateEmulatedTrackpad
  split_ifs
  · rfl
  · exact spatialOffset_alignment env host.nowTouchpad view _ c _

/-- The battery normalizer does not write the alignment members. -/
theorem UpdateBatteryChargeState_alignment (e : PSMBatteryState) (c : PSMoveController) :
    alignmentMembers (UpdateBatteryChargeState e c).1 = alignmentMembers c := by
  unfold UpdateBatteryChargeState
  dsimp only
  split_ifs <;> rfl

/-- The normal branch does not write the alignment members. -/
theorem normalBranch_alignment (env : Env) (host : HostFrame) (view : PSMPSMove)
    (c : PSMoveController) :
    alignmentMembers (normalBranch env host view c).1 = alignmentMembers c := by
  unfold normalBranch
  dsimp only
  rw [UpdateBatteryChargeState_alignment, UpdateEmulatedTrackpad_alignment]

/-- Every effect of the normal branch is an input update. -/
theorem normalBranch_effects (env : Env) (host : HostFrame) (view : PSMPSMove)
    (c : PSMoveController) :
    ∀ e ∈ (normalBranch env host view c).2, e.isInputUpdate = true := by
  intro e he
  unfold normalBranch at he
  simp only [List.mem_append, List.mem_singleton] at he
  rcases he with ((he | he) | he) | he
  · simp only [nativeButtonUpdates, List.mem_cons, List.mem_singleton, List.mem_nil_iff,
      or_false] at he
    rcases he with rfl | rfl | rfl | rfl | rfl | rfl | rfl | rfl <;> rfl
  · unfold UpdateEmulatedTrackpad at he
    split_ifs at he
    · cases he
    · simp only [UpdateEmulatedTrackpadWith, publishTrackpad, List.mem_cons,
        List.mem_singleton, List.mem_nil_iff, or_false] at he
      rcases he with rfl | rfl | rfl | rfl <;> rfl
  · subst he
    rfl
  · unfold UpdateBatteryChargeState at he
    dsimp only at he
    split_ifs at he <;>
      simp only [List.mem_append, List.mem_singleton, List.mem_nil_iff, List.nil_append,
        or_false, false_or] at he
    · rcases he with rfl | rfl <;> rfl
    · subst he; rfl
    · subst he; rfl

/-- What the hold detector does to its two members and when it decides a recenter. -/
theorem holdDetector_spec (now : ℚ) (state : PSMButtonState) (c : PSMoveController) :
    (holdDetector now state c).1.m_resetPoseButtonPressTime =
        (if state = PSMButtonState_PRESSED then now else c.m_resetPoseButtonPressTime) ∧
      (holdDetector now state c).1.m_bResetPoseRequestSent =
        (if state = PSMButtonState_RELEASED then false else c.m_bResetPoseRequestSent) ∧
      ((holdDetector now state c).2 = true ↔
        state = PSMButtonState_DOWN ∧ c.m_bResetPoseRequestSent = false ∧
          250 ≤ now - c.m_resetPoseButtonPressTime) := by
  unfold holdDetector
  cases state
  · simp
  · simp
  · by_cases hSent : c.m_bResetPoseRequestSent = true
    · simp [hSent]
    · simp [hSent]
  · simp

/-- The members of the alignment gesture detector after one frame: the role and the
disable flag are kept, the press time is the hold detector's, and the recenter request
flag is set by the chord and recenter branches and otherwise the hold detector's. -/
theorem UpdateControllerState_alignment (env : Env) (host : HostFrame) (view : PSMPSMove)
    (c : PSMoveController) :
    (UpdateControllerState env host view c).1.m_TrackedControllerRole =
        c.m_TrackedControllerRole ∧
      (UpdateControllerState env host view c).1.m_resetPoseButtonPressTime =
        (holdDetector host.nowResetPose
          (resetPoseButtonState c.m_TrackedControllerRole view) c).1.m_resetPoseButtonPressTime ∧
      ((holdDetector host.nowResetPose
          (resetPoseButtonState c.m_TrackedControllerRole view) c).1.m_bResetPoseRequestSent =
            true →
        (UpdateControllerState env host view c).1.m_bResetPoseRequestSent = true) := by
  obtain ⟨hRole, -, -, -, -⟩ := holdDetector_others host.nowResetPose
    (resetPoseButtonState c.m_TrackedControllerRole view) c
  by_cases hChord : bStartRealignHMDTriggered view = true ∧
      c.m_bDisableHMDAlignmentGesture = false
  · rw [UpdateControllerState_chord env host view c hChord.1 hChord.2]
    exact ⟨hRole, rfl, fun _ => rfl⟩
  · have hNoChord : bStartRealignHMDTriggered view = false ∨
        c.m_bDisableHMDAlignmentGesture = true := by
      by_cases h1 : bStartRealignHMDTriggered view = true
      · right
        by_cases h2 : c.m_bDisableHMDAlignmentGesture = true
        · exact h2
        · exact absurd ⟨h1, by simpa using h2⟩ hChord
      · left
        simpa using h1
    by_cases hHold : (holdDetector host.nowResetPose
        (resetPoseButtonState c.m_TrackedControllerRole view) c).2 = true
    · rw [UpdateControllerState_recenter env host view c hNoChord hHold]
      exact ⟨hRole, rfl, fun _ => rfl⟩
    · rw [UpdateControllerState_normal env host view c hNoChord (by simpa using hHold)]
      have hKeep := normalBranch_alignment env host view
        (holdDetector host.nowResetPose
          (resetPoseButtonState c.m_TrackedControllerRole view) c).1
      simp only [alignmentMembers, Prod.mk.injEq] at hKeep
      obtain ⟨h1, h2, h3, -, -⟩ := hKeep
      exact ⟨h1.trans hRole, h2, fun h => h3.trans h⟩


/-! ### Hold detection over frame sequences -/

/-- Running a sequence that starts with the frame `f`. -/
theorem runFrames_cons (env : Env) (c : PSMoveController) (f : Frame) (rest : List Frame) :
    runFrames env c (f :: rest) =
      runFrames env (UpdateControllerState env f.host f.view c).1 rest := rfl

/-- Running a sequence followed by the frame `f` and further frames. -/
theorem runFrames_append_cons (env : Env) (c : PSMoveController) (pre : List Frame)
    (f : Frame) (rest : List Frame) :
    runFrames env c (pre ++ f :: rest) =
      runFrames env (UpdateControllerState env f.host f.view (runFrames env c pre)).1 rest := by
  simp [runFrames, List.foldl_append]

/-- The role of the controller never changes. -/
theorem runFrames_role (env : Env) (frames : List Frame) :
    ∀ c : PSMoveController,
      (runFrames env c frames).m_TrackedControllerRole = c.m_TrackedControllerRole := by
  induction frames with
  | nil => intro c; rfl
  | cons f rest ih =>
    intro c
    rw [runFrames_cons, ih]
    exact (UpdateControllerState_alignment env f.host f.view c).1

/-- When the recenter is decided the button is `Down`, no request is in flight and 250 ms
have passed since the recorded press time. -/
theorem recenterDecided_iff (c : PSMoveController) (f : Frame) :
    recenterDecided c f = true ↔
      recenterButton c.m_TrackedControllerRole f = PSMButtonState_DOWN ∧
        c.m_bResetPoseRequestSent = false ∧
        250 ≤ f.host.nowResetPose - c.m_resetPoseButtonPressTime :=
  (holdDetector_spec f.host.nowResetPose (recenterButton c.m_TrackedControllerRole f) c).2.2

/-- A run of the monitor that ends in `some t` either continued the run it started from
through `Down` frames only, or began at a `Pressed` frame of the sequence with clock
reading `t` that is followed by `Down` frames only. -/
theorem holdRunStart_some (role : ETrackedControllerRole) (frames : List Frame) :
    ∀ (runStart : Option ℚ) (t : ℚ), holdRunStart role runStart frames = some t →
      (runStart = some t ∧ ∀ m ∈ frames, recenterButton role m = PSMButtonState_DOWN) ∨
        ∃ (pre : List Frame) (g : Frame) (mid : List Frame),
          frames = pre ++ g :: mid ∧ recenterButton role g = PSMButtonState_PRESSED ∧
            g.host.nowResetPose = t ∧
            ∀ m ∈ mid, recenterButton role m = PSMButtonState_DOWN := by
  induction frames with
  | nil =>
    intro runStart t h
    left
    exact ⟨h, fun m hm => by cases hm⟩
  | cons f rest ih =>
    intro runStart t h
    have hstep : holdRunStart role runStart (f :: rest) =
        holdRunStart role (holdRunStep (recenterButton role f) f.host.nowResetPose runStart)
          rest := rfl
    rw [hstep] at h
    rcases ih _ t h with ⟨hacc, hall⟩ | ⟨pre, g, mid, hEq, hg, ht, hmid⟩
    · cases hf : recenterButton role f with
      | PSMButtonState_UP => rw [hf] at hacc; cases hacc
      | PSMButtonState_RELEASED => rw [hf] at hacc; cases hacc
      | PSMButtonState_DOWN =>
        rw [hf] at hacc
        left
        refine ⟨hacc, fun m hm => ?_⟩
        rcases List.mem_cons.mp hm with rfl | hm
        · exact hf
        · exact hall m hm
      | PSMButtonState_PRESSED =>
        rw [hf] at hacc
        right
        refine ⟨[], f, rest, rfl, hf, ?_, hall⟩
        simpa [holdRunStep] using hacc
    · right
      exact ⟨f :: pre, g, mid, by rw [hEq]; rfl, hg, ht, hmid⟩

/-- The monitor returns the clock reading of the `Pressed` frame of a hold. -/
theorem holdRunStart_of_held (role : ETrackedControllerRole) (pre : List Frame) (g : Frame)
    (mid : List Frame) (hg : recenterButton role g = PSMButtonState_PRESSED)
    (hmid : ∀ m ∈ mid, recenterButton role m = PSMButtonState_DOWN) (runStart : Option ℚ) :
    holdRunStart role runStart (pre ++ g :: mid) = some g.host.nowResetPose := by
  have hDown : ∀ (mid : List Frame) (acc : Option ℚ),
      (∀ m ∈ mid, recenterButton role m = PSMButtonState_DOWN) →
        holdRunStart role acc mid = acc := by
    intro mid
    induction mid with
    | nil => intro acc _; rfl
    | cons m rest ih =>
      intro acc h
      have hm := h m (List.mem_cons_self _ _)
      have hstep : holdRunStart role acc (m :: rest) =
          holdRunStart role (holdRunStep (recenterButton role m) m.host.nowResetPose acc)
            rest := rfl
      rw [hstep, hm]
      exact ih acc (fun x hx => h x (List.mem_cons_of_mem _ hx))
  have hsplit : holdRunStart role runStart (pre ++ g :: mid) =
      holdRunStart role
        (holdRunStep (recenterButton role g) g.host.nowResetPose
          (holdRunStart role runStart pre)) mid := by
    simp [holdRunStart, List.foldl_append]
  rw [hsplit, hg]
  exact hDown mid _ hmid

/-- Under the edge protocol the press time recorded by the controller is the start of the
current run of the monitor, so a decided recenter follows a hold of at least 250 ms. -/
theorem recenterDecided_tracks_run (env : Env) (role : ETrackedControllerRole)
    (frames : List Frame) (f : Frame) :
    ∀ (c : PSMoveController) (runStart : Option ℚ) (previous : PSMButtonState),
      c.m_TrackedControllerRole = role →
      (previous = PSMButtonState_PRESSED ∨ previous = PSMButtonState_DOWN →
        runStart = some c.m_resetPoseButtonPressTime) →
      obeysEdgeProtocol role previous (frames ++ [f]) →
      recenterDecided (runFrames env c frames) f = true →
      recenterButton role f = PSMButtonState_DOWN ∧
        ∃ t, holdRunStart role runStart frames = some t ∧ 250 ≤ f.host.nowResetPose - t := by
  induction frames with
  | nil =>
    intro c runStart previous hRole hLink hProtocol hDecided
    obtain ⟨hDown, -, hTime⟩ := (recenterDecided_iff c f).mp hDecided
    rw [hRole] at hDown
    have hPrev := hProtocol.1 hDown
    exact ⟨hDown, c.m_resetPoseButtonPressTime, hLink hPrev, hTime⟩
  | cons g rest ih =>
    intro c runStart previous hRole hLink hProtocol hDecided
    rw [runFrames_cons] at hDecided
    obtain ⟨hRole1, hTime1, -⟩ := UpdateControllerState_alignment env g.host g.view c
    obtain ⟨hPress, -, -⟩ := holdDetector_spec g.host.nowResetPose
      (resetPoseButtonState c.m_TrackedControllerRole g.view) c
    have hstep : holdRunStart role runStart (g :: rest) =
        holdRunStart role (holdRunStep (recenterButton role g) g.host.nowResetPose runStart)
          rest := rfl
    rw [hstep]
    refine ih (UpdateControllerState env g.host g.view c).1 _ (recenterButton role g)
      (hRole1.trans hRole) ?_ hProtocol.2 hDecided
    intro hg
    rw [hTime1, hPress, hRole]
    have hBtn : resetPoseButtonState role g.view = recenterButton role g := rfl
    rw [hBtn]
    rcases hg with hg | hg
    · rw [hg]
      rfl
    · rw [hg]
      simp only [holdRunStep, reduceCtorEq, if_false]
      exact hLink (hProtocol.1 hg)


/-- The alignment members after the hold detector. -/
theorem holdDetector_alignment (now : ℚ) (state : PSMButtonState) (c : PSMoveController) :
    alignmentMembers (holdDetector now state c).1 =
      (c.m_TrackedControllerRole,
        (if state = PSMButtonState_PRESSED then now else c.m_resetPoseButtonPressTime),
        (if state = PSMButtonState_RELEASED then false else c.m_bResetPoseRequestSent),
        c.m_bResetAlignRequestSent, c.m_bDisableHMDAlignmentGesture) := by
  unfold holdDetector
  cases state
  · rfl
  · rfl
  · dsimp only
    split_ifs <;> first | rfl | contradiction
  · rfl

/-- In a frame that takes the normal branch the alignment members are those left by the
hold detector. -/
theorem UpdateControllerState_alignment_plain (env : Env) (host : HostFrame)
    (view : PSMPSMove) (c : PSMoveController)
    (hNoChord : bStartRealignHMDTriggered view = false ∨
      c.m_bDisableHMDAlignmentGesture = true)
    (hNoHold : (holdDetector host.nowResetPose
      (resetPoseButtonState c.m_TrackedControllerRole view) c).2 = false) :
    alignmentMembers (UpdateControllerState env host view c).1 =
      alignmentMembers (holdDetector host.nowResetPose
        (resetPoseButtonState c.m_TrackedControllerRole view) c).1 := by
  rw [UpdateControllerState_normal env host view c hNoChord hNoHold]
  exact normalBranch_alignment env host view _

/-- After a frame with `Start` pressed at clock reading `t` and `Select` up, a right-hand
controller with no request in flight has recorded the press time `t`. -/
theorem alignment_after_press (env : Env) (t : ℚ) (c : PSMoveController)
    (hRole : c.m_TrackedControllerRole = TrackedControllerRole_RightHand) :
    alignmentMembers (UpdateControllerState env (hostAt t) pressView c).1 =
      (TrackedControllerRole_RightHand, t, c.m_bResetPoseRequestSent,
        c.m_bResetAlignRequestSent, c.m_bDisableHMDAlignmentGesture) := by
  have hState : resetPoseButtonState c.m_TrackedControllerRole pressView =
      PSMButtonState_PRESSED := by rw [hRole]; rfl
  have hNoHold : (holdDetector (hostAt t).nowResetPose
      (resetPoseButtonState c.m_TrackedControllerRole pressView) c).2 = false := by
    rw [hState]; rfl
  rw [UpdateControllerState_alignment_plain env (hostAt t) pressView c (Or.inl (by decide))
    hNoHold, holdDetector_alignment, hState, hRole]
  rfl

/-- After a frame with `Start` released and `Select` up, a right-hand controller has no
recenter request in flight. -/
theorem alignment_after_release (env : Env) (t : ℚ) (c : PSMoveController)
    (hRole : c.m_TrackedControllerRole = TrackedControllerRole_RightHand) :
    alignmentMembers (UpdateControllerState env (hostAt t) releaseView c).1 =
      (TrackedControllerRole_RightHand, c.m_resetPoseButtonPressTime, false,
        c.m_bResetAlignRequestSent, c.m_bDisableHMDAlignmentGesture) := by
  have hState : resetPoseButtonState c.m_TrackedControllerRole releaseView =
      PSMButtonState_RELEASED := by rw [hRole]; rfl
  have hNoHold : (holdDetector (hostAt t).nowResetPose
      (resetPoseButtonState c.m_TrackedControllerRole releaseView) c).2 = false := by
    rw [hState]; rfl
  rw [UpdateControllerState_alignment_plain env (hostAt t) releaseView c (Or.inl (by decide))
    hNoHold, holdDetector_alignment, hState, hRole]
  rfl

/-- A frame with `Start` held down on a right-hand controller with no request in flight,
at least 250 ms after the recorded press time, issues the hold recenter request and sets
the request flag. -/
theorem hold_issues_recenter (env : Env) (t : ℚ) (c : PSMoveController)
    (hRole : c.m_TrackedControllerRole = TrackedControllerRole_RightHand)
    (hSent : c.m_bResetPoseRequestSent = false)
    (hTime : 250 ≤ t - c.m_resetPoseButtonPressTime) :
    (UpdateControllerState env (hostAt t) holdView c).2 =
        [Effect.ResetControllerOrientationAsync k_psm_quaternion_identity] ∧
      alignmentMembers (UpdateControllerState env (hostAt t) holdView c).1 =
        (TrackedControllerRole_RightHand, c.m_resetPoseButtonPressTime, true,
          c.m_bResetAlignRequestSent, c.m_bDisableHMDAlignmentGesture) := by
  have hState : resetPoseButtonState c.m_TrackedControllerRole holdView =
      PSMButtonState_DOWN := by rw [hRole]; rfl
  have hHold : (holdDetector (hostAt t).nowResetPose
      (resetPoseButtonState c.m_TrackedControllerRole holdView) c).2 = true := by
    rw [(holdDetector_spec _ _ c).2.2]
    exact ⟨hState, hSent, hTime⟩
  have hAlign := holdDetector_alignment (hostAt t).nowResetPose
    (resetPoseButtonState c.m_TrackedControllerRole holdView) c
  rw [hState, hRole] at hAlign
  simp only [alignmentMembers, Prod.mk.injEq, reduceCtorEq, if_false] at hAlign
  obtain ⟨h1, h2, -, h4, h5⟩ := hAlign
  rw [UpdateControllerState_recenter env (hostAt t) holdView c (Or.inl (by decide)) hHold]
  refine ⟨rfl, ?_⟩
  simp only [recenterBranch, alignmentMembers, Prod.mk.injEq]
  rw [hState]
  exact ⟨h1, h2, trivial, h4, h5⟩

/-- C8 (as stated) is refuted: after `Start` was pressed at 0 ms on the freshly constructed
right-hand controller, a frame at 1000 ms with `Start` held down and `Select` up does not
trigger the chord, yet it only issues the hold recenter request; no native button, axis or
battery update is made. -/
theorem C8_counterexample :
    bStartRealignHMDTriggered holdView = false ∧
      (UpdateControllerState sampleEnv (hostAt 1000) holdView
        (UpdateControllerState sampleEnv (hostAt 0) pressView sampleController).1).2 =
        [Effect.ResetControllerOrientationAsync k_psm_quaternion_identity] := by
  have h1 := alignment_after_press sampleEnv 0 sampleController rfl
  simp only [alignmentMembers, Prod.mk.injEq] at h1
  obtain ⟨hRole1, hTime1, hSent1, -, -⟩ := h1
  have hSent0 : sampleController.m_bResetPoseRequestSent = false := rfl
  rw [hSent0] at hSent1
  exact ⟨by decide,
    (hold_issues_recenter sampleEnv 1000 _ hRole1 hSent1 (by rw [hTime1]; norm_num)).1⟩

/-- C8 (amended): in every frame in which the chord is not triggered and the hold detector
does not decide a recenter, `UpdateControllerState` processes the frame normally: after the
hold detector it updates the eight native buttons from the telemetry, runs
`UpdateEmulatedTrackpad`, updates the trigger axis with `TriggerValue / 255` and runs
`UpdateBatteryChargeState` on the telemetry's battery value, in this order. -/
theorem C8_plain_frame_processes_inputs (env : Env) (host : HostFrame) (view : PSMPSMove)
    (c : PSMoveController) (hNoChord : bStartRealignHMDTriggered view = false)
    (hNoHold : (holdDetector host.nowResetPose
      (resetPoseButtonState c.m_TrackedControllerRole view) c).2 = false) :
    UpdateControllerState env host view c =
      ((UpdateBatteryChargeState view.BatteryValue
          (UpdateEmulatedTrackpad env host view
            (holdDetector host.nowResetPose
              (resetPoseButtonState c.m_TrackedControllerRole view) c).1).1).1,
        [Effect.UpdateButton k_PSMButtonID_Circle view.CircleButton,
         Effect.UpdateButton k_PSMButtonID_Cross view.CrossButton,
         Effect.UpdateButton k_PSMButtonID_Move view.MoveButton,
         Effect.UpdateButton k_PSMButtonID_PS view.PSButton,
         Effect.UpdateButton k_PSMButtonID_Select view.SelectButton,
         Effect.UpdateButton k_PSMButtonID_Square view.SquareButton,
         Effect.UpdateButton k_PSMButtonID_Start view.StartButton,
         Effect.UpdateButton k_PSMButtonID_Triangle view.TriangleButton] ++
          (UpdateEmulatedTrackpad env host view
            (holdDetector host.nowResetPose
              (resetPoseButtonState c.m_TrackedControllerRole view) c).1).2 ++
          [Effect.UpdateAxis k_PSMAxisID_Trigger ((view.TriggerValue : ℚ) / 255)] ++
          (UpdateBatteryChargeState view.BatteryValue
            (UpdateEmulatedTrackpad env host view
              (holdDetector host.nowResetPose
                (resetPoseButtonState c.m_TrackedControllerRole view) c).1).1).2) := by
  rw [UpdateControllerState_normal env host view c (Or.inl hNoChord) hNoHold]
  rfl

/-- C8 witness: a frame with every button up on the freshly constructed controller updates
the `Start` button. -/
theorem C8_plain_frame_processes_inputs_witness :
    bStartRealignHMDTriggered sampleView = false ∧
      Effect.UpdateButton k_PSMButtonID_Start PSMButtonState_UP ∈
        (UpdateControllerState sampleEnv sampleHost sampleView sampleController).2 := by
  refine ⟨by decide, ?_⟩
  rw [C8_plain_frame_processes_inputs sampleEnv sampleHost sampleView sampleController
    (by decide) rfl]
  simp [sampleView]

/-- C9 (as stated) is refuted twice from the freshly constructed right-hand controller.
A first frame that reports `Start` as `Down` at clock reading 1000 ms decides a recenter
although no `Pressed` edge was ever reported. And after `Pressed` at 0 ms and `Released` at
100 ms, a frame reporting `Down` at 300 ms decides a recenter although the button was not
held in between. -/
theorem C9_counterexample :
    (recenterDecided (runFrames sampleEnv sampleController []) ⟨hostAt 1000, holdView⟩ = true ∧
        ¬ HeldSincePress TrackedControllerRole_RightHand [] ⟨hostAt 1000, holdView⟩) ∧
      (recenterDecided
          (runFrames sampleEnv sampleController
            [⟨hostAt 0, pressView⟩, ⟨hostAt 100, releaseView⟩])
          ⟨hostAt 300, holdView⟩ = true ∧
        ¬ HeldSincePress TrackedControllerRole_RightHand
          [⟨hostAt 0, pressView⟩, ⟨hostAt 100, releaseView⟩] ⟨hostAt 300, holdView⟩) := by
  have hNotHeld : ∀ (frames : List Frame) (f : Frame),
      holdRunStart TrackedControllerRole_RightHand none frames = none →
        ¬ HeldSincePress TrackedControllerRole_RightHand frames f := by
    rintro frames f hNone ⟨pre, g, mid, rfl, hg, hmid, -, -⟩
    rw [holdRunStart_of_held _ pre g mid hg hmid none] at hNone
    cases hNone
  refine ⟨⟨?_, hNotHeld _ _ rfl⟩, ?_, hNotHeld _ _ rfl⟩
  · rw [recenterDecided_iff]
    refine ⟨rfl, rfl, ?_⟩
    have hNow : (⟨hostAt 1000, holdView⟩ : Frame).host.nowResetPose = 1000 := rfl
    have hTime : (runFrames sampleEnv sampleController []).m_resetPoseButtonPressTime = 0 := rfl
    rw [hNow, hTime]
    norm_num
  · have h1 := alignment_after_press sampleEnv 0 sampleController rfl
    simp only [alignmentMembers, Prod.mk.injEq] at h1
    obtain ⟨hRole1, hTime1, hSent1, -, hDis1⟩ := h1
    have hState : resetPoseButtonState
        (UpdateControllerState sampleEnv (hostAt 0) pressView
          sampleController).1.m_TrackedControllerRole releaseView =
        PSMButtonState_RELEASED := by rw [hRole1]; rfl
    have hNoHold : (holdDetector (hostAt 100).nowResetPose
        (resetPoseButtonState
          (UpdateControllerState sampleEnv (hostAt 0) pressView
            sampleController).1.m_TrackedControllerRole releaseView)
        (UpdateControllerState sampleEnv (hostAt 0) pressView sampleController).1).2 =
          false := by
      rw [hState]; rfl
    have h2 := UpdateControllerState_alignment_plain sampleEnv (hostAt 100) releaseView
      (UpdateControllerState sampleEnv (hostAt 0) pressView sampleController).1
      (Or.inl (by decide)) hNoHold
    rw [holdDetector_alignment, hState, hRole1, hTime1] at h2
    simp only [alignmentMembers, Prod.mk.injEq, reduceCtorEq, if_false, if_true] at h2
    obtain ⟨hRole2, hTime2, hSent2, -, -⟩ := h2
    rw [recenterDecided_iff]
    simp only [runFrames_cons]
    have hRun : ∀ c : PSMoveController, runFrames sampleEnv c [] = c := fun _ => rfl
    rw [hRun, hRole2, hTime2, hSent2]
    refine ⟨rfl, rfl, ?_⟩
    have hNow : (⟨hostAt 300, holdView⟩ : Frame).host.nowResetPose = 300 := rfl
    rw [hNow]
    norm_num

/-- C9 (amended): for every starting controller (in particular the freshly constructed one)
and every sequence of frames in which the role-designated button obeys the edge protocol of
the telemetry (a frame reports `Down` only right after a frame reporting `Pressed` or
`Down`, the first frame not being `Down`), a hold-triggered recenter is decided in a frame
only if an earlier frame reported `Pressed`, every frame since reported `Down`, and at
least 250 ms have passed since that `Pressed` frame. -/
theorem C9_hold_recenter_needs_250ms_hold (env : Env) (c : PSMoveController)
    (frames : List Frame) (f : Frame)
    (hProtocol : obeysEdgeProtocol c.m_TrackedControllerRole PSMButtonState_UP (frames ++ [f]))
    (hDecided : recenterDecided (runFrames env c frames) f = true) :
    HeldSincePress c.m_TrackedControllerRole frames f := by
  obtain ⟨hDown, t, hRun, hTime⟩ :=
    recenterDecided_tracks_run env c.m_TrackedControllerRole frames f c none PSMButtonState_UP
      rfl (fun h => by rcases h with h | h <;> cases h) hProtocol hDecided
  rcases holdRunStart_some c.m_TrackedControllerRole frames none t hRun with
    ⟨hNone, -⟩ | ⟨pre, g, mid, hEq, hg, ht, hmid⟩
  · cases hNone
  · exact ⟨pre, g, mid, hEq, hg, hmid, hDown, by rw [ht]; exact hTime⟩

/-- C9 witness: `Start` pressed at 0 ms and held at 100 ms and 300 ms on the freshly
constructed right-hand controller; the recenter decided at 300 ms follows a hold. -/
theorem C9_hold_recenter_needs_250ms_hold_witness :
    recenterDecided
        (runFrames sampleEnv sampleController [⟨hostAt 0, pressView⟩, ⟨hostAt 100, holdView⟩])
        ⟨hostAt 300, holdView⟩ = true ∧
      HeldSincePress sampleController.m_TrackedControllerRole
        [⟨hostAt 0, pressView⟩, ⟨hostAt 100, holdView⟩] ⟨hostAt 300, holdView⟩ := by
  have hDecided : recenterDecided
      (runFrames sampleEnv sampleController [⟨hostAt 0, pressView⟩, ⟨hostAt 100, holdView⟩])
      ⟨hostAt 300, holdView⟩ = true := by
    have h1 := alignment_after_press sampleEnv 0 sampleController rfl
    simp only [alignmentMembers, Prod.mk.injEq] at h1
    obtain ⟨hRole1, hTime1, hSent1, -, hDis1⟩ := h1
    have hSent0 : sampleController.m_bResetPoseRequestSent = false := rfl
    rw [hSent0] at hSent1
    have hState : resetPoseButtonState
        (UpdateControllerState sampleEnv (hostAt 0) pressView
          sampleController).1.m_TrackedControllerRole holdView =
        PSMButtonState_DOWN := by rw [hRole1]; rfl
    have hNoHold : (holdDetector (hostAt 100).nowResetPose
        (resetPoseButtonState
          (UpdateControllerState sampleEnv (hostAt 0) pressView
            sampleController).1.m_TrackedControllerRole holdView)
        (UpdateControllerState sampleEnv (hostAt 0) pressView sampleController).1).2 =
          false := by
      rw [hState]
      have hNow : (hostAt 100).nowResetPose = 100 := rfl
      simp only [holdDetector, hSent1, hTime1, hNow]
      norm_num
    have h2 := UpdateControllerState_alignment_plain sampleEnv (hostAt 100) holdView
      (UpdateControllerState sampleEnv (hostAt 0) pressView sampleController).1
      (Or.inl (by decide)) hNoHold
    rw [holdDetector_alignment, hState, hRole1, hTime1, hSent1] at h2
    simp only [alignmentMembers, Prod.mk.injEq, reduceCtorEq, if_false] at h2
    obtain ⟨hRole2, hTime2, hSent2, -, -⟩ := h2
    rw [recenterDecided_iff]
    simp only [runFrames_cons]
    have hRun : ∀ c : PSMoveController, runFrames sampleEnv c [] = c := fun _ => rfl
    rw [hRun, hRole2, hTime2, hSent2]
    refine ⟨rfl, rfl, ?_⟩
    have hNow : (⟨hostAt 300, holdView⟩ : Frame).host.nowResetPose = 300 := rfl
    rw [hNow]
    norm_num
  refine ⟨hDecided, C9_hold_recenter_needs_250ms_hold sampleEnv sampleController _ _ ?_
    hDecided⟩
  refine ⟨fun h => ?_, fun _ => Or.inl rfl, fun _ => Or.inr rfl, trivial⟩
  cases h


/-! ### At most one hold recenter per press -/

/-- The `try` block of the chord branch issues no `ResetOrientation` request. -/
theorem realignTrackingSpace_no_reset (host : HostFrame) (q : PSMQuatf) (offset : PSMVector3f)
    (flag : Bool) :
    ∀ e ∈ realignTrackingSpace host q offset flag, e.isResetOrientation = false := by
  unfold realignTrackingSpace
  cases hPose : host.GetHMDPoseInMeters with
  | none => simp [Effect.isResetOrientation]
  | some hmdPose =>
    cases hRealign : host.RealignHMDTrackingSpace q offset hmdPose flag <;>
      simp [Effect.isResetOrientation, hRealign]

/-- A frame that issues the identity-target request decided a hold recenter, and leaves the
recenter request flag set; the chord's target is assumed to differ from the identity. -/
theorem holdRecenterIssued_decided (env : Env) (c : PSMoveController) (f : Frame)
    (hTarget : env.PSM_QuatfCreateFromAngles ⟨M_PI_2, 0, 0⟩ ≠ k_psm_quaternion_identity)
    (hIssued : holdRecenterIssued env c f) :
    recenterDecided c f = true ∧
      (UpdateControllerState env f.host f.view c).1.m_bResetPoseRequestSent = true := by
  unfold holdRecenterIssued at hIssued
  by_cases hChord : bStartRealignHMDTriggered f.view = true ∧
      c.m_bDisableHMDAlignmentGesture = false
  · exfalso
    rw [UpdateControllerState_chord env f.host f.view c hChord.1 hChord.2] at hIssued
    simp only [chordBranch] at hIssued
    rcases List.mem_cons.mp hIssued with hEq | hMem
    · simp only [Effect.ResetControllerOrientationAsync.injEq] at hEq
      exact hTarget hEq.symm
    · have := realignTrackingSpace_no_reset _ _ _ _ _ hMem
      simp [Effect.isResetOrientation] at this
  · have hNoChord : bStartRealignHMDTriggered f.view = false ∨
        c.m_bDisableHMDAlignmentGesture = true := by
      by_cases h1 : bStartRealignHMDTriggered f.view = true
      · right
        by_cases h2 : c.m_bDisableHMDAlignmentGesture = true
        · exact h2
        · exact absurd ⟨h1, by simpa using h2⟩ hChord
      · left
        simpa using h1
    by_cases hHold : (holdDetector f.host.nowResetPose
        (resetPoseButtonState c.m_TrackedControllerRole f.view) c).2 = true
    · refine ⟨hHold, ?_⟩
      rw [UpdateControllerState_recenter env f.host f.view c hNoChord hHold]
      rfl
    · exfalso
      rw [UpdateControllerState_normal env f.host f.view c hNoChord (by simpa using hHold)]
        at hIssued
      have := normalBranch_effects env f.host f.view _ _ hIssued
      simp [Effect.isInputUpdate] at this

/-- While no frame reports the recenter button `Released`, a set recenter request flag
stays set. -/
theorem requestSent_persists (env : Env) (frames : List Frame) :
    ∀ c : PSMoveController, c.m_bResetPoseRequestSent = true →
      (∀ g ∈ frames, recenterButton c.m_TrackedControllerRole g ≠ PSMButtonState_RELEASED) →
      (runFrames env c frames).m_bResetPoseRequestSent = true := by
  induction frames with
  | nil => intro c h _; exact h
  | cons g rest ih =>
    intro c hSent hNo
    rw [runFrames_cons]
    obtain ⟨hRole, -, hKeep⟩ := UpdateControllerState_alignment env g.host g.view c
    obtain ⟨-, hFlag, -⟩ := holdDetector_spec g.host.nowResetPose
      (resetPoseButtonState c.m_TrackedControllerRole g.view) c
    have hg : resetPoseButtonState c.m_TrackedControllerRole g.view ≠
        PSMButtonState_RELEASED := hNo g (List.mem_cons_self _ _)
    refine ih _ (hKeep ?_) (fun x hx => ?_)
    · rw [hFlag, if_neg hg]
      exact hSent
    · rw [hRole]
      exact hNo x (List.mem_cons_of_mem _ hx)

/-- C10: in every sequence of frames processed by `UpdateControllerState`, between two
frames that issue the hold-to-recenter request (`ResetOrientation` with the identity
target) there is a frame in which the role-designated button is reported `Released`. The
chord's target orientation, computed by the library from a pitch of π/2, is taken to differ
from the identity. -/
theorem C10_released_between_hold_recenters (env : Env) (c : PSMoveController)
    (pre mid : List Frame) (first second : Frame)
    (hTarget : env.PSM_QuatfCreateFromAngles ⟨M_PI_2, 0, 0⟩ ≠ k_psm_quaternion_identity)
    (hFirst : holdRecenterIssued env (runFrames env c pre) first)
    (hSecond : holdRecenterIssued env (runFrames env c (pre ++ first :: mid)) second) :
    ∃ g ∈ mid, recenterButton c.m_TrackedControllerRole g = PSMButtonState_RELEASED := by
  by_contra hNone
  push_neg at hNone
  obtain ⟨-, hSent⟩ := holdRecenterIssued_decided env _ first hTarget hFirst
  obtain ⟨hDecided, -⟩ := holdRecenterIssued_decided env _ second hTarget hSecond
  rw [runFrames_append_cons] at hDecided
  have hRole : (UpdateControllerState env first.host first.view
      (runFrames env c pre)).1.m_TrackedControllerRole = c.m_TrackedControllerRole := by
    rw [(UpdateControllerState_alignment env first.host first.view _).1, runFrames_role]
  have hStill := requestSent_persists env mid _ hSent (fun g hg => by
    rw [hRole]
    exact hNone g hg)
  obtain ⟨-, hFree, -⟩ := (recenterDecided_iff _ second).mp hDecided
  rw [hStill] at hFree
  cases hFree


/-- C10 witness: `Start` pressed at 0 ms, held at 300 ms (recenter issued), released at
400 ms, pressed again at 500 ms and held at 800 ms (recenter issued again); the frame at
400 ms lies between the two requests. -/
theorem C10_released_between_hold_recenters_witness :
    sampleEnv.PSM_QuatfCreateFromAngles ⟨M_PI_2, 0, 0⟩ ≠ k_psm_quaternion_identity ∧
      holdRecenterIssued sampleEnv
        (runFrames sampleEnv sampleController [⟨hostAt 0, pressView⟩])
        ⟨hostAt 300, holdView⟩ ∧
      holdRecenterIssued sampleEnv
        (runFrames sampleEnv sampleController
          ([⟨hostAt 0, pressView⟩] ++
            ⟨hostAt 300, holdView⟩ :: [⟨hostAt 400, releaseView⟩, ⟨hostAt 500, pressView⟩]))
        ⟨hostAt 800, holdView⟩ ∧
      ∃ g ∈ [(⟨hostAt 400, releaseView⟩ : Frame), ⟨hostAt 500, pressView⟩],
        recenterButton sampleController.m_TrackedControllerRole g =
          PSMButtonState_RELEASED := by
  have hTarget : sampleEnv.PSM_QuatfCreateFromAngles ⟨M_PI_2, 0, 0⟩ ≠
      k_psm_quaternion_identity := by
    intro h
    have hw := congrArg PSMQuatf.w h
    simp [sampleEnv, k_psm_quaternion_identity] at hw
  have hRun : ∀ c : PSMoveController, runFrames sampleEnv c [] = c := fun _ => rfl
  -- the controller after the press at 0 ms
  have h1 := alignment_after_press sampleEnv 0 sampleController rfl
  simp only [alignmentMembers, Prod.mk.injEq] at h1
  obtain ⟨hRole1, hTime1, hSent1, -, -⟩ := h1
  have hSent0 : sampleController.m_bResetPoseRequestSent = false := rfl
  rw [hSent0] at hSent1
  -- the hold at 300 ms
  obtain ⟨hEffects1, h2⟩ := hold_issues_recenter sampleEnv 300 _ hRole1 hSent1
    (by rw [hTime1]; norm_num)
  have hFirst : holdRecenterIssued sampleEnv
      (UpdateControllerState sampleEnv (hostAt 0) pressView sampleController).1
      ⟨hostAt 300, holdView⟩ := by
    unfold holdRecenterIssued
    rw [hEffects1]
    exact List.mem_singleton.mpr rfl
  simp only [alignmentMembers, Prod.mk.injEq] at h2
  obtain ⟨hRole2, hTime2, -, -, -⟩ := h2
  -- the release at 400 ms
  have h3 := alignment_after_release sampleEnv 400 _ hRole2
  simp only [alignmentMembers, Prod.mk.injEq] at h3
  obtain ⟨hRole3, -, hSent3, -, -⟩ := h3
  -- the press at 500 ms
  have h4 := alignment_after_press sampleEnv 500 _ hRole3
  simp only [alignmentMembers, Prod.mk.injEq] at h4
  obtain ⟨hRole4, hTime4, hSent4, -, -⟩ := h4
  rw [hSent3] at hSent4
  -- the hold at 800 ms
  obtain ⟨hEffects2, -⟩ := hold_issues_recenter sampleEnv 800 _ hRole4 hSent4
    (by rw [hTime4]; norm_num)
  have hSecond : holdRecenterIssued sampleEnv
      (UpdateControllerState sampleEnv (hostAt 500) pressView
        (UpdateControllerState sampleEnv (hostAt 400) releaseView
          (UpdateControllerState sampleEnv (hostAt 300) holdView
            (UpdateControllerState sampleEnv (hostAt 0) pressView
              sampleController).1).1).1).1
      ⟨hostAt 800, holdView⟩ := by
    unfold holdRecenterIssued
    rw [hEffects2]
    exact List.mem_singleton.mpr rfl
  have hFirst' : holdRecenterIssued sampleEnv
      (runFrames sampleEnv sampleController [⟨hostAt 0, pressView⟩])
      ⟨hostAt 300, holdView⟩ := by
    rw [runFrames_cons, hRun]
    exact hFirst
  have hSecond' : holdRecenterIssued sampleEnv
      (runFrames sampleEnv sampleController
        ([⟨hostAt 0, pressView⟩] ++
          ⟨hostAt 300, holdView⟩ :: [⟨hostAt 400, releaseView⟩, ⟨hostAt 500, pressView⟩]))
      ⟨hostAt 800, holdView⟩ := by
    simp only [List.cons_append, List.nil_append, runFrames_cons, hRun]
    exact hSecond
  exact ⟨hTarget, hFirst', hSecond',
    C10_released_between_hold_recenters sampleEnv sampleController _ _ _ _ hTarget hFirst'
      hSecond'⟩


/-! ### Pose transform pipeline -/

/-- C11: for every raw position and orientation, when both virtual-extension offsets are
zero, the pose published by `UpdateTrackingState` carries exactly the raw position
multiplied component-wise by `k_fScalePSMoveAPIToMeters`; this holds with mirroring
disabled and, as mirroring only touches the rotation, with mirroring enabled as well. -/
theorem C11_position_is_scaled_raw_position (env : Env) (isConnected : Bool)
    (view : PSMPSMove) (c : PSMoveController)
    (hZ : c.m_fVirtuallExtendControllersZMeters = 0)
    (hY : c.m_fVirtuallExtendControllersYMeters = 0) :
    (∃ pose, (UpdateTrackingState env isConnected view c).2 =
          [Effect.TrackedDevicePoseUpdated pose] ∧
        pose.vecPosition =
          ⟨view.Pose.Position.x * env.k_fScalePSMoveAPIToMeters,
            view.Pose.Position.y * env.k_fScalePSMoveAPIToMeters,
            view.Pose.Position.z * env.k_fScalePSMoveAPIToMeters⟩) ∧
      (UpdateTrackingState env isConnected view c).1.m_Pose.vecPosition =
        ⟨view.Pose.Position.x * env.k_fScalePSMoveAPIToMeters,
          view.Pose.Position.y * env.k_fScalePSMoveAPIToMeters,
          view.Pose.Position.z * env.k_fScalePSMoveAPIToMeters⟩ := by
  have hExt : virtualExtension env c view.Pose.Orientation
      (scaledPosition env view.Pose.Position) = scaledPosition env view.Pose.Position := by
    unfold virtualExtension
    rw [if_neg]
    simp [hZ, hY]
  refine ⟨⟨trackedPose env isConnected view c, rfl, ?_⟩, ?_⟩
  · show virtualExtension env c view.Pose.Orientation
      (scaledPosition env view.Pose.Position) = _
    rw [hExt]
    rfl
  · show virtualExtension env c view.Pose.Orientation
      (scaledPosition env view.Pose.Position) = _
    rw [hExt]
    rfl

/-- C11 witness: the raw position `(30, 0, -15)` with one unit a centimetre is published
as `(3/10, 0, -3/20)` meters. -/
theorem C11_position_is_scaled_raw_position_witness :
    sampleController.m_fVirtuallExtendControllersZMeters = 0 ∧
      sampleController.m_fVirtuallExtendControllersYMeters = 0 ∧
      (UpdateTrackingState sampleEnv true sampleView sampleController).1.m_Pose.vecPosition =
        ⟨30 * (1 / 100), 0 * (1 / 100), -15 * (1 / 100)⟩ :=
  ⟨rfl, rfl,
    (C11_position_is_scaled_raw_position sampleEnv true sampleView sampleController
      rfl rfl).2⟩

/-- C12: the mirroring step of `UpdateTrackingState` maps `(w, x, y, z)` to `(-w, x, y, -z)`
when mirroring is enabled and to `(w, x, y, z)` when it is disabled, the published rotation
is the mirroring step applied to the raw orientation, and applying the step twice returns
the original quaternion. -/
theorem C12_mirroring_is_an_involution (env : Env) (isConnected : Bool) (view : PSMPSMove)
    (c : PSMoveController) (q : PSMQuatf) (flag : Bool) :
    mirrorRotation true q = ⟨-q.w, q.x, q.y, -q.z⟩ ∧
      mirrorRotation false q = q ∧
      mirrorRotation flag (mirrorRotation flag q) = q ∧
      (UpdateTrackingState env isConnected view c).1.m_Pose.qRotation =
        mirrorRotation c.m_fVirtuallyRotateController view.Pose.Orientation := by
  refine ⟨rfl, rfl, ?_, rfl⟩
  cases flag
  · rfl
  · simp [mirrorRotation]

/-! ### Battery normalizer -/

/-- After `UpdateBatteryChargeState` the committed state is the looked-up one. -/
theorem UpdateBatteryChargeState_committed (e : PSMBatteryState) (c : PSMoveController) :
    (UpdateBatteryChargeState e c).1.m_bIsBatteryCharging = (batteryLookup e).1 ∧
      (UpdateBatteryChargeState e c).1.m_fBatteryChargeFraction = (batteryLookup e).2 := by
  unfold UpdateBatteryChargeState
  dsimp only
  split_ifs with h1 h2 h2
  · exact ⟨rfl, rfl⟩
  · exact ⟨rfl, (not_not.mp h2).symm⟩
  · exact ⟨(not_not.mp h1).symm, rfl⟩
  · exact ⟨(not_not.mp h1).symm, (not_not.mp h2).symm⟩

/-- A call of `UpdateBatteryChargeState` on a controller whose committed state is already
the looked-up one changes nothing and emits nothing. -/
theorem UpdateBatteryChargeState_idle (e : PSMBatteryState) (c : PSMoveController)
    (hCharging : c.m_bIsBatteryCharging = (batteryLookup e).1)
    (hFraction : c.m_fBatteryChargeFraction = (batteryLookup e).2) :
    UpdateBatteryChargeState e c = (c, []) := by
  have h1 : ¬ ((batteryLookup e).1 ≠ c.m_bIsBatteryCharging) := not_not.mpr hCharging.symm
  have h2 : ¬ ((batteryLookup e).2 ≠ c.m_fBatteryChargeFraction) := not_not.mpr hFraction.symm
  unfold UpdateBatteryChargeState
  dsimp only
  rw [if_neg h1]
  dsimp only
  rw [if_neg h2]

/-- C13: for every committed battery state and battery enum value `e`,
`UpdateBatteryChargeState` emits a charging-flag event only if the looked-up charging flag
differs from the committed one, and a charge-fraction event only if the looked-up fraction
differs from the committed one; a second call with the same `e` right after the first emits
no event and leaves the controller, hence the committed state, unchanged. -/
theorem C13_battery_events_only_on_change (e : PSMBatteryState) (c : PSMoveController) :
    (∀ value, Effect.SetDeviceIsCharging value ∈ (UpdateBatteryChargeState e c).2 →
        (batteryLookup e).1 ≠ c.m_bIsBatteryCharging ∧ value = (batteryLookup e).1) ∧
      (∀ value, Effect.SetDeviceBatteryPercentage value ∈ (UpdateBatteryChargeState e c).2 →
        (batteryLookup e).2 ≠ c.m_fBatteryChargeFraction ∧ value = (batteryLookup e).2) ∧
      UpdateBatteryChargeState e (UpdateBatteryChargeState e c).1 =
        ((UpdateBatteryChargeState e c).1, []) := by
  refine ⟨fun value h => ?_, fun value h => ?_, ?_⟩
  · unfold UpdateBatteryChargeState at h
    dsimp only at h
    split_ifs at h with h1 h2 h2 <;>
      simp only [List.mem_append, List.mem_singleton, List.mem_nil_iff, List.nil_append,
        Effect.SetDeviceIsCharging.injEq, reduceCtorEq, or_false, false_or] at h
    · exact ⟨h1, h⟩
    · exact ⟨h1, h⟩
  · unfold UpdateBatteryChargeState at h
    dsimp only at h
    split_ifs at h with h1 h2 h2 <;>
      simp only [List.mem_append, List.mem_singleton, List.mem_nil_iff, List.nil_append,
        Effect.SetDeviceBatteryPercentage.injEq, reduceCtorEq, or_false, false_or] at h
    · exact ⟨h2, h⟩
    · exact ⟨h2, h⟩
  · obtain ⟨h1, h2⟩ := UpdateBatteryChargeState_committed e c
    exact UpdateBatteryChargeState_idle e _ h1 h2

/-! ### Chord predicate -/

/-- C17: for every pair of states of `Start` and `Select`, the chord-trigger predicate of
`UpdateControllerState` is true if and only if at least one of the two buttons is `Pressed`
and neither button is `Up` or `Released`. -/
theorem C17_chord_iff_fresh_edge_and_both_held (view : PSMPSMove) :
    bStartRealignHMDTriggered view = true ↔
      (view.StartButton = PSMButtonState_PRESSED ∨
          view.SelectButton = PSMButtonState_PRESSED) ∧
        (view.StartButton ≠ PSMButtonState_UP ∧
          view.StartButton ≠ PSMButtonState_RELEASED) ∧
        (view.SelectButton ≠ PSMButtonState_UP ∧
          view.SelectButton ≠ PSMButtonState_RELEASED) := by
  unfold bStartRealignHMDTriggered
  cases view.StartButton <;> cases view.SelectButton <;> decide

/-! ### Haptic rate limiter under suppression -/

/-- C20: with rumble suppression enabled, for every pending haptic request and limiter
state, `UpdateRumbleState` emits no effect, resets the pending duration, amplitude and
frequency to the defaults, and leaves the recorded send time and its validity flag
unchanged. -/
theorem C20_suppressed_rumble_resets_request (env : Env) (now : ℚ) (c : PSMoveController)
    (hSuppressed : c.m_bRumbleSuppressed = true) :
    (UpdateRumbleState env now c).2 = [] ∧
      (UpdateRumbleState env now c).1.m_pendingHapticDurationSecs =
        env.DEFAULT_HAPTIC_DURATION ∧
      (UpdateRumbleState env now c).1.m_pendingHapticAmplitude =
        env.DEFAULT_HAPTIC_AMPLITUDE ∧
      (UpdateRumbleState env now c).1.m_pendingHapticFrequency =
        env.DEFAULT_HAPTIC_FREQUENCY ∧
      (UpdateRumbleState env now c).1.m_lastTimeRumbleSent = c.m_lastTimeRumbleSent ∧
      (UpdateRumbleState env now c).1.m_lastTimeRumbleSentValid =
        c.m_lastTimeRumbleSentValid := by
  have h : UpdateRumbleState env now c = (resetPendingHaptic env c, []) := by
    unfold UpdateRumbleState
    simp [hSuppressed]
  rw [h]
  exact ⟨rfl, rfl, rfl, rfl, rfl, rfl⟩

/-- C20 witness: a suppressed controller with a pending 2 ms request and a send recorded at
500 ms, called at 1000 ms. -/
theorem C20_suppressed_rumble_resets_request_witness :
    suppressedController.m_bRumbleSuppressed = true ∧
      (UpdateRumbleState sampleEnv 1000 suppressedController).2 = [] ∧
      (UpdateRumbleState sampleEnv 1000 suppressedController).1.m_pendingHapticDurationSecs =
        0 :=
  ⟨rfl,
    (C20_suppressed_rumble_resets_request sampleEnv 1000 suppressedController rfl).1,
    (C20_suppressed_rumble_resets_request sampleEnv 1000 suppressedController rfl).2.1⟩


/-! ### The frame entry point `Update` -/

/-- The haptic rate limiter writes none of the alignment, touchpad, battery and pose
members. -/
theorem UpdateRumbleState_members (env : Env) (now : ℚ) (c : PSMoveController) :
    alignmentMembers (UpdateRumbleState env now c).1 = alignmentMembers c ∧
      touchpadAndBatteryMembers (UpdateRumbleState env now c).1 =
        touchpadAndBatteryMembers c ∧
      poseMembers (UpdateRumbleState env now c).1 = poseMembers c := by
  unfold UpdateRumbleState resetPendingHaptic
  split_ifs <;> exact ⟨rfl, rfl, rfl⟩

/-- Every effect of the haptic rate limiter is a rumble command. -/
theorem UpdateRumbleState_effects (env : Env) (now : ℚ) (c : PSMoveController) :
    ∀ e ∈ (UpdateRumbleState env now c).2,
      e.isPosePublication = false ∧ e.isInputUpdate = false ∧ e.isGestureHandling = false := by
  intro e he
  rcases UpdateRumbleState_cases env now c with ⟨hnil, -, -⟩ | ⟨⟨fraction, hone⟩, -, -, -, -⟩
  · rw [hnil] at he
    cases he
  · rw [hone] at he
    rw [List.mem_singleton.mp he]
    exact ⟨rfl, rfl, rfl⟩

/-- A frame of `UpdateControllerState` runs the hold detector and then exactly one of its
three branches. -/
theorem UpdateControllerState_branches (env : Env) (host : HostFrame) (view : PSMPSMove)
    (c : PSMoveController) :
    UpdateControllerState env host view c =
        chordBranch env host
          (holdDetector host.nowResetPose
            (resetPoseButtonState c.m_TrackedControllerRole view) c).1 ∨
      UpdateControllerState env host view c =
        recenterBranch
          (holdDetector host.nowResetPose
            (resetPoseButtonState c.m_TrackedControllerRole view) c).1 ∨
      UpdateControllerState env host view c =
        normalBranch env host view
          (holdDetector host.nowResetPose
            (resetPoseButtonState c.m_TrackedControllerRole view) c).1 := by
  by_cases hChord : bStartRealignHMDTriggered view = true ∧
      c.m_bDisableHMDAlignmentGesture = false
  · exact Or.inl (UpdateControllerState_chord env host view c hChord.1 hChord.2)
  · have hNoChord : bStartRealignHMDTriggered view = false ∨
        c.m_bDisableHMDAlignmentGesture = true := by
      by_cases h1 : bStartRealignHMDTriggered view = true
      · right
        by_cases h2 : c.m_bDisableHMDAlignmentGesture = true
        · exact h2
        · exact absurd ⟨h1, by simpa using h2⟩ hChord
      · left
        simpa using h1
    by_cases hHold : (holdDetector host.nowResetPose
        (resetPoseButtonState c.m_TrackedControllerRole view) c).2 = true
    · exact Or.inr (Or.inl (UpdateControllerState_recenter env host view c hNoChord hHold))
    · exact Or.inr (Or.inr
        (UpdateControllerState_normal env host view c hNoChord (by simpa using hHold)))

/-- The hold detector does not write the pose members. -/
theorem holdDetector_pose (now : ℚ) (state : PSMButtonState) (c : PSMoveController) :
    poseMembers (holdDetector now state c).1 = poseMembers c := by
  unfold holdDetector
  cases state
  · rfl
  · rfl
  · dsimp only
    split_ifs <;> rfl
  · rfl

/-- The spatial stage of the touchpad engine does not write the pose members. -/
theorem spatialOffset_pose (env : Env) (now : ℚ) (view : PSMPSMove)
    (highest : eEmulatedTrackpadAction) (c : PSMoveController) (l : TrackpadLocals) :
    poseMembers (spatialOffset env now view highest c l).1 = poseMembers c := by
  unfold spatialOffset stampLastTouchpadPressTime snapshotTouchpadAnchor
  dsimp only
  split_ifs <;> rfl

/-- The normal branch does not write the pose members. -/
theorem normalBranch_pose (env : Env) (host : HostFrame) (view : PSMPSMove)
    (c : PSMoveController) :
    poseMembers (normalBranch env host view c).1 = poseMembers c := by
  have hTouch : poseMembers (UpdateEmulatedTrackpad env host view c).1 = poseMembers c := by
    unfold UpdateEmulatedTrackpad
    split_ifs
    · rfl
    · exact spatialOffset_pose env host.nowTouchpad view _ c _
  have hBattery : ∀ (e : PSMBatteryState) (c : PSMoveController),
      poseMembers (UpdateBatteryChargeState e c).1 = poseMembers c := by
    intro e c
    unfold UpdateBatteryChargeState
    dsimp only
    split_ifs <;> rfl
  unfold normalBranch
  dsimp only
  rw [hBattery, hTouch]

/-- `UpdateControllerState` does not write the pose members and publishes no pose. -/
theorem UpdateControllerState_pose (env : Env) (host : HostFrame) (view : PSMPSMove)
    (c : PSMoveController) :
    poseMembers (UpdateControllerState env host view c).1 = poseMembers c ∧
      ∀ e ∈ (UpdateControllerState env host view c).2, e.isPosePublication = false := by
  have hHold := holdDetector_pose host.nowResetPose
    (resetPoseButtonState c.m_TrackedControllerRole view) c
  rcases UpdateControllerState_branches env host view c with h | h | h
  · rw [h]
    refine ⟨hHold, fun e he => ?_⟩
    simp only [chordBranch] at he
    rcases List.mem_cons.mp he with rfl | he
    · rfl
    · unfold realignTrackingSpace at he
      cases hPose : host.GetHMDPoseInMeters with
      | none =>
        simp only [hPose, List.mem_singleton] at he
        rw [he]
        rfl
      | some hmdPose =>
        simp only [hPose] at he
        cases hRealign : host.RealignHMDTrackingSpace
            (env.PSM_QuatfCreateFromAngles ⟨M_PI_2, 0, 0⟩)
            ⟨0, 0, -1 * (holdDetector host.nowResetPose
              (resetPoseButtonState c.m_TrackedControllerRole view)
              c).1.m_fControllerMetersInFrontOfHmdAtCalibration⟩ hmdPose
            (holdDetector host.nowResetPose
              (resetPoseButtonState c.m_TrackedControllerRole view)
              c).1.m_bUseControllerOrientationInHMDAlignment <;>
          simp only [hRealign, List.mem_cons, List.mem_singleton, List.mem_nil_iff,
            or_false] at he <;>
          rcases he with rfl | rfl <;> rfl
  · rw [h]
    refine ⟨hHold, fun e he => ?_⟩
    rw [List.mem_singleton.mp he]
    rfl
  · rw [h]
    refine ⟨(normalBranch_pose env host view _).trans hHold, fun e he => ?_⟩
    have hInput := normalBranch_effects env host view _ e he
    cases e <;> simp_all [Effect.isInputUpdate, Effect.isPosePublication]

/-- In a frame that is skipped (telemetry disconnected, or sequence number not newer than
the last processed one) `Update` does at most what `UpdateRumbleState` does. -/
theorem Update_skipped (env : Env) (host : HostFrame) (isActivated : Bool) (nowRumble : ℚ)
    (service : PSMController) (c : PSMoveController)
    (hSkip : service.IsConnected = false ∨
      service.OutputSequenceNum ≤ c.m_nPoseSequenceNumber) :
    Update env host isActivated nowRumble service c = (c, []) ∨
      Update env host isActivated nowRumble service c = UpdateRumbleState env nowRumble c := by
  unfold Update Controller_Update
  dsimp only
  by_cases hRun : (isActivated && service.IsConnected) = true
  · right
    have hStale : service.OutputSequenceNum ≤ c.m_nPoseSequenceNumber := by
      rcases hSkip with hDis | hStale
      · rw [hDis] at hRun
        simp at hRun
      · exact hStale
    have hSample : processNewSample env host service c = (c, []) := by
      unfold processNewSample
      rw [if_neg (not_lt.mpr hStale)]
    rw [if_pos hRun, hSample]
    rfl
  · left
    rw [if_neg hRun]

/-- C14: for every controller state, an `Update` call whose telemetry is disconnected, or
whose sequence number is not greater than the last processed one, publishes no pose, issues
no button, axis or battery update and no gesture request, and leaves the last processed
sequence number, the published pose and the tracking status, the touchpad runtime state,
the committed battery state and the alignment runtime state unchanged. -/
theorem C14_skipped_frame_holds_outputs (env : Env) (host : HostFrame) (isActivated : Bool)
    (nowRumble : ℚ) (service : PSMController) (c : PSMoveController)
    (hSkip : service.IsConnected = false ∨
      service.OutputSequenceNum ≤ c.m_nPoseSequenceNumber) :
    (∀ e ∈ (Update env host isActivated nowRumble service c).2,
        e.isPosePublication = false ∧ e.isInputUpdate = false ∧
          e.isGestureHandling = false) ∧
      poseMembers (Update env host isActivated nowRumble service c).1 = poseMembers c ∧
      touchpadAndBatteryMembers (Update env host isActivated nowRumble service c).1 =
        touchpadAndBatteryMembers c ∧
      alignmentMembers (Update env host isActivated nowRumble service c).1 =
        alignmentMembers c := by
  rcases Update_skipped env host isActivated nowRumble service c hSkip with h | h
  · rw [h]
    exact ⟨fun e he => absurd he (List.not_mem_nil e), rfl, rfl, rfl⟩
  · rw [h]
    obtain ⟨hAlign, hTouch, hPose⟩ := UpdateRumbleState_members env nowRumble c
    exact ⟨UpdateRumbleState_effects env nowRumble c, hPose, hTouch, hAlign⟩

/-- C14 witness: a stale sample carrying a chord on an activated, connected controller
only lets the rate limiter send its rumble command. -/
theorem C14_skipped_frame_holds_outputs_witness :
    staleService.OutputSequenceNum ≤ sampleController.m_nPoseSequenceNumber ∧
      poseMembers (Update sampleEnv sampleHost true 1000 staleService sampleController).1 =
        poseMembers sampleController ∧
      alignmentMembers (Update sampleEnv sampleHost true 1000 staleService sampleController).1 =
        alignmentMembers sampleController := by
  have hStale : staleService.OutputSequenceNum ≤ sampleController.m_nPoseSequenceNumber := by
    decide
  have h := C14_skipped_frame_holds_outputs sampleEnv sampleHost true 1000 staleService
    sampleController (Or.inr hStale)
  exact ⟨hStale, h.2.1, h.2.2.2⟩


/-- The effects of `Update` on an activated, connected controller with a newer sample: the
pose publication of `UpdateTrackingState`, then the effects of `UpdateControllerState`,
then those of `UpdateRumbleState`. -/
theorem Update_processed (env : Env) (host : HostFrame) (nowRumble : ℚ)
    (service : PSMController) (c : PSMoveController)
    (hConnected : service.IsConnected = true)
    (hNewer : c.m_nPoseSequenceNumber < service.OutputSequenceNum) :
    (Update env host true nowRumble service c).2 =
      Effect.TrackedDevicePoseUpdated
          (trackedPose env service.IsConnected service.PSMoveState
            (recordSequenceNumber service c)) ::
        ((UpdateControllerState env host service.PSMoveState
            (UpdateTrackingState env service.IsConnected service.PSMoveState
              (recordSequenceNumber service c)).1).2 ++
          (UpdateRumbleState env nowRumble
            (UpdateControllerState env host service.PSMoveState
              (UpdateTrackingState env service.IsConnected service.PSMoveState
                (recordSequenceNumber service c)).1).1).2) := by
  unfold Update Controller_Update processNewSample
  dsimp only
  rw [if_pos (by simp [hConnected]), if_pos hNewer]
  rfl

/-- In an effect list that starts with a pose publication and goes on with an effect of
gesture handling or input processing, the pose does not come last. -/
theorem poseComesLast_false (e x : Effect) (rest : List Effect)
    (he : e.isPosePublication = true) (hx : x ∈ rest)
    (hKind : (x.isGestureHandling || x.isInputUpdate) = true) :
    poseComesLast (e :: rest) = false := by
  unfold poseComesLast
  rw [he]
  have hAll : (rest.all fun x => !(x.isGestureHandling || x.isInputUpdate)) = false := by
    rw [Bool.eq_false_iff]
    intro hall
    have := List.all_eq_true.mp hall x hx
    rw [hKind] at this
    cases this
  rw [hAll]
  rfl

/-- An effect list without pose publication has the pose first. -/
theorem poseComesFirst_of_no_pose (l : List Effect)
    (h : ∀ e ∈ l, e.isPosePublication = false) : poseComesFirst l = true := by
  induction l with
  | nil => rfl
  | cons e rest ih =>
    have hRest : ∀ x ∈ rest, x.isPosePublication = false :=
      fun x hx => h x (List.mem_cons_of_mem _ hx)
    have hAll : (rest.all fun x => !x.isPosePublication) = true := by
      rw [List.all_eq_true]
      intro x hx
      rw [hRest x hx]
      rfl
    unfold poseComesFirst
    rw [hAll, ih hRest]
    simp

/-- C15 (as stated) is refuted: on the freshly constructed, activated and connected
controller a newer sample with every button up produces an effect list that starts with the
pose publication and goes on with the native button updates, so the pose publication does
not come after the input processing. -/
theorem C15_counterexample :
    sampleService.IsConnected = true ∧
      sampleController.m_nPoseSequenceNumber < sampleService.OutputSequenceNum ∧
      ((Update sampleEnv sampleHost true 1000 sampleService sampleController).2.head?.map
        Effect.isPosePublication) = some true ∧
      Effect.UpdateButton k_PSMButtonID_Circle PSMButtonState_UP ∈
        (Update sampleEnv sampleHost true 1000 sampleService sampleController).2.tail ∧
      poseComesLast (Update sampleEnv sampleHost true 1000 sampleService sampleController).2 =
        false := by
  have hNewer : sampleController.m_nPoseSequenceNumber < sampleService.OutputSequenceNum := by
    decide
  have hEffects := Update_processed sampleEnv sampleHost 1000 sampleService sampleController
    rfl hNewer
  have hButton : Effect.UpdateButton k_PSMButtonID_Circle PSMButtonState_UP ∈
      (UpdateControllerState sampleEnv sampleHost sampleService.PSMoveState
        (UpdateTrackingState sampleEnv sampleService.IsConnected sampleService.PSMoveState
          (recordSequenceNumber sampleService sampleController)).1).2 := by
    rw [UpdateControllerState_normal sampleEnv sampleHost sampleService.PSMoveState
      (UpdateTrackingState sampleEnv sampleService.IsConnected sampleService.PSMoveState
        (recordSequenceNumber sampleService sampleController)).1
      (Or.inl (by decide)) rfl]
    simp [normalBranch, nativeButtonUpdates, sampleService, sampleView]
  refine ⟨rfl, hNewer, ?_, ?_, ?_⟩
  · rw [hEffects]
    rfl
  · rw [hEffects]
    exact List.mem_append_left _ hButton
  · rw [hEffects]
    exact poseComesLast_false _ _ _ rfl (List.mem_append_left _ hButton) rfl

/-- C15 (amended): for every processed frame (controller activated, telemetry connected,
sequence number newer than the last processed one), the ordered list of effects produced by
`Update` starts with the pose publication, followed by the effects of the alignment-gesture
evaluation and of the touchpad, native-button and battery processing of that frame
(`UpdateControllerState`) and then by those of the haptic rate limiter; no pose is
published after any of them. -/
theorem C15_pose_published_before_processing (env : Env) (host : HostFrame) (nowRumble : ℚ)
    (service : PSMController) (c : PSMoveController)
    (hConnected : service.IsConnected = true)
    (hNewer : c.m_nPoseSequenceNumber < service.OutputSequenceNum) :
    ∃ (pose : DriverPose_t) (c1 : PSMoveController),
      (Update env host true nowRumble service c).2 =
          Effect.TrackedDevicePoseUpdated pose ::
            ((UpdateControllerState env host service.PSMoveState c1).2 ++
              (UpdateRumbleState env nowRumble
                (UpdateControllerState env host service.PSMoveState c1).1).2) ∧
        (∀ e ∈ (UpdateControllerState env host service.PSMoveState c1).2 ++
            (UpdateRumbleState env nowRumble
              (UpdateControllerState env host service.PSMoveState c1).1).2,
          e.isPosePublication = false) ∧
        poseComesFirst (Update env host true nowRumble service c).2 = true := by
  have hEffects := Update_processed env host nowRumble service c hConnected hNewer
  have hNoPose : ∀ e ∈
      (UpdateControllerState env host service.PSMoveState
          (UpdateTrackingState env service.IsConnected service.PSMoveState
            (recordSequenceNumber service c)).1).2 ++
        (UpdateRumbleState env nowRumble
          (UpdateControllerState env host service.PSMoveState
            (UpdateTrackingState env service.IsConnected service.PSMoveState
              (recordSequenceNumber service c)).1).1).2,
      e.isPosePublication = false := by
    intro e he
    rcases List.mem_append.mp he with he | he
    · exact (UpdateControllerState_pose env host service.PSMoveState _).2 e he
    · exact (UpdateRumbleState_effects env nowRumble _ e he).1
  refine ⟨_, _, hEffects, hNoPose, ?_⟩
  rw [hEffects]
  unfold poseComesFirst
  rw [poseComesFirst_of_no_pose _ hNoPose]
  rfl

/-- C15 witness: the processed sample frame of the freshly constructed controller. -/
theorem C15_pose_published_before_processing_witness :
    sampleService.IsConnected = true ∧
      sampleController.m_nPoseSequenceNumber < sampleService.OutputSequenceNum ∧
      poseComesFirst (Update sampleEnv sampleHost true 1000 sampleService sampleController).2 =
        true := by
  have hNewer : sampleController.m_nPoseSequenceNumber < sampleService.OutputSequenceNum := by
    decide
  obtain ⟨-, -, -, -, h⟩ := C15_pose_published_before_processing sampleEnv sampleHost 1000
    sampleService sampleController rfl hNewer
  exact ⟨rfl, hNewer, h⟩

/-! ### Calibration status -/

/-- `Update` does not write the tracking status. -/
theorem Update_trackingStatus (env : Env) (host : HostFrame) (isActivated : Bool)
    (nowRumble : ℚ) (service : PSMController) (c : PSMoveController) :
    (Update env host isActivated nowRumble service c).1.m_trackingStatus =
      c.m_trackingStatus := by
  have hRumble : ∀ c : PSMoveController,
      (UpdateRumbleState env nowRumble c).1.m_trackingStatus = c.m_trackingStatus :=
    fun c => congrArg Prod.fst (UpdateRumbleState_members env nowRumble c).2.2
  have hControls : ∀ c : PSMoveController,
      (UpdateControllerState env host service.PSMoveState c).1.m_trackingStatus =
        c.m_trackingStatus :=
    fun c => congrArg Prod.fst (UpdateControllerState_pose env host service.PSMoveState c).1
  unfold Update Controller_Update
  dsimp only
  split_ifs
  · rw [hRumble]
    unfold processNewSample
    split_ifs
    · dsimp only
      rw [hControls]
      rfl
    · rfl
  · rfl

/-- C16: the calibration-complete status (`m_trackingStatus = TrackingResult_Running_OK`)
is true after construction exactly when the alignment gesture is disabled by
configuration: with a settings store, exactly when the store answers `true` for the key
`disable_alignment_gesture` of the section `psmove_settings` (default `false`), which is
also the value of the member `m_bDisableHMDAlignmentGesture`; without a settings store the
gesture is enabled and the status is not `Running_OK`. The status is true after
`RefreshWorldFromDriverPose`, and is left as it is, so never changed from true back to
false, by `Update`, `UpdateControllerState`, `UpdateTrackingState`, `UpdateRumbleState`,
`UpdateBatteryChargeState` and `RefreshWorldFromDriverPose`. -/
theorem C16_calibration_status_never_reverts (env : Env) :
    (∀ (psmControllerId : Int) (role : ETrackedControllerRole) (settings : IVRSettings)
        (now : ℚ) (basePose : DriverPose_t) (indeterminate : ℚ),
        ((PSMoveController.construct env psmControllerId role (some settings) now basePose
            indeterminate).m_trackingStatus = TrackingResult_Running_OK ↔
          settings.LoadBool "psmove_settings" "disable_alignment_gesture" false = true) ∧
        (PSMoveController.construct env psmControllerId role (some settings) now basePose
            indeterminate).m_bDisableHMDAlignmentGesture =
          settings.LoadBool "psmove_settings" "disable_alignment_gesture" false) ∧
      (∀ (psmControllerId : Int) (role : ETrackedControllerRole) (now : ℚ)
        (basePose : DriverPose_t) (indeterminate : ℚ),
        (PSMoveController.construct env psmControllerId role none now basePose
            indeterminate).m_trackingStatus = TrackingResult_Uninitialized ∧
        (PSMoveController.construct env psmControllerId role none now basePose
            indeterminate).m_bDisableHMDAlignmentGesture = false) ∧
      (∀ (psmControllerId : Int) (role : ETrackedControllerRole)
        (pSettings : Option IVRSettings) (now : ℚ) (basePose : DriverPose_t)
        (indeterminate : ℚ),
        (PSMoveController.construct env psmControllerId role pSettings now basePose
            indeterminate).m_trackingStatus = TrackingResult_Running_OK ↔
          (PSMoveController.construct env psmControllerId role pSettings now basePose
            indeterminate).m_bDisableHMDAlignmentGesture = true) ∧
      (∀ (baseRefresh : DriverPose_t → DriverPose_t) (c : PSMoveController),
        (RefreshWorldFromDriverPose baseRefresh c).m_trackingStatus =
          TrackingResult_Running_OK) ∧
      (∀ (host : HostFrame) (isActivated : Bool) (nowRumble : ℚ) (service : PSMController)
        (c : PSMoveController),
        (Update env host isActivated nowRumble service c).1.m_trackingStatus =
          c.m_trackingStatus) ∧
      (∀ (host : HostFrame) (view : PSMPSMove) (c : PSMoveController),
        (UpdateControllerState env host view c).1.m_trackingStatus = c.m_trackingStatus) ∧
      (∀ (isConnected : Bool) (view : PSMPSMove) (c : PSMoveController),
        (UpdateTrackingState env isConnected view c).1.m_trackingStatus =
          c.m_trackingStatus) ∧
      (∀ (now : ℚ) (c : PSMoveController),
        (UpdateRumbleState env now c).1.m_trackingStatus = c.m_trackingStatus) ∧
      (∀ (e : PSMBatteryState) (c : PSMoveController),
        (UpdateBatteryChargeState e c).1.m_trackingStatus = c.m_trackingStatus) := by
  refine ⟨?_, fun _ _ _ _ _ => ⟨rfl, rfl⟩, ?_, fun _ _ => rfl, Update_trackingStatus env, ?_,
    fun _ _ _ => rfl, ?_, ?_⟩
  · intro psmControllerId role settings now basePose indeterminate
    have hFlag : (loadSettings env settings psmControllerId
        (memberDefaults role now basePose indeterminate env)).m_bDisableHMDAlignmentGesture =
        settings.LoadBool "psmove_settings" "disable_alignment_gesture" false := rfl
    refine ⟨?_, hFlag⟩
    unfold PSMoveController.construct
    dsimp only
    rw [hFlag]
    split_ifs with h
    · exact ⟨fun _ => h, fun _ => rfl⟩
    · constructor
      · intro hOK
        cases hOK
      · intro hDis
        exact absurd hDis h
  · intro psmControllerId role pSettings now basePose indeterminate
    unfold PSMoveController.construct
    dsimp only
    split_ifs with h
    · exact ⟨fun _ => h, fun _ => rfl⟩
    · constructor
      · intro hOK
        cases hOK
      · intro hDis
        exact absurd hDis h
  · intro host view c
    exact congrArg Prod.fst (UpdateControllerState_pose env host view c).1
  · intro now c
    exact congrArg Prod.fst (UpdateRumbleState_members env now c).2.2
  · intro e c
    unfold UpdateBatteryChargeState
    dsimp only
    split_ifs <;> rfl


/-! ### The rumble fraction and the 16-bit microsecond count -/

/-- The 16-bit conversion of a non-negative value whose integer part is `k`. -/
theorem toUInt16_of_floor (x : ℚ) (k : ℤ) (hx : 0 ≤ x) (hFloor : ⌊x⌋ = k) :
    toUInt16 x = (k % 65536).toNat := by
  unfold toUInt16
  rw [if_pos hx, hFloor]

/-- The 16-bit conversion of a value in `0 .. 65535.99` is its integer part. -/
theorem toUInt16_in_range (x : ℚ) (hx : 0 ≤ x) (hRange : x < 65536) :
    ((toUInt16 x : ℕ) : ℚ) = ((⌊x⌋ : ℤ) : ℚ) := by
  have h0 : 0 ≤ ⌊x⌋ := Int.floor_nonneg.mpr hx
  have h1 : ⌊x⌋ < 65536 := Int.floor_lt.mpr (by exact_mod_cast hRange)
  rw [toUInt16_of_floor x ⌊x⌋ hx rfl, Int.emod_eq_of_lt h0 h1]
  have h2 : ((⌊x⌋.toNat : ℕ) : ℤ) = ⌊x⌋ := Int.toNat_of_nonneg h0
  exact_mod_cast congrArg (fun z : ℤ => (z : ℚ)) h2

/-- The fraction sent for a pending request is the shaped product of the 16-bit
microsecond count over 5000 and the amplitude. -/
theorem rumbleFraction_eq_shape (duration amplitude : ℚ) :
    rumbleFraction duration amplitude =
      shapeRumbleFraction duration
        (((toUInt16 (roundToBinary32 (duration * 1000000)) : ℕ) : ℚ) / 5000 * amplitude) := by
  unfold rumbleFraction shapeRumbleFraction
  dsimp only
  by_cases hd : duration = 0
  · simp [hd]
  · by_cases hf : ((toUInt16 (roundToBinary32 (duration * 1000000)) : ℕ) : ℚ) / 5000 *
        amplitude < 35 / 100
    · simp [hd, hf]
    · simp [hd, hf]

/-- A call of `UpdateRumbleState` that emits a command emits the fraction of the pending
request. -/
theorem UpdateRumbleState_emitted (env : Env) (now : ℚ) (c : PSMoveController) (fraction : ℚ)
    (hEmit : Effect.SetControllerRumble fraction ∈ (UpdateRumbleState env now c).2) :
    fraction = rumbleFraction c.m_pendingHapticDurationSecs c.m_pendingHapticAmplitude := by
  unfold UpdateRumbleState at hEmit
  split_ifs at hEmit
  · simpa using hEmit
  · simp at hEmit
  · simp at hEmit

/-- The microsecond count of line 707 for the `float` duration `1 / 256` s: the product
3906.25 is a binary32 value, and its fractional part is cut off. -/
theorem microseconds_of_fractional_request :
    ((toUInt16 (roundToBinary32 (1 / 256 * 1000000)) : ℕ) : ℚ) = 3906 := by
  have hRound : roundToBinary32 (1 / 256 * 1000000) = 15625 / 4 := by
    rw [roundToBinary32_of_binade _ 11 (by norm_num [abs_of_nonneg])
      (by norm_num [abs_of_nonneg]) (by norm_num)]
    have hScaled : ⌊(1 / 256 * 1000000 : ℚ) / 2 ^ ((11 : ℤ) - 23)⌋ = 16000000 := by
      rw [Int.floor_eq_iff]
      norm_num
    rw [roundHalfEven_of_floor _ _ hScaled]
    norm_num
  have hFloor : ⌊(15625 / 4 : ℚ)⌋ = 3906 := by
    rw [Int.floor_eq_iff]
    norm_num
  rw [hRound, toUInt16_of_floor _ 3906 (by norm_num) hFloor]
  have : ((3906 : ℤ) % 65536).toNat = 3906 := by decide
  rw [this]
  norm_num

/-- The microsecond count of line 707 for the `float` duration `9 / 128` s: the product
70312.5 is a binary32 value, and the low 16 bits of 70312 are 4776. -/
theorem microseconds_of_long_request :
    ((toUInt16 (roundToBinary32 (9 / 128 * 1000000)) : ℕ) : ℚ) = 4776 := by
  have hRound : roundToBinary32 (9 / 128 * 1000000) = 140625 / 2 := by
    rw [roundToBinary32_of_binade _ 16 (by norm_num [abs_of_nonneg])
      (by norm_num [abs_of_nonneg]) (by norm_num)]
    have hScaled : ⌊(9 / 128 * 1000000 : ℚ) / 2 ^ ((16 : ℤ) - 23)⌋ = 9000000 := by
      rw [Int.floor_eq_iff]
      norm_num
    rw [roundHalfEven_of_floor _ _ hScaled]
    norm_num
  have hFloor : ⌊(140625 / 2 : ℚ)⌋ = 70312 := by
    rw [Int.floor_eq_iff]
    norm_num
  rw [hRound, toUInt16_of_floor _ 70312 (by norm_num) hFloor]
  have : ((70312 : ℤ) % 65536).toNat = 4776 := by decide
  rw [this]
  norm_num

/-- The `float` product of line 707 for the duration `0.005f`: the exact product
4999.99988... rounds to the binary32 value 5000. -/
theorem roundToBinary32_five_milliseconds :
    roundToBinary32 (5368709 / 1073741824 * 1000000) = 5000 := by
  rw [roundToBinary32_of_binade _ 12 (by norm_num [abs_of_nonneg])
    (by norm_num [abs_of_nonneg]) (by norm_num)]
  have hScaled : ⌊(5368709 / 1073741824 * 1000000 : ℚ) / 2 ^ ((12 : ℤ) - 23)⌋ =
      10239999 := by
    rw [Int.floor_eq_iff]
    norm_num
  rw [roundHalfEven_of_floor _ _ hScaled]
  norm_num

/-- With no send recorded and rumble not suppressed, `UpdateRumbleState` sends the fraction
of the pending request. -/
theorem UpdateRumbleState_first_send (env : Env) (now : ℚ) (c : PSMoveController)
    (hNotSuppressed : c.m_bRumbleSuppressed = false)
    (hNoSend : c.m_lastTimeRumbleSentValid = false) :
    Effect.SetControllerRumble
        (rumbleFraction c.m_pendingHapticDurationSecs c.m_pendingHapticAmplitude) ∈
      (UpdateRumbleState env now c).2 := by
  simp [UpdateRumbleState, bTimoutElapsed, hNotSuppressed, hNoSend]

/-- C18 (as stated) is refuted twice, at durations that are `float` values. A pending
request of `1 / 256` s (3906.25 microseconds) at amplitude `1` is sent as `3906 / 5000`:
the quarter microsecond is cut off, while the formula of the specification gives
`3906.25 / 5000 = 25 / 32`. A pending request of `9 / 128` s (70312.5 microseconds) at
amplitude `1` is sent as `4776 / 5000` when the conversion keeps the low 16 bits of 70312,
while the formula of the specification gives `1`. -/
theorem C18_counterexample :
    (Effect.SetControllerRumble (3906 / 5000) ∈
          (UpdateRumbleState sampleEnv 1000 fractionalMicrosController).2 ∧
        specRumbleFraction fractionalMicrosController.m_pendingHapticDurationSecs
          fractionalMicrosController.m_pendingHapticAmplitude = 25 / 32) ∧
      (Effect.SetControllerRumble (4776 / 5000) ∈
          (UpdateRumbleState sampleEnv 1000 longPulseController).2 ∧
        specRumbleFraction longPulseController.m_pendingHapticDurationSecs
          longPulseController.m_pendingHapticAmplitude = 1) := by
  have hd1 : fractionalMicrosController.m_pendingHapticDurationSecs = 1 / 256 := rfl
  have ha1 : fractionalMicrosController.m_pendingHapticAmplitude = 1 := rfl
  have hd2 : longPulseController.m_pendingHapticDurationSecs = 9 / 128 := rfl
  have ha2 : longPulseController.m_pendingHapticAmplitude = 1 := rfl
  have hf1 : rumbleFraction (1 / 256) 1 = 3906 / 5000 := by
    rw [rumbleFraction_eq_shape, microseconds_of_fractional_request]
    norm_num [shapeRumbleFraction]
  have hf2 : rumbleFraction (9 / 128) 1 = 4776 / 5000 := by
    rw [rumbleFraction_eq_shape, microseconds_of_long_request]
    norm_num [shapeRumbleFraction]
  refine ⟨⟨?_, ?_⟩, ?_, ?_⟩
  · have h := UpdateRumbleState_first_send sampleEnv 1000 fractionalMicrosController rfl rfl
    rwa [hd1, ha1, hf1] at h
  · rw [hd1, ha1]
    norm_num [specRumbleFraction, shapeRumbleFraction]
  · have h := UpdateRumbleState_first_send sampleEnv 1000 longPulseController rfl rfl
    rwa [hd2, ha2, hf2] at h
  · rw [hd2, ha2]
    norm_num [specRumbleFraction, shapeRumbleFraction]

/-- C18 (amended): for every pending haptic request with a non-negative duration `d` below
65.535 ms and amplitude `a` on which `UpdateRumbleState` emits, the emitted fraction is
obtained from `f = (n / 5000) × a` by raising `f` to `0.35` when `d` is non-zero and
`f < 0.35` and then capping at `1`, where `n` is the whole number of microseconds of the
`float` product `d × 1,000,000`: the product rounded to the nearest binary32 value, its
fractional part cut off. This `n` is `⌊d × 1,000,000⌋`, or `⌊d × 1,000,000⌋ + 1` when
the product rounds up to the next integer. -/
theorem C18_fraction_from_whole_microseconds (env : Env) (now : ℚ) (c : PSMoveController)
    (fraction : ℚ) (hNonneg : 0 ≤ c.m_pendingHapticDurationSecs)
    (hRange : c.m_pendingHapticDurationSecs * 1000000 < 65535)
    (hEmit : Effect.SetControllerRumble fraction ∈ (UpdateRumbleState env now c).2) :
    fraction =
        shapeRumbleFraction c.m_pendingHapticDurationSecs
          (((⌊roundToBinary32 (c.m_pendingHapticDurationSecs * 1000000)⌋ : ℤ) : ℚ) / 5000 *
            c.m_pendingHapticAmplitude) ∧
      ⌊c.m_pendingHapticDurationSecs * 1000000⌋ ≤
        ⌊roundToBinary32 (c.m_pendingHapticDurationSecs * 1000000)⌋ ∧
      ⌊roundToBinary32 (c.m_pendingHapticDurationSecs * 1000000)⌋ ≤
        ⌊c.m_pendingHapticDurationSecs * 1000000⌋ + 1 := by
  have hProduct : 0 ≤ c.m_pendingHapticDurationSecs * 1000000 := by positivity
  have hSmall : c.m_pendingHapticDurationSecs * 1000000 < 16777216 := by linarith
  obtain ⟨hLow, hHigh⟩ :=
    roundToBinary32_near_floor (c.m_pendingHapticDurationSecs * 1000000) hProduct hSmall
  have hFloorNonneg : (0 : ℚ) ≤ ((⌊c.m_pendingHapticDurationSecs * 1000000⌋ : ℤ) : ℚ) := by
    exact_mod_cast Int.floor_nonneg.mpr hProduct
  have hFloorSmall : ((⌊c.m_pendingHapticDurationSecs * 1000000⌋ : ℤ) : ℚ) < 65535 :=
    lt_of_le_of_lt (Int.floor_le _) hRange
  have hFloorLe : ((⌊c.m_pendingHapticDurationSecs * 1000000⌋ : ℤ) : ℚ) ≤ 65534 := by
    have hInt : ⌊c.m_pendingHapticDurationSecs * 1000000⌋ < 65535 := by
      exact_mod_cast hFloorSmall
    have hInt2 : ⌊c.m_pendingHapticDurationSecs * 1000000⌋ ≤ 65534 := by omega
    exact_mod_cast hInt2
  have hRounded : 0 ≤ roundToBinary32 (c.m_pendingHapticDurationSecs * 1000000) :=
    le_trans hFloorNonneg hLow
  have hFits : roundToBinary32 (c.m_pendingHapticDurationSecs * 1000000) < 65536 := by
    linarith
  refine ⟨?_, roundToBinary32_floor _ hProduct hSmall⟩
  rw [UpdateRumbleState_emitted env now c fraction hEmit, rumbleFraction_eq_shape,
    toUInt16_in_range _ hRounded hFits]

/-- C18 witness: the request of `0.005f` seconds at amplitude `1`. The exact product is
4999.99988..., with whole part 4999; the `float` product is 5000, and the fraction sent is
`5000 / 5000 = 1`. -/
theorem C18_fraction_from_whole_microseconds_witness :
    (0 : ℚ) ≤ fiveMillisecondsController.m_pendingHapticDurationSecs ∧
      fiveMillisecondsController.m_pendingHapticDurationSecs * 1000000 < 65535 ∧
      Effect.SetControllerRumble 1 ∈
        (UpdateRumbleState sampleEnv 1000 fiveMillisecondsController).2 ∧
      ⌊fiveMillisecondsController.m_pendingHapticDurationSecs * 1000000⌋ = 4999 ∧
      ⌊roundToBinary32 (fiveMillisecondsController.m_pendingHapticDurationSecs * 1000000)⌋ =
        5000 ∧
      (1 : ℚ) =
        shapeRumbleFraction fiveMillisecondsController.m_pendingHapticDurationSecs
          (((⌊roundToBinary32
              (fiveMillisecondsController.m_pendingHapticDurationSecs * 1000000)⌋ : ℤ) : ℚ) /
            5000 * fiveMillisecondsController.m_pendingHapticAmplitude) := by
  have hd : fiveMillisecondsController.m_pendingHapticDurationSecs =
      5368709 / 1073741824 := rfl
  have ha : fiveMillisecondsController.m_pendingHapticAmplitude = 1 := rfl
  have hNonneg : (0 : ℚ) ≤ fiveMillisecondsController.m_pendingHapticDurationSecs := by
    rw [hd]; norm_num
  have hRange : fiveMillisecondsController.m_pendingHapticDurationSecs * 1000000 < 65535 := by
    rw [hd]; norm_num
  have hExact : ⌊fiveMillisecondsController.m_pendingHapticDurationSecs * 1000000⌋ = 4999 := by
    rw [hd, Int.floor_eq_iff]
    norm_num
  have hFloat : ⌊roundToBinary32
      (fiveMillisecondsController.m_pendingHapticDurationSecs * 1000000)⌋ = 5000 := by
    rw [hd, roundToBinary32_five_milliseconds, Int.floor_eq_iff]
    norm_num
  have hCount : ((toUInt16 (roundToBinary32 (5368709 / 1073741824 * 1000000)) : ℕ) : ℚ) =
      5000 := by
    have hWhole : ⌊(5000 : ℚ)⌋ = 5000 := by
      rw [Int.floor_eq_iff]
      norm_num
    rw [roundToBinary32_five_milliseconds, toUInt16_of_floor _ 5000 (by norm_num) hWhole]
    have : ((5000 : ℤ) % 65536).toNat = 5000 := by decide
    rw [this]
    norm_num
  have hFraction : rumbleFraction (5368709 / 1073741824) 1 = 1 := by
    rw [rumbleFraction_eq_shape, hCount]
    norm_num [shapeRumbleFraction]
  have hEmit : Effect.SetControllerRumble 1 ∈
      (UpdateRumbleState sampleEnv 1000 fiveMillisecondsController).2 := by
    have h := UpdateRumbleState_first_send sampleEnv 1000 fiveMillisecondsController rfl rfl
    rwa [hd, ha, hFraction] at h
  exact ⟨hNonneg, hRange, hEmit, hExact, hFloat,
    (C18_fraction_from_whole_microseconds sampleEnv 1000 fiveMillisecondsController 1
      hNonneg hRange hEmit).1⟩

/-! ### Loading the touchpad action of a button -/

/-- Every action occurs in the table order of the lookup loop. -/
theorem mem_touchpadDirections (a : eEmulatedTrackpadAction) : a ∈ touchpadDirections := by
  cases a <;> simp [touchpadDirections]

/-- A configured string that names an action is matched with an action it names. -/
theorem matchTouchpadDirection_named (env : Env) (str : String)
    (a current : eEmulatedTrackpadAction) (h : namesAction env str a) :
    namesAction env str (matchTouchpadDirection env str current) := by
  unfold matchTouchpadDirection
  cases hFind : touchpadDirections.find?
      (fun a => strcasecmpIsZero str (env.k_VRTouchpadDirectionNames a)) with
  | none =>
    have hNone := List.find?_eq_none.mp hFind a (mem_touchpadDirections a)
    exact absurd h hNone
  | some b =>
    have hb : strcasecmpIsZero str (env.k_VRTouchpadDirectionNames b) = true :=
      @List.find?_some _ (fun a => strcasecmpIsZero str (env.k_VRTouchpadDirectionNames a))
        b touchpadDirections hFind
    exact hb

/-- A configured string that names no action leaves the direction as it is. -/
theorem matchTouchpadDirection_unnamed (env : Env) (str : String)
    (current : eEmulatedTrackpadAction) (h : ∀ a, ¬ namesAction env str a) :
    matchTouchpadDirection env str current = current := by
  unfold matchTouchpadDirection
  cases hFind : touchpadDirections.find?
      (fun a => strcasecmpIsZero str (env.k_VRTouchpadDirectionNames a)) with
  | none => rfl
  | some b =>
    have hb : strcasecmpIsZero str (env.k_VRTouchpadDirectionNames b) = true :=
      @List.find?_some _ (fun a => strcasecmpIsZero str (env.k_VRTouchpadDirectionNames a))
        b touchpadDirections hFind
    exact absurd hb (h b)

/-- The action stored for a button is the resolved direction. -/
theorem storedTouchpadAction_eq (env : Env) (settings : IVRSettings)
    (psButtonID : ePSMButtonID) (controllerId : Int) (c : PSMoveController) :
    storedTouchpadAction env settings psButtonID controllerId c =
      resolveTouchpadDirection env (some settings) psButtonID controllerId := by
  unfold storedTouchpadAction LoadEmulatedTouchpadActions
  exact Function.update_same _ _ _

/-- C19: for every button and controller index in `0 .. 9`, with a settings store present:
when the per-controller touchpad section holds for the button a string that names an
action, `LoadEmulatedTouchpadActions` stores an action named by that string, whatever the
default section holds; when the per-controller section has no entry for the button and the
default section holds a string naming an action, an action named by that string is stored;
and when neither section holds a string naming an action, `None` is stored. (An action is
named by a string when its entry of `k_VRTouchpadDirectionNames` equals the string ignoring
case; with distinct names the action named is unique.) -/
theorem C19_controller_section_overrides_default (env : Env) (settings : IVRSettings)
    (psButtonID : ePSMButtonID) (controllerId : Int) (c : PSMoveController)
    (hLow : 0 ≤ controllerId) (hHigh : controllerId ≤ 9) :
    (∀ str a,
        settings.GetString (perControllerSection controllerId)
            (env.k_PSMButtonNames psButtonID) = some str →
          namesAction env str a →
          namesAction env str
            (storedTouchpadAction env settings psButtonID controllerId c)) ∧
      (settings.GetString (perControllerSection controllerId)
            (env.k_PSMButtonNames psButtonID) = none →
        ∀ str a,
          settings.GetString "psmove_touchpad_directions"
              (env.k_PSMButtonNames psButtonID) = some str →
            namesAction env str a →
            namesAction env str
              (storedTouchpadAction env settings psButtonID controllerId c)) ∧
      ((∀ str a,
          settings.GetString (perControllerSection controllerId)
              (env.k_PSMButtonNames psButtonID) = some str → ¬ namesAction env str a) →
        (∀ str a,
          settings.GetString "psmove_touchpad_directions"
              (env.k_PSMButtonNames psButtonID) = some str → ¬ namesAction env str a) →
        storedTouchpadAction env settings psButtonID controllerId c =
          k_EmulatedTrackpadAction_None) := by
  rw [storedTouchpadAction_eq]
  unfold resolveTouchpadDirection
  dsimp only
  rw [if_pos ⟨hLow, hHigh⟩]
  refine ⟨fun str a hOwn hName => ?_, fun hOwn str a hDefault hName => ?_,
    fun hOwn hDefault => ?_⟩
  · rw [hOwn]
    exact matchTouchpadDirection_named env str a _ hName
  · rw [hOwn, hDefault]
    exact matchTouchpadDirection_named env str a _ hName
  · have hFromDefault :
        (match settings.GetString "psmove_touchpad_directions"
            (env.k_PSMButtonNames psButtonID) with
          | some str => matchTouchpadDirection env str k_EmulatedTrackpadAction_None
          | none => k_EmulatedTrackpadAction_None) = k_EmulatedTrackpadAction_None := by
      cases hD : settings.GetString "psmove_touchpad_directions"
          (env.k_PSMButtonNames psButtonID) with
      | none => rfl
      | some str => exact matchTouchpadDirection_unnamed env str _ (fun a => hDefault str a hD)
    rw [hFromDefault]
    cases hO : settings.GetString (perControllerSection controllerId)
        (env.k_PSMButtonNames psButtonID) with
    | none => rfl
    | some str => exact matchTouchpadDirection_unnamed env str _ (fun a => hOwn str a hO)

/-- C19 witness: for controller 3 the section `psmove_touchpad_directions_3` maps `move` to
`Touchpad_Up`, the default section maps it to `touchpad_press`; the action stored for the
Move button is `Up`. -/
theorem C19_controller_section_overrides_default_witness :
    (0 : Int) ≤ 3 ∧ (3 : Int) ≤ 9 ∧
      sampleSettings.GetString (perControllerSection 3)
          (namedEnv.k_PSMButtonNames k_PSMButtonID_Move) = some "Touchpad_Up" ∧
      namesAction namedEnv "Touchpad_Up" k_EmulatedTrackpadAction_Up ∧
      storedTouchpadAction namedEnv sampleSettings k_PSMButtonID_Move 3 sampleController =
        k_EmulatedTrackpadAction_Up ∧
      namesAction namedEnv "Touchpad_Up"
        (storedTouchpadAction namedEnv sampleSettings k_PSMButtonID_Move 3
          sampleController) := by
  have hOwn : sampleSettings.GetString (perControllerSection 3)
      (namedEnv.k_PSMButtonNames k_PSMButtonID_Move) = some "Touchpad_Up" := by decide
  have hName : namesAction namedEnv "Touchpad_Up" k_EmulatedTrackpadAction_Up := by
    unfold namesAction
    decide
  have hStored : storedTouchpadAction namedEnv sampleSettings k_PSMButtonID_Move 3
      sampleController = k_EmulatedTrackpadAction_Up := by
    rw [storedTouchpadAction_eq]
    decide
  exact ⟨by decide, by decide, hOwn, hName, hStored,
    (C19_controller_section_overrides_default namedEnv sampleSettings k_PSMButtonID_Move 3
      sampleController (by decide) (by decide)).1 _ _ hOwn hName⟩


/-! ### The rate limiter inside the window -/

/-- C21: when rumble is not suppressed, a previous send is recorded and less than 33 ms
have elapsed since it, `UpdateRumbleState` emits nothing and returns the controller as it
was: the pending duration, amplitude and frequency, the recorded send time and its validity
flag are all unchanged. -/
theorem C21_inside_window_nothing_changes (env : Env) (now : ℚ) (c : PSMoveController)
    (hNotSuppressed : c.m_bRumbleSuppressed = false)
    (hRecorded : c.m_lastTimeRumbleSentValid = true)
    (hRecent : now - c.m_lastTimeRumbleSent < 33) :
    UpdateRumbleState env now c = (c, []) ∧
      (UpdateRumbleState env now c).1.m_pendingHapticDurationSecs =
        c.m_pendingHapticDurationSecs ∧
      (UpdateRumbleState env now c).1.m_pendingHapticAmplitude =
        c.m_pendingHapticAmplitude ∧
      (UpdateRumbleState env now c).1.m_pendingHapticFrequency =
        c.m_pendingHapticFrequency ∧
      (UpdateRumbleState env now c).1.m_lastTimeRumbleSent = c.m_lastTimeRumbleSent ∧
      (UpdateRumbleState env now c).1.m_lastTimeRumbleSentValid =
        c.m_lastTimeRumbleSentValid := by
  have hGate : bTimoutElapsed now c = false := by
    unfold bTimoutElapsed
    rw [if_pos hRecorded]
    exact decide_eq_false (not_le.mpr hRecent)
  have h : UpdateRumbleState env now c = (c, []) := by
    unfold UpdateRumbleState
    simp [hNotSuppressed, hGate]
  rw [h]
  exact ⟨rfl, rfl, rfl, rfl, rfl, rfl⟩

/-- C21 witness: a call at 1000 ms, 10 ms after the send recorded at 990 ms. -/
theorem C21_inside_window_nothing_changes_witness :
    recentSendController.m_bRumbleSuppressed = false ∧
      recentSendController.m_lastTimeRumbleSentValid = true ∧
      1000 - recentSendController.m_lastTimeRumbleSent < 33 ∧
      UpdateRumbleState sampleEnv 1000 recentSendController = (recentSendController, []) := by
  have hRecent : 1000 - recentSendController.m_lastTimeRumbleSent < 33 := by
    have hLast : recentSendController.m_lastTimeRumbleSent = 990 := rfl
    rw [hLast]
    norm_num
  exact ⟨rfl, rfl, hRecent,
    (C21_inside_window_nothing_changes sampleEnv 1000 recentSendController rfl rfl hRecent).1⟩

/-! ### The chord branch and the hold-recenter branch -/

/-- The controller after the chord branch: both request flags are set, whatever the
collaborators answer. -/
theorem chordBranch_state (env : Env) (host : HostFrame) (c : PSMoveController) :
    (chordBranch env host c).1 =
      { c with m_bResetPoseRequestSent := true, m_bResetAlignRequestSent := true } := rfl

/-- The effects of the `try` block when the head-pose accessor or the realignment
collaborator throws: the error is logged and the tracking space is not set. -/
theorem realignTrackingSpace_failed (host : HostFrame) (q : PSMQuatf) (offset : PSMVector3f)
    (flag : Bool)
    (hFail : host.GetHMDPoseInMeters = none ∨
      ∃ hmdPose, host.GetHMDPoseInMeters = some hmdPose ∧
        host.RealignHMDTrackingSpace q offset hmdPose flag = none) :
    Effect.LoggerError ∈ realignTrackingSpace host q offset flag ∧
      ∀ pose, Effect.SetHMDTrackingSpace pose ∉ realignTrackingSpace host q offset flag := by
  unfold realignTrackingSpace
  rcases hFail with hPose | ⟨hmdPose, hPose, hRealign⟩
  · simp [hPose]
  · simp [hPose, hRealign]

/-- C22: in every frame in which the chord fires with the gesture enabled and the head-pose
accessor or the realignment collaborator fails (throws a `std::exception`),
`UpdateControllerState` still returns: the `ResetOrientation` request has been issued, the
error is logged, the tracking space is not updated, the tracking status (calibration
complete) keeps its prior value, both request flags are set, and the controller ends up
exactly as for any other answers of the collaborators, in particular as in the successful
case. -/
theorem C22_failed_realignment_is_contained (env : Env) (host : HostFrame) (view : PSMPSMove)
    (c : PSMoveController) (hChord : bStartRealignHMDTriggered view = true)
    (hEnabled : c.m_bDisableHMDAlignmentGesture = false)
    (hFail : host.GetHMDPoseInMeters = none ∨
      ∃ hmdPose, host.GetHMDPoseInMeters = some hmdPose ∧
        host.RealignHMDTrackingSpace (env.PSM_QuatfCreateFromAngles ⟨M_PI_2, 0, 0⟩)
          ⟨0, 0, -1 * c.m_fControllerMetersInFrontOfHmdAtCalibration⟩ hmdPose
          c.m_bUseControllerOrientationInHMDAlignment = none) :
    Effect.ResetControllerOrientationAsync (env.PSM_QuatfCreateFromAngles ⟨M_PI_2, 0, 0⟩) ∈
        (UpdateControllerState env host view c).2 ∧
      Effect.LoggerError ∈ (UpdateControllerState env host view c).2 ∧
      (∀ pose, Effect.SetHMDTrackingSpace pose ∉ (UpdateControllerState env host view c).2) ∧
      (UpdateControllerState env host view c).1.m_trackingStatus = c.m_trackingStatus ∧
      (UpdateControllerState env host view c).1.m_bResetPoseRequestSent = true ∧
      (UpdateControllerState env host view c).1.m_bResetAlignRequestSent = true ∧
      ∀ other : HostFrame, other.nowResetPose = host.nowResetPose →
        (UpdateControllerState env other view c).1 =
          (UpdateControllerState env host view c).1 := by
  obtain ⟨-, -, hFront, hUse, -⟩ := holdDetector_others host.nowResetPose
    (resetPoseButtonState c.m_TrackedControllerRole view) c
  have hStatus : (UpdateControllerState env host view c).1.m_trackingStatus =
      c.m_trackingStatus :=
    congrArg Prod.fst (UpdateControllerState_pose env host view c).1
  have hOther : ∀ other : HostFrame, other.nowResetPose = host.nowResetPose →
      (UpdateControllerState env other view c).1 =
        (UpdateControllerState env host view c).1 := by
    intro other hNow
    rw [UpdateControllerState_chord env other view c hChord hEnabled,
      UpdateControllerState_chord env host view c hChord hEnabled, chordBranch_state,
      chordBranch_state, hNow]
  refine ⟨?_, ?_, ?_, hStatus, ?_, ?_, hOther⟩
  · rw [UpdateControllerState_chord env host view c hChord hEnabled]
    exact List.mem_cons_self _ _
  · rw [UpdateControllerState_chord env host view c hChord hEnabled]
    simp only [chordBranch, hFront, hUse]
    exact List.mem_cons_of_mem _ (realignTrackingSpace_failed host _ _ _ hFail).1
  · intro pose hMem
    rw [UpdateControllerState_chord env host view c hChord hEnabled] at hMem
    simp only [chordBranch, hFront, hUse] at hMem
    rcases List.mem_cons.mp hMem with hEq | hIn
    · cases hEq
    · exact (realignTrackingSpace_failed host _ _ _ hFail).2 pose hIn
  · rw [UpdateControllerState_chord env host view c hChord hEnabled]
    rfl
  · rw [UpdateControllerState_chord env host view c hChord hEnabled]
    rfl

/-- C22 witness: the sample chord frame with a head-pose accessor that throws, and with a
realignment collaborator that throws. -/
theorem C22_failed_realignment_is_contained_witness :
    bStartRealignHMDTriggered chordView = true ∧
      sampleController.m_bDisableHMDAlignmentGesture = false ∧
      headPoseFailingHost.GetHMDPoseInMeters = none ∧
      Effect.LoggerError ∈
        (UpdateControllerState sampleEnv headPoseFailingHost chordView sampleController).2 ∧
      (UpdateControllerState sampleEnv sampleHost chordView sampleController).1 =
        (UpdateControllerState sampleEnv headPoseFailingHost chordView sampleController).1 ∧
      Effect.LoggerError ∈
        (UpdateControllerState sampleEnv realignFailingHost chordView sampleController).2 := by
  have h := C22_failed_realignment_is_contained sampleEnv headPoseFailingHost chordView
    sampleController (by decide) rfl (Or.inl rfl)
  have hRealign := C22_failed_realignment_is_contained sampleEnv realignFailingHost chordView
    sampleController (by decide) rfl
    (Or.inr ⟨⟨k_psm_float_vector3_zero, k_psm_quaternion_identity⟩, rfl, rfl⟩)
  exact ⟨by decide, rfl, rfl, h.2.1, h.2.2.2.2.2.2 sampleHost rfl, hRealign.2.1⟩


/-- The `ResetOrientation` requests among the effects of the `try` block: none. -/
theorem realignTrackingSpace_filter_reset (host : HostFrame) (q : PSMQuatf)
    (offset : PSMVector3f) (flag : Bool) :
    (realignTrackingSpace host q offset flag).filter Effect.isResetOrientation = [] := by
  rw [List.filter_eq_nil_iff]
  intro e he
  rw [realignTrackingSpace_no_reset host q offset flag e he]
  exact Bool.false_ne_true

/-- The `ResetOrientation` requests among the effects of the normal branch: none. -/
theorem normalBranch_filter_reset (env : Env) (host : HostFrame) (view : PSMPSMove)
    (c : PSMoveController) :
    (normalBranch env host view c).2.filter Effect.isResetOrientation = [] := by
  rw [List.filter_eq_nil_iff]
  intro e he
  have hInput := normalBranch_effects env host view c e he
  cases e <;> first | exact Bool.false_ne_true | cases hInput

/-- C23: in every frame `UpdateControllerState` issues at most one `ResetOrientation`
request. When the hold fires and the chord branch is not taken, the effects of the frame are
exactly one `ResetOrientation` request with the identity target (so no realignment request
and no native-button, touchpad, trigger or battery update), the recenter request flag is
set, and the touchpad and battery members are untouched. When the chord fires with the
gesture enabled in a frame in which the hold fires too, the effects are those of the chord
branch, whose only `ResetOrientation` request is the chord's. -/
theorem C23_one_reset_request_per_frame (env : Env) (host : HostFrame) (view : PSMPSMove)
    (c : PSMoveController) :
    ((UpdateControllerState env host view c).2.filter Effect.isResetOrientation).length ≤ 1 ∧
      ((holdDetector host.nowResetPose
            (resetPoseButtonState c.m_TrackedControllerRole view) c).2 = true →
        (bStartRealignHMDTriggered view = false ∨ c.m_bDisableHMDAlignmentGesture = true) →
        (UpdateControllerState env host view c).2 =
            [Effect.ResetControllerOrientationAsync k_psm_quaternion_identity] ∧
          (UpdateControllerState env host view c).1.m_bResetPoseRequestSent = true ∧
          touchpadAndBatteryMembers (UpdateControllerState env host view c).1 =
            touchpadAndBatteryMembers c) ∧
      ((holdDetector host.nowResetPose
            (resetPoseButtonState c.m_TrackedControllerRole view) c).2 = true →
        bStartRealignHMDTriggered view = true → c.m_bDisableHMDAlignmentGesture = false →
        (UpdateControllerState env host view c).2 =
            Effect.ResetControllerOrientationAsync
                (env.PSM_QuatfCreateFromAngles ⟨M_PI_2, 0, 0⟩) ::
              realignTrackingSpace host (env.PSM_QuatfCreateFromAngles ⟨M_PI_2, 0, 0⟩)
                ⟨0, 0, -1 * c.m_fControllerMetersInFrontOfHmdAtCalibration⟩
                c.m_bUseControllerOrientationInHMDAlignment ∧
          (UpdateControllerState env host view c).2.filter Effect.isResetOrientation =
            [Effect.ResetControllerOrientationAsync
              (env.PSM_QuatfCreateFromAngles ⟨M_PI_2, 0, 0⟩)]) := by
  obtain ⟨-, -, hFront, hUse, hOthers⟩ := holdDetector_others host.nowResetPose
    (resetPoseButtonState c.m_TrackedControllerRole view) c
  have hChordEffects : bStartRealignHMDTriggered view = true →
      c.m_bDisableHMDAlignmentGesture = false →
      (UpdateControllerState env host view c).2 =
        Effect.ResetControllerOrientationAsync
            (env.PSM_QuatfCreateFromAngles ⟨M_PI_2, 0, 0⟩) ::
          realignTrackingSpace host (env.PSM_QuatfCreateFromAngles ⟨M_PI_2, 0, 0⟩)
            ⟨0, 0, -1 * c.m_fControllerMetersInFrontOfHmdAtCalibration⟩
            c.m_bUseControllerOrientationInHMDAlignment := by
    intro hChord hEnabled
    rw [UpdateControllerState_chord env host view c hChord hEnabled]
    simp only [chordBranch, hFront, hUse]
  have hChordFilter : bStartRealignHMDTriggered view = true →
      c.m_bDisableHMDAlignmentGesture = false →
      (UpdateControllerState env host view c).2.filter Effect.isResetOrientation =
        [Effect.ResetControllerOrientationAsync
          (env.PSM_QuatfCreateFromAngles ⟨M_PI_2, 0, 0⟩)] := by
    intro hChord hEnabled
    rw [hChordEffects hChord hEnabled, List.filter_cons_of_pos (by rfl),
      realignTrackingSpace_filter_reset]
  have hRecenter : (holdDetector host.nowResetPose
        (resetPoseButtonState c.m_TrackedControllerRole view) c).2 = true →
      (bStartRealignHMDTriggered view = false ∨ c.m_bDisableHMDAlignmentGesture = true) →
      (UpdateControllerState env host view c).2 =
          [Effect.ResetControllerOrientationAsync k_psm_quaternion_identity] ∧
        (UpdateControllerState env host view c).1.m_bResetPoseRequestSent = true ∧
        touchpadAndBatteryMembers (UpdateControllerState env host view c).1 =
          touchpadAndBatteryMembers c := by
    intro hHold hNoChord
    rw [UpdateControllerState_recenter env host view c hNoChord hHold]
    exact ⟨rfl, rfl, hOthers⟩
  refine ⟨?_, hRecenter, fun _ hChord hEnabled =>
    ⟨hChordEffects hChord hEnabled, hChordFilter hChord hEnabled⟩⟩
  by_cases hChord : bStartRealignHMDTriggered view = true ∧
      c.m_bDisableHMDAlignmentGesture = false
  · rw [hChordFilter hChord.1 hChord.2]
    exact le_refl 1
  · have hNoChord : bStartRealignHMDTriggered view = false ∨
        c.m_bDisableHMDAlignmentGesture = true := by
      rcases Bool.eq_false_or_eq_true (bStartRealignHMDTriggered view) with h1 | h1
      · rcases Bool.eq_false_or_eq_true c.m_bDisableHMDAlignmentGesture with h2 | h2
        · exact Or.inr h2
        · exact absurd ⟨h1, h2⟩ hChord
      · exact Or.inl h1
    rcases Bool.eq_false_or_eq_true (holdDetector host.nowResetPose
        (resetPoseButtonState c.m_TrackedControllerRole view) c).2 with hHold | hHold
    · rw [(hRecenter hHold hNoChord).1]
      exact le_refl 1
    · rw [UpdateControllerState_normal env host view c hNoChord hHold,
        normalBranch_filter_reset]
      exact Nat.zero_le 1

/-- C23 witness: on the freshly constructed right-hand controller at 1000 ms, a frame with
`Start` held and `Select` freshly pressed decides both the chord and the hold and issues
only the chord's `ResetOrientation` request; a frame with `Start` held alone issues exactly
the identity-target request. -/
theorem C23_one_reset_request_per_frame_witness :
    bStartRealignHMDTriggered chordWhileHoldingView = true ∧
      (holdDetector sampleHost.nowResetPose
        (resetPoseButtonState sampleController.m_TrackedControllerRole chordWhileHoldingView)
        sampleController).2 = true ∧
      (UpdateControllerState sampleEnv sampleHost chordWhileHoldingView
          sampleController).2.filter Effect.isResetOrientation =
        [Effect.ResetControllerOrientationAsync
          (sampleEnv.PSM_QuatfCreateFromAngles ⟨M_PI_2, 0, 0⟩)] ∧
      (UpdateControllerState sampleEnv sampleHost holdView sampleController).2 =
        [Effect.ResetControllerOrientationAsync k_psm_quaternion_identity] := by
  have hElapsed : 250 ≤ sampleHost.nowResetPose -
      sampleController.m_resetPoseButtonPressTime := by
    have hNow : sampleHost.nowResetPose = 1000 := rfl
    have hPress : sampleController.m_resetPoseButtonPressTime = 0 := rfl
    rw [hNow, hPress]
    norm_num
  have hBoth : (holdDetector sampleHost.nowResetPose
      (resetPoseButtonState sampleController.m_TrackedControllerRole chordWhileHoldingView)
      sampleController).2 = true :=
    (holdDetector_spec _ _ _).2.2.mpr ⟨rfl, rfl, hElapsed⟩
  have hAlone : (holdDetector sampleHost.nowResetPose
      (resetPoseButtonState sampleController.m_TrackedControllerRole holdView)
      sampleController).2 = true :=
    (holdDetector_spec _ _ _).2.2.mpr ⟨rfl, rfl, hElapsed⟩
  exact ⟨by decide, hBoth,
    ((C23_one_reset_request_per_frame sampleEnv sampleHost chordWhileHoldingView
      sampleController).2.2 hBoth (by decide) rfl).2,
    ((C23_one_reset_request_per_frame sampleEnv sampleHost holdView
      sampleController).2.1 hAlone (Or.inl (by decide))).1⟩

/-! ### Gesture frames leave the touchpad and battery state alone -/

/-- C28: in every frame in which `UpdateControllerState` takes the chord branch (chord fired
with the gesture enabled) or the hold-recenter branch (hold decided), the touchpad runtime
state (`m_bTouchpadWasActive`, the anchor rotation and position, `m_lastTouchpadPressTime`)
and the committed battery state (`m_fBatteryChargeFraction`, `m_bIsBatteryCharging`) are
exactly as they were before the frame. -/
theorem C28_gesture_frames_keep_touchpad_and_battery (env : Env) (host : HostFrame)
    (view : PSMPSMove) (c : PSMoveController)
    (hGesture : (bStartRealignHMDTriggered view = true ∧
        c.m_bDisableHMDAlignmentGesture = false) ∨
      (holdDetector host.nowResetPose
        (resetPoseButtonState c.m_TrackedControllerRole view) c).2 = true) :
    touchpadAndBatteryMembers (UpdateControllerState env host view c).1 =
        touchpadAndBatteryMembers c ∧
      (UpdateControllerState env host view c).1.m_bTouchpadWasActive =
        c.m_bTouchpadWasActive ∧
      (UpdateControllerState env host view c).1.m_driverSpaceRotationAtTouchpadPressTime =
        c.m_driverSpaceRotationAtTouchpadPressTime ∧
      (UpdateControllerState env host view c).1.m_posMetersAtTouchpadPressTime =
        c.m_posMetersAtTouchpadPressTime ∧
      (UpdateControllerState env host view c).1.m_lastTouchpadPressTime =
        c.m_lastTouchpadPressTime ∧
      (UpdateControllerState env host view c).1.m_fBatteryChargeFraction =
        c.m_fBatteryChargeFraction ∧
      (UpdateControllerState env host view c).1.m_bIsBatteryCharging =
        c.m_bIsBatteryCharging := by
  have hOthers := (holdDetector_others host.nowResetPose
    (resetPoseButtonState c.m_TrackedControllerRole view) c).2.2.2.2
  have hMembers : touchpadAndBatteryMembers (UpdateControllerState env host view c).1 =
      touchpadAndBatteryMembers c := by
    by_cases hChord : bStartRealignHMDTriggered view = true ∧
        c.m_bDisableHMDAlignmentGesture = false
    · rw [UpdateControllerState_chord env host view c hChord.1 hChord.2]
      exact hOthers
    · have hHold : (holdDetector host.nowResetPose
          (resetPoseButtonState c.m_TrackedControllerRole view) c).2 = true :=
        hGesture.resolve_left hChord
      have hNoChord : bStartRealignHMDTriggered view = false ∨
          c.m_bDisableHMDAlignmentGesture = true := by
        rcases Bool.eq_false_or_eq_true (bStartRealignHMDTriggered view) with h1 | h1
        · rcases Bool.eq_false_or_eq_true c.m_bDisableHMDAlignmentGesture with h2 | h2
          · exact Or.inr h2
          · exact absurd ⟨h1, h2⟩ hChord
        · exact Or.inl h1
      rw [UpdateControllerState_recenter env host view c hNoChord hHold]
      exact hOthers
  have hWas := congrArg Prod.fst hMembers
  have hRot := congrArg (fun m => m.2.1) hMembers
  have hPos := congrArg (fun m => m.2.2.1) hMembers
  have hLast := congrArg (fun m => m.2.2.2.1) hMembers
  have hFraction := congrArg (fun m => m.2.2.2.2.1) hMembers
  have hCharging := congrArg (fun m => m.2.2.2.2.2) hMembers
  exact ⟨hMembers, hWas, hRot, hPos, hLast, hFraction, hCharging⟩

/-- C28 witness: the sample chord frame on the freshly constructed controller. -/
theorem C28_gesture_frames_keep_touchpad_and_battery_witness :
    bStartRealignHMDTriggered chordView = true ∧
      sampleController.m_bDisableHMDAlignmentGesture = false ∧
      touchpadAndBatteryMembers
          (UpdateControllerState sampleEnv sampleHost chordView sampleController).1 =
        touchpadAndBatteryMembers sampleController :=
  ⟨by decide, rfl,
    (C28_gesture_frames_keep_touchpad_and_battery sampleEnv sampleHost chordView
      sampleController (Or.inl ⟨by decide, rfl⟩)).1⟩


/-! ### The published touchpad flags -/

/-- The flags computed by lines 459-511 from the winning action. -/
theorem trackpadFlags_spec (highest : eEmulatedTrackpadAction) :
    (fixedDirection highest (touchOrPressFlags highest {})).emulatedTouchPadTouchedState =
        (if highest = k_EmulatedTrackpadAction_None then PSMButtonState_UP
          else PSMButtonState_DOWN) ∧
      (fixedDirection highest (touchOrPressFlags highest {})).emulatedTouchPadPressedState =
        (if highest = k_EmulatedTrackpadAction_Press ∨
            (specFixedAxisPair highest).isSome = true
          then PSMButtonState_DOWN else PSMButtonState_UP) := by
  cases highest <;>
    simp [touchOrPressFlags, fixedDirection, directionAxes, specFixedAxisPair,
      eEmulatedTrackpadAction.toNat]

/-- The spatial stage does not write the two flags. -/
theorem spatialOffset_flags (env : Env) (now : ℚ) (view : PSMPSMove)
    (highest : eEmulatedTrackpadAction) (c : PSMoveController) (l : TrackpadLocals) :
    (spatialOffset env now view highest c l).2.emulatedTouchPadTouchedState =
        l.emulatedTouchPadTouchedState ∧
      (spatialOffset env now view highest c l).2.emulatedTouchPadPressedState =
        l.emulatedTouchPadPressedState := by
  unfold spatialOffset
  dsimp only
  split_ifs <;> exact ⟨rfl, rfl⟩

/-- C25: in every frame in which the emulated touchpad is updated (the bail-out of line 430
is not taken), with `w` the winning action: the published touched flag is `Down` exactly
when `w` is not `None`; the published pressed flag is `Down` exactly when `w` is `Press` or
one of the eight fixed directions, so `Touch` gives touched without pressed; a `None` winner
publishes touched = pressed = `Up` with the axes `(0, 0)`; and afterwards
`m_bTouchpadWasActive` equals `w ≠ None`. -/
theorem C25_published_flags_follow_winner (env : Env) (host : HostFrame) (view : PSMPSMove)
    (c : PSMoveController) (hHas : host.HasButton_EmulatedTrackpadPressed = true) :
    (∃ x y : ℚ,
        (UpdateEmulatedTrackpad env host view c).2 =
          [Effect.UpdateButton k_PSMButtonID_EmulatedTrackpadTouched
             (if highestPriorityAction env.k_PSMButtonID_Count
                 c.psButtonIDToEmulatedTouchpadAction host.GetButtonState =
                   k_EmulatedTrackpadAction_None
               then PSMButtonState_UP else PSMButtonState_DOWN),
           Effect.UpdateButton k_PSMButtonID_EmulatedTrackpadPressed
             (if highestPriorityAction env.k_PSMButtonID_Count
                   c.psButtonIDToEmulatedTouchpadAction host.GetButtonState =
                     k_EmulatedTrackpadAction_Press ∨
                 (specFixedAxisPair (highestPriorityAction env.k_PSMButtonID_Count
                   c.psButtonIDToEmulatedTouchpadAction host.GetButtonState)).isSome = true
               then PSMButtonState_DOWN else PSMButtonState_UP),
           Effect.UpdateAxis k_PSMAxisID_EmulatedTrackpad_X x,
           Effect.UpdateAxis k_PSMAxisID_EmulatedTrackpad_Y y] ∧
        (highestPriorityAction env.k_PSMButtonID_Count
            c.psButtonIDToEmulatedTouchpadAction host.GetButtonState =
              k_EmulatedTrackpadAction_None → x = 0 ∧ y = 0)) ∧
      (UpdateEmulatedTrackpad env host view c).1.m_bTouchpadWasActive =
        decide (highestPriorityAction env.k_PSMButtonID_Count
          c.psButtonIDToEmulatedTouchpadAction host.GetButtonState ≠
            k_EmulatedTrackpadAction_None) := by
  rw [UpdateEmulatedTrackpad_of_hasButton _ _ _ _ hHas]
  generalize highestPriorityAction env.k_PSMButtonID_Count
    c.psButtonIDToEmulatedTouchpadAction host.GetButtonState = w
  obtain ⟨hTouched, hPressed⟩ := trackpadFlags_spec w
  obtain ⟨hT, hP⟩ := spatialOffset_flags env host.nowTouchpad view w c
    (fixedDirection w (touchOrPressFlags w {}))
  refine ⟨⟨(spatialOffset env host.nowTouchpad view w c
      (fixedDirection w (touchOrPressFlags w {}))).2.touchpad_x,
    (spatialOffset env host.nowTouchpad view w c
      (fixedDirection w (touchOrPressFlags w {}))).2.touchpad_y, ?_, ?_⟩, rfl⟩
  · rw [← hTouched, ← hPressed, ← hT, ← hP]
    rfl
  · intro hNone
    subst hNone
    exact ⟨rfl, rfl⟩

/-- C25 witness: a held `Touch` publishes touched `Down` with pressed `Up`, and the touchpad
counts as active afterwards. -/
theorem C25_published_flags_follow_winner_witness :
    sampleHost.HasButton_EmulatedTrackpadPressed = true ∧
      Effect.UpdateButton k_PSMButtonID_EmulatedTrackpadTouched PSMButtonState_DOWN ∈
        (UpdateEmulatedTrackpad sampleEnv sampleHost sampleView touchController).2 ∧
      Effect.UpdateButton k_PSMButtonID_EmulatedTrackpadPressed PSMButtonState_UP ∈
        (UpdateEmulatedTrackpad sampleEnv sampleHost sampleView touchController).2 ∧
      (UpdateEmulatedTrackpad sampleEnv sampleHost sampleView
        touchController).1.m_bTouchpadWasActive = true := by
  have hw : highestPriorityAction sampleEnv.k_PSMButtonID_Count
      touchController.psButtonIDToEmulatedTouchpadAction sampleHost.GetButtonState =
    k_EmulatedTrackpadAction_Touch := by decide
  obtain ⟨⟨x, y, hEffects, -⟩, hActive⟩ :=
    C25_published_flags_follow_winner sampleEnv sampleHost sampleView touchController rfl
  rw [hw] at hEffects hActive
  refine ⟨rfl, ?_, ?_, ?_⟩
  · rw [hEffects]
    exact List.mem_cons_self _ _
  · rw [hEffects]
    exact List.mem_cons_of_mem _ (List.mem_cons_self _ _)
  · rw [hActive]
    rfl

/-! ### The delay-after-press policy -/

/-- The controller after the spatial stage of a rising-edge frame. -/
theorem spatialOffset_rising_edge (env : Env) (now : ℚ) (view : PSMPSMove)
    (highest : eEmulatedTrackpadAction) (c : PSMoveController) (l : TrackpadLocals)
    (hWin : highest = k_EmulatedTrackpadAction_Touch ∨
      highest = k_EmulatedTrackpadAction_Press)
    (hInactive : c.m_bTouchpadWasActive = false) :
    (spatialOffset env now view highest c l).1 =
      if c.m_bDelayAfterTouchpadPress = true then
        if 2000 ≤ now - c.m_lastTouchpadPressTime then
          snapshotTouchpadAnchor env view { c with m_lastTouchpadPressTime := now }
        else { c with m_lastTouchpadPressTime := now }
      else snapshotTouchpadAnchor env view c := by
  unfold spatialOffset
  rw [if_pos hWin]
  dsimp only
  by_cases hDelay : c.m_bDelayAfterTouchpadPress = true
  · have hStamp : stampLastTouchpadPressTime now c =
        { c with m_lastTouchpadPressTime := now } := by
      unfold stampLastTouchpadPressTime
      rw [if_pos hDelay]
    rw [if_pos hDelay, hStamp]
    by_cases hElapsed : 2000 ≤ now - c.m_lastTouchpadPressTime
    · have hNew : bIsNewTouchpadLocation now c = true := by
        unfold bIsNewTouchpadLocation
        simp [hDelay, hInactive, hElapsed]
      rw [if_pos hElapsed, if_pos hNew]
      have hStill : (!({ c with m_lastTouchpadPressTime := now } :
          PSMoveController).m_bTouchpadWasActive) = true := by
        show (!c.m_bTouchpadWasActive) = true
        rw [hInactive]
        rfl
      rw [if_pos hStill]
    · have hOld : ¬ bIsNewTouchpadLocation now c = true := by
        unfold bIsNewTouchpadLocation
        simp [hDelay, hInactive, hElapsed]
      rw [if_neg hElapsed, if_neg hOld]
  · have hStamp : stampLastTouchpadPressTime now c = c := by
      unfold stampLastTouchpadPressTime
      rw [if_neg hDelay]
    have hNew : bIsNewTouchpadLocation now c = true := by
      unfold bIsNewTouchpadLocation
      simp [hDelay]
    have hStill : (!c.m_bTouchpadWasActive) = true := by
      rw [hInactive]
      rfl
    rw [if_neg hDelay, hStamp, if_pos hNew, if_pos hStill]

/-- With the delay-after-press setting off, the spatial stage leaves the press time and the
setting as they are. -/
theorem spatialOffset_lastPress (env : Env) (now : ℚ) (view : PSMPSMove)
    (highest : eEmulatedTrackpadAction) (c : PSMoveController) (l : TrackpadLocals)
    (hDisabled : c.m_bDelayAfterTouchpadPress = false) :
    (spatialOffset env now view highest c l).1.m_lastTouchpadPressTime =
        c.m_lastTouchpadPressTime ∧
      (spatialOffset env now view highest c l).1.m_bDelayAfterTouchpadPress = false := by
  have hStamp : stampLastTouchpadPressTime now c = c := by
    unfold stampLastTouchpadPressTime
    rw [hDisabled]
    rfl
  unfold spatialOffset
  dsimp only
  rw [hStamp]
  split_ifs <;> exact ⟨rfl, hDisabled⟩


/-- C26: on a frame in which the emulated touchpad is updated, the winning action is
`Touch` or `Press` and the touchpad was not active in the previous frame. With the
delay-after-press setting on: if less than 2000 ms have elapsed since
`m_lastTouchpadPressTime` the stored anchor rotation and anchor position are unchanged, if
at least 2000 ms have elapsed they are a snapshot of the current pose, and in both cases
`m_lastTouchpadPressTime` becomes the current time. With the setting off: the anchor is
re-snapshotted and `m_lastTouchpadPressTime` is unchanged; and, with the setting off, no
call of `UpdateEmulatedTrackpad` whatsoever changes `m_lastTouchpadPressTime` or the
setting. -/
theorem C26_delay_after_press_policy (env : Env) (host : HostFrame) (view : PSMPSMove)
    (c : PSMoveController) (hHas : host.HasButton_EmulatedTrackpadPressed = true)
    (hWin : highestPriorityAction env.k_PSMButtonID_Count
        c.psButtonIDToEmulatedTouchpadAction host.GetButtonState =
          k_EmulatedTrackpadAction_Touch ∨
      highestPriorityAction env.k_PSMButtonID_Count
        c.psButtonIDToEmulatedTouchpadAction host.GetButtonState =
          k_EmulatedTrackpadAction_Press)
    (hInactive : c.m_bTouchpadWasActive = false) :
    (c.m_bDelayAfterTouchpadPress = true →
        (host.nowTouchpad - c.m_lastTouchpadPressTime < 2000 →
          (UpdateEmulatedTrackpad env host view c).1.m_driverSpaceRotationAtTouchpadPressTime =
              c.m_driverSpaceRotationAtTouchpadPressTime ∧
            (UpdateEmulatedTrackpad env host view c).1.m_posMetersAtTouchpadPressTime =
              c.m_posMetersAtTouchpadPressTime) ∧
        (2000 ≤ host.nowTouchpad - c.m_lastTouchpadPressTime →
          (UpdateEmulatedTrackpad env host view c).1.m_driverSpaceRotationAtTouchpadPressTime =
              view.Pose.Orientation ∧
            (UpdateEmulatedTrackpad env host view c).1.m_posMetersAtTouchpadPressTime =
              env.GetMetersPosInRotSpace view.Pose.Orientation view) ∧
        (UpdateEmulatedTrackpad env host view c).1.m_lastTouchpadPressTime =
          host.nowTouchpad) ∧
      (c.m_bDelayAfterTouchpadPress = false →
        (UpdateEmulatedTrackpad env host view c).1.m_driverSpaceRotationAtTouchpadPressTime =
            view.Pose.Orientation ∧
          (UpdateEmulatedTrackpad env host view c).1.m_posMetersAtTouchpadPressTime =
            env.GetMetersPosInRotSpace view.Pose.Orientation view ∧
          (UpdateEmulatedTrackpad env host view c).1.m_lastTouchpadPressTime =
            c.m_lastTouchpadPressTime) ∧
      (∀ (anyHost : HostFrame) (anyView : PSMPSMove) (d : PSMoveController),
        d.m_bDelayAfterTouchpadPress = false →
          (UpdateEmulatedTrackpad env anyHost anyView d).1.m_lastTouchpadPressTime =
              d.m_lastTouchpadPressTime ∧
            (UpdateEmulatedTrackpad env anyHost anyView d).1.m_bDelayAfterTouchpadPress =
              false) := by
  have hEdge := spatialOffset_rising_edge env host.nowTouchpad view
    (highestPriorityAction env.k_PSMButtonID_Count c.psButtonIDToEmulatedTouchpadAction
      host.GetButtonState) c
    (fixedDirection
      (highestPriorityAction env.k_PSMButtonID_Count c.psButtonIDToEmulatedTouchpadAction
        host.GetButtonState)
      (touchOrPressFlags
        (highestPriorityAction env.k_PSMButtonID_Count c.psButtonIDToEmulatedTouchpadAction
          host.GetButtonState) {})) hWin hInactive
  have hState : (UpdateEmulatedTrackpad env host view c).1 =
      { (if c.m_bDelayAfterTouchpadPress = true then
          if 2000 ≤ host.nowTouchpad - c.m_lastTouchpadPressTime then
            snapshotTouchpadAnchor env view
              { c with m_lastTouchpadPressTime := host.nowTouchpad }
          else { c with m_lastTouchpadPressTime := host.nowTouchpad }
        else snapshotTouchpadAnchor env view c) with
        m_bTouchpadWasActive :=
          decide (highestPriorityAction env.k_PSMButtonID_Count
            c.psButtonIDToEmulatedTouchpadAction host.GetButtonState ≠
              k_EmulatedTrackpadAction_None) } := by
    rw [UpdateEmulatedTrackpad_of_hasButton _ _ _ _ hHas, ← hEdge]
    rfl
  refine ⟨fun hDelay => ⟨fun hRecent => ?_, fun hElapsed => ?_, ?_⟩, fun hDisabled => ?_, ?_⟩
  · rw [hState, if_pos hDelay, if_neg (not_le.mpr hRecent)]
    exact ⟨rfl, rfl⟩
  · rw [hState, if_pos hDelay, if_pos hElapsed]
    exact ⟨rfl, rfl⟩
  · rw [hState, if_pos hDelay]
    by_cases hElapsed : 2000 ≤ host.nowTouchpad - c.m_lastTouchpadPressTime
    · rw [if_pos hElapsed]
      rfl
    · rw [if_neg hElapsed]
  · have hNot : ¬ c.m_bDelayAfterTouchpadPress = true := by
      rw [hDisabled]
      exact Bool.false_ne_true
    rw [hState, if_neg hNot]
    exact ⟨rfl, rfl, rfl⟩
  · intro anyHost anyView d hDisabled
    unfold UpdateEmulatedTrackpad
    split_ifs
    · exact ⟨rfl, hDisabled⟩
    · exact spatialOffset_lastPress env anyHost.nowTouchpad anyView _ d _ hDisabled

/-- C26 witness: a fresh `Press` at 1000 ms, less than 2000 ms after the press recorded at
the epoch, keeps the stale anchor position and stamps the press time. -/
theorem C26_delay_after_press_policy_witness :
    sampleHost.HasButton_EmulatedTrackpadPressed = true ∧
      delayedPressController.m_bTouchpadWasActive = false ∧
      delayedPressController.m_bDelayAfterTouchpadPress = true ∧
      sampleHost.nowTouchpad - delayedPressController.m_lastTouchpadPressTime < 2000 ∧
      (UpdateEmulatedTrackpad sampleEnv sampleHost sampleView
        delayedPressController).1.m_posMetersAtTouchpadPressTime = ⟨5, 5, 5⟩ ∧
      (UpdateEmulatedTrackpad sampleEnv sampleHost sampleView
        delayedPressController).1.m_lastTouchpadPressTime = 1000 := by
  have hw : highestPriorityAction sampleEnv.k_PSMButtonID_Count
      delayedPressController.psButtonIDToEmulatedTouchpadAction sampleHost.GetButtonState =
        k_EmulatedTrackpadAction_Press := by decide
  have hRecent : sampleHost.nowTouchpad - delayedPressController.m_lastTouchpadPressTime <
      2000 := by
    have hNow : sampleHost.nowTouchpad = 1000 := rfl
    have hLast : delayedPressController.m_lastTouchpadPressTime = 0 := rfl
    rw [hNow, hLast]
    norm_num
  have h := (C26_delay_after_press_policy sampleEnv sampleHost sampleView
    delayedPressController rfl (Or.inr hw) rfl).1 rfl
  exact ⟨rfl, rfl, rfl, hRecent, (h.1 hRecent).2, h.2.2⟩


/-! ### One emission consumes the pending request -/

/-- When rumble is not suppressed and the gate is open, `UpdateRumbleState` sends the
fraction of the pending request, records the send and resets the request. -/
theorem UpdateRumbleState_emits (env : Env) (now : ℚ) (c : PSMoveController)
    (hNotSuppressed : c.m_bRumbleSuppressed = false)
    (hGate : c.m_lastTimeRumbleSentValid = false ∨ 33 ≤ now - c.m_lastTimeRumbleSent) :
    UpdateRumbleState env now c =
      (resetPendingHaptic env
          { c with m_lastTimeRumbleSent := now, m_lastTimeRumbleSentValid := true },
        [Effect.SetControllerRumble
          (rumbleFraction c.m_pendingHapticDurationSecs c.m_pendingHapticAmplitude)]) := by
  have hOpen : bTimoutElapsed now c = true := by
    unfold bTimoutElapsed
    rcases hGate with hInvalid | hElapsed
    · rw [hInvalid]
      rfl
    · by_cases hValid : c.m_lastTimeRumbleSentValid = true
      · rw [if_pos hValid]
        exact decide_eq_true hElapsed
      · rw [if_neg hValid]
  unfold UpdateRumbleState
  rw [hNotSuppressed, hOpen]
  rfl

/-- A pending request of duration zero is sent as the fraction `0`. -/
theorem rumbleFraction_zero_duration (amplitude : ℚ) : rumbleFraction 0 amplitude = 0 := by
  unfold rumbleFraction
  norm_num [toUInt16, roundToBinary32_zero]

/-- With a default duration of zero, a call of `UpdateRumbleState` on a controller whose
pending duration is zero leaves it zero, and a command it sends carries the fraction `0`. -/
theorem UpdateRumbleState_pending_zero (env : Env) (now : ℚ) (c : PSMoveController)
    (hDefault : env.DEFAULT_HAPTIC_DURATION = 0)
    (hZero : c.m_pendingHapticDurationSecs = 0) :
    (UpdateRumbleState env now c).1.m_pendingHapticDurationSecs = 0 ∧
      (UpdateRumbleState env now c).2.filterMap rumbleCommand =
        (UpdateRumbleState env now c).2.map (fun _ => 0) := by
  unfold UpdateRumbleState
  split_ifs
  · refine ⟨hDefault, ?_⟩
    dsimp only
    rw [hZero, rumbleFraction_zero_duration]
    rfl
  · exact ⟨hZero, rfl⟩
  · exact ⟨hDefault, rfl⟩

/-- With a default duration of zero, a sequence of calls without haptic events on a
controller whose pending duration is zero sends only commands of fraction `0`. -/
theorem rumbleFractionsSent_zero (env : Env) (hDefault : env.DEFAULT_HAPTIC_DURATION = 0)
    (calls : List RumbleCall) :
    ∀ c : PSMoveController, c.m_pendingHapticDurationSecs = 0 →
      (∀ call ∈ calls, call.hapticEvent = none) →
      ∀ fraction ∈ rumbleFractionsSent env c calls, fraction = 0 := by
  induction calls with
  | nil =>
    intro c _ _ fraction hMem
    simp [rumbleFractionsSent] at hMem
  | cons call rest ih =>
    intro c hZero hQuiet fraction hMem
    have hNone : call.hapticEvent = none := hQuiet call (List.mem_cons_self _ _)
    have hDeliver : deliverHaptic call c = c := by
      unfold deliverHaptic
      rw [hNone]
    obtain ⟨hStay, hSent⟩ := UpdateRumbleState_pending_zero env call.now c hDefault hZero
    simp only [rumbleFractionsSent, hDeliver, List.mem_append] at hMem
    rcases hMem with hHere | hLater
    · rw [hSent] at hHere
      obtain ⟨_, -, hEq⟩ := List.mem_map.mp hHere
      exact hEq.symm
    · exact ih _ hStay (fun other hOther => hQuiet other (List.mem_cons_of_mem _ hOther))
        fraction hLater

/-- C27: whenever `UpdateRumbleState` emits (rumble is not suppressed, and no send is
recorded or at least 33 ms have elapsed since the recorded one), it emits exactly one
rumble command, carrying the fraction of the pending request; it sets
`m_lastTimeRumbleSent` to the current time and `m_lastTimeRumbleSentValid` to true; and it
resets the pending duration, amplitude and frequency to the defaults, so the request is
gone after this one emission. With a default duration of zero, every command sent by later
calls that come with no new haptic event carries the fraction `0`. -/
theorem C27_emission_consumes_request (env : Env) (now : ℚ) (c : PSMoveController)
    (hNotSuppressed : c.m_bRumbleSuppressed = false)
    (hGate : c.m_lastTimeRumbleSentValid = false ∨ 33 ≤ now - c.m_lastTimeRumbleSent) :
    (UpdateRumbleState env now c).2 =
        [Effect.SetControllerRumble
          (rumbleFraction c.m_pendingHapticDurationSecs c.m_pendingHapticAmplitude)] ∧
      (UpdateRumbleState env now c).1.m_lastTimeRumbleSent = now ∧
      (UpdateRumbleState env now c).1.m_lastTimeRumbleSentValid = true ∧
      (UpdateRumbleState env now c).1.m_pendingHapticDurationSecs =
        env.DEFAULT_HAPTIC_DURATION ∧
      (UpdateRumbleState env now c).1.m_pendingHapticAmplitude =
        env.DEFAULT_HAPTIC_AMPLITUDE ∧
      (UpdateRumbleState env now c).1.m_pendingHapticFrequency =
        env.DEFAULT_HAPTIC_FREQUENCY ∧
      (env.DEFAULT_HAPTIC_DURATION = 0 →
        ∀ calls : List RumbleCall, (∀ call ∈ calls, call.hapticEvent = none) →
          ∀ fraction ∈ rumbleFractionsSent env (UpdateRumbleState env now c).1 calls,
            fraction = 0) := by
  have hEmits := UpdateRumbleState_emits env now c hNotSuppressed hGate
  refine ⟨?_, ?_, ?_, ?_, ?_, ?_, ?_⟩
  · rw [hEmits]
  · rw [hEmits]
    rfl
  · rw [hEmits]
    rfl
  · rw [hEmits]
    rfl
  · rw [hEmits]
    rfl
  · rw [hEmits]
    rfl
  · intro hDefault calls hQuiet
    refine rumbleFractionsSent_zero env hDefault calls _ ?_ hQuiet
    rw [hEmits]
    exact hDefault

/-- C27 witness: the first call on a controller with a pending request of 2 ms at amplitude
`1 / 2` sends the request once; the later calls at 1040 ms and 1080 ms send the fraction
`0` only. -/
theorem C27_emission_consumes_request_witness :
    rumbleController.m_bRumbleSuppressed = false ∧
      rumbleController.m_lastTimeRumbleSentValid = false ∧
      (UpdateRumbleState sampleEnv 1000 rumbleController).2 =
        [Effect.SetControllerRumble
          (rumbleFraction rumbleController.m_pendingHapticDurationSecs
            rumbleController.m_pendingHapticAmplitude)] ∧
      ∀ fraction ∈ rumbleFractionsSent sampleEnv
          (UpdateRumbleState sampleEnv 1000 rumbleController).1 quietRumbleCalls,
        fraction = 0 := by
  have h := C27_emission_consumes_request sampleEnv 1000 rumbleController rfl (Or.inl rfl)
  refine ⟨rfl, rfl, h.1, h.2.2.2.2.2.2 rfl quietRumbleCalls ?_⟩
  intro call hCall
  simp only [quietRumbleCalls, List.mem_cons, List.mem_singleton, List.mem_nil_iff,
    or_false] at hCall
  rcases hCall with rfl | rfl <;> rfl


/-! ### The rate limiter runs on stale frames too -/

/-- On an activated, connected controller `Update` is the processing of the sample, if it
is new, followed by `UpdateRumbleState`. -/
theorem Update_connected (env : Env) (host : HostFrame) (nowRumble : ℚ)
    (service : PSMController) (c : PSMoveController)
    (hConnected : service.IsConnected = true) :
    Update env host true nowRumble service c =
      ((UpdateRumbleState env nowRumble (processNewSample env host service c).1).1,
        (processNewSample env host service c).2 ++
          (UpdateRumbleState env nowRumble (processNewSample env host service c).1).2) := by
  unfold Update Controller_Update
  dsimp only
  rw [if_pos (by simp [hConnected])]

/-- The last processed sequence number after the sample processing of `Update`. -/
theorem processNewSample_sequenceNumber (env : Env) (host : HostFrame)
    (service : PSMController) (c : PSMoveController) :
    (processNewSample env host service c).1.m_nPoseSequenceNumber =
      if c.m_nPoseSequenceNumber < service.OutputSequenceNum then service.OutputSequenceNum
      else c.m_nPoseSequenceNumber := by
  have hControls : ∀ d : PSMoveController,
      (UpdateControllerState env host service.PSMoveState d).1.m_nPoseSequenceNumber =
        d.m_nPoseSequenceNumber :=
    fun d => congrArg (fun m => m.2.2)
      (UpdateControllerState_pose env host service.PSMoveState d).1
  unfold processNewSample
  split_ifs
  · dsimp only
    rw [hControls]
    rfl
  · rfl

/-- A call of `Update` never lowers the last processed sequence number. -/
theorem Update_sequenceNumber_le (env : Env) (host : HostFrame) (isActivated : Bool)
    (nowRumble : ℚ) (service : PSMController) (c : PSMoveController) :
    c.m_nPoseSequenceNumber ≤
      (Update env host isActivated nowRumble service c).1.m_nPoseSequenceNumber := by
  have hRumble : ∀ d : PSMoveController,
      (UpdateRumbleState env nowRumble d).1.m_nPoseSequenceNumber =
        d.m_nPoseSequenceNumber :=
    fun d => congrArg (fun m => m.2.2) (UpdateRumbleState_members env nowRumble d).2.2
  unfold Update Controller_Update
  dsimp only
  split_ifs
  · dsimp only
    rw [hRumble, processNewSample_sequenceNumber]
    split_ifs with hNewer
    · exact le_of_lt hNewer
    · exact le_refl _
  · exact le_refl _

/-- Over a sequence of `Update` calls the last processed sequence number never falls below
its value before the sequence, and its values after the calls are non-decreasing. -/
theorem processedSequenceNumbers_monotone (env : Env) (calls : List UpdateCall) :
    ∀ c : PSMoveController,
      (∀ n ∈ processedSequenceNumbers env c calls, c.m_nPoseSequenceNumber ≤ n) ∧
        (processedSequenceNumbers env c calls).Pairwise (fun n1 n2 => n1 ≤ n2) := by
  induction calls with
  | nil =>
    intro c
    simp [processedSequenceNumbers]
  | cons call rest ih =>
    intro c
    have hStep := Update_sequenceNumber_le env call.host call.isActivated call.nowRumble
      call.service c
    obtain ⟨hAbove, hPairwise⟩ :=
      ih (Update env call.host call.isActivated call.nowRumble call.service c).1
    simp only [processedSequenceNumbers, List.mem_cons, List.pairwise_cons]
    refine ⟨fun n hn => ?_, hAbove, hPairwise⟩
    rcases hn with rfl | hn
    · exact hStep
    · exact le_trans hStep (hAbove n hn)

/-- C29: on an activated, connected controller every call of `Update` runs
`UpdateRumbleState` after the sample processing, whether or not the sample is new. On a
stale frame (sequence number not newer than the last processed one) the call is exactly
`UpdateRumbleState`: when rumble is not suppressed and no send is recorded or at least
33 ms have elapsed since the recorded one, one rumble command with the fraction of the
pending request is emitted, and the last processed sequence number stays as it was. Over
any sequence of `Update` calls, activated or not, connected or not, the last processed
sequence number is non-decreasing. -/
theorem C29_limiter_runs_on_stale_frames (env : Env) (host : HostFrame) (nowRumble : ℚ)
    (service : PSMController) (c : PSMoveController)
    (hConnected : service.IsConnected = true) :
    Update env host true nowRumble service c =
        ((UpdateRumbleState env nowRumble (processNewSample env host service c).1).1,
          (processNewSample env host service c).2 ++
            (UpdateRumbleState env nowRumble (processNewSample env host service c).1).2) ∧
      (service.OutputSequenceNum ≤ c.m_nPoseSequenceNumber →
        Update env host true nowRumble service c = UpdateRumbleState env nowRumble c ∧
          (c.m_bRumbleSuppressed = false →
            (c.m_lastTimeRumbleSentValid = false ∨ 33 ≤ nowRumble - c.m_lastTimeRumbleSent) →
            (Update env host true nowRumble service c).2 =
              [Effect.SetControllerRumble
                (rumbleFraction c.m_pendingHapticDurationSecs c.m_pendingHapticAmplitude)]) ∧
          (Update env host true nowRumble service c).1.m_nPoseSequenceNumber =
            c.m_nPoseSequenceNumber) ∧
      (∀ (calls : List UpdateCall) (d : PSMoveController),
        (∀ n ∈ processedSequenceNumbers env d calls, d.m_nPoseSequenceNumber ≤ n) ∧
          (processedSequenceNumbers env d calls).Pairwise (fun n1 n2 => n1 ≤ n2)) := by
  refine ⟨Update_connected env host nowRumble service c hConnected, fun hStale => ?_,
    fun calls d => processedSequenceNumbers_monotone env calls d⟩
  have hSample : processNewSample env host service c = (c, []) := by
    unfold processNewSample
    rw [if_neg (not_lt.mpr hStale)]
  have hUpdate : Update env host true nowRumble service c =
      UpdateRumbleState env nowRumble c := by
    rw [Update_connected env host nowRumble service c hConnected, hSample]
    rfl
  refine ⟨hUpdate, fun hNotSuppressed hGate => ?_, ?_⟩
  · rw [hUpdate, UpdateRumbleState_emits env nowRumble c hNotSuppressed hGate]
  · rw [hUpdate]
    exact congrArg (fun m => m.2.2) (UpdateRumbleState_members env nowRumble c).2.2

/-- C29 witness: a stale sample on the controller with a pending request of 2 ms at
amplitude `1 / 2`; the call still sends the rumble command and keeps the sequence number. -/
theorem C29_limiter_runs_on_stale_frames_witness :
    staleService.IsConnected = true ∧
      staleService.OutputSequenceNum ≤ rumbleController.m_nPoseSequenceNumber ∧
      (Update sampleEnv sampleHost true 1000 staleService rumbleController).2 =
        [Effect.SetControllerRumble
          (rumbleFraction rumbleController.m_pendingHapticDurationSecs
            rumbleController.m_pendingHapticAmplitude)] ∧
      (Update sampleEnv sampleHost true 1000 staleService
        rumbleController).1.m_nPoseSequenceNumber = rumbleController.m_nPoseSequenceNumber ∧
      (processedSequenceNumbers sampleEnv rumbleController sampleUpdateCalls).Pairwise
        (fun n1 n2 => n1 ≤ n2) := by
  have hStale : staleService.OutputSequenceNum ≤ rumbleController.m_nPoseSequenceNumber := by
    decide
  have h := C29_limiter_runs_on_stale_frames sampleEnv sampleHost 1000 staleService
    rumbleController rfl
  exact ⟨rfl, hStale, (h.2.1 hStale).2.1 rfl (Or.inl rfl), (h.2.1 hStale).2.2,
    (h.2.2 sampleUpdateCalls rumbleController).2⟩


/-! ### The scan stops at the first counted action at or above `Press` -/

/-- The prefix through the first action at or above `Press`, when the actions before it are
all below `Press`. -/
theorem throughFirstPress_append_press (a : eEmulatedTrackpadAction)
    (rest : List eEmulatedTrackpadAction)
    (hPress : k_EmulatedTrackpadAction_Press.toNat ≤ a.toNat) :
    ∀ l : List eEmulatedTrackpadAction,
      (∀ b ∈ l, b.toNat < k_EmulatedTrackpadAction_Press.toNat) →
      throughFirstPress (l ++ a :: rest) = l ++ [a] := by
  intro l
  induction l with
  | nil =>
    intro _
    simp [throughFirstPress, hPress]
  | cons b tail ih =>
    intro hBelow
    have hb : ¬ b.toNat ≥ k_EmulatedTrackpadAction_Press.toNat :=
      not_le.mpr (hBelow b (List.mem_cons_self _ _))
    have hTail := ih (fun x hx => hBelow x (List.mem_cons_of_mem _ hx))
    show throughFirstPress (b :: (tail ++ a :: rest)) = b :: (tail ++ [a])
    unfold throughFirstPress
    rw [if_neg hb, hTail]

/-- The running maximum over actions below `Press` followed by one at or above `Press` is
that last action. -/
theorem maxPriorityAction_append_press (a : eEmulatedTrackpadAction)
    (l : List eEmulatedTrackpadAction)
    (hBelow : ∀ b ∈ l, b.toNat < k_EmulatedTrackpadAction_Press.toNat)
    (hPress : k_EmulatedTrackpadAction_Press.toNat ≤ a.toNat) :
    maxPriorityAction (l ++ [a]) = a := by
  obtain ⟨-, hMem⟩ := foldl_raisePriority_spec l k_EmulatedTrackpadAction_None
  have hLow : (l.foldl raisePriority k_EmulatedTrackpadAction_None).toNat ≤ a.toNat := by
    rcases hMem with hEq | hIn
    · rw [hEq]
      exact Nat.zero_le _
    · exact le_trans (le_of_lt (hBelow _ hIn)) hPress
  unfold maxPriorityAction
  rw [List.foldl_append]
  simp only [List.foldl_cons, List.foldl_nil, raisePriority]
  rw [if_pos hLow]

/-- The counted actions of the buttons below `i`, when none of them is mapped at or above
`Press`, are all below `Press`. -/
theorem countedActions_below_press (actions : ActionMap) (query : ButtonStateQuery) (i : Nat)
    (hFirst : ∀ j < i, actions j ≠ k_EmulatedTrackpadAction_None →
      (query j).isSome = true → (actions j).toNat < k_EmulatedTrackpadAction_Press.toNat) :
    ∀ b ∈ countedActions actions query (List.range i),
      b.toNat < k_EmulatedTrackpadAction_Press.toNat := by
  intro b hb
  unfold countedActions at hb
  obtain ⟨j, hj, hEq⟩ := List.mem_filterMap.mp hb
  by_cases hCounted : actions j ≠ k_EmulatedTrackpadAction_None ∧ (query j).isSome = true
  · rw [if_pos hCounted] at hEq
    cases hEq
    exact hFirst j (List.mem_range.mp hj) hCounted.1 hCounted.2
  · rw [if_neg hCounted] at hEq
    cases hEq

/-- The winner of the scan when button `i` is the first counted button mapped at or above
`Press`: the running maximum over the counted buttons `0 .. i`, which is the action of
button `i`. -/
theorem highestPriorityAction_through_press (count : Nat) (actions : ActionMap)
    (query : ButtonStateQuery) (i : Nat) (hi : i < count)
    (hCounted : actions i ≠ k_EmulatedTrackpadAction_None ∧ (query i).isSome = true)
    (hPress : k_EmulatedTrackpadAction_Press.toNat ≤ (actions i).toNat)
    (hFirst : ∀ j < i, actions j ≠ k_EmulatedTrackpadAction_None →
      (query j).isSome = true → (actions j).toNat < k_EmulatedTrackpadAction_Press.toNat) :
    highestPriorityAction count actions query =
        maxPriorityAction (countedActions actions query (List.range (i + 1))) ∧
      highestPriorityAction count actions query = actions i := by
  have hBelow := countedActions_below_press actions query i hFirst
  have hHere : countedActions actions query [i] = [actions i] := by
    simp only [countedActions, List.filterMap_cons, List.filterMap_nil, if_pos hCounted]
  have hPrefix : countedActions actions query (List.range (i + 1)) =
      countedActions actions query (List.range i) ++ [actions i] := by
    rw [← hHere, List.range_succ]
    exact List.filterMap_append _ _ _
  have hSplit : List.range count =
      List.range (i + 1) ++ (List.range (count - (i + 1))).map (fun k => i + 1 + k) := by
    rw [← List.range_add]
    congr 1
    omega
  have hAll : countedActions actions query (List.range count) =
      countedActions actions query (List.range i) ++
        actions i :: countedActions actions query
          ((List.range (count - (i + 1))).map (fun k => i + 1 + k)) := by
    rw [hSplit]
    unfold countedActions
    rw [List.filterMap_append]
    have hUnfolded := hPrefix
    unfold countedActions at hUnfolded
    rw [hUnfolded, List.append_assoc]
    rfl
  have hScan : highestPriorityAction count actions query =
      maxPriorityAction (countedActions actions query (List.range (i + 1))) := by
    unfold highestPriorityAction
    rw [scanTouchpadActions_eq_foldl, hAll,
      throughFirstPress_append_press (actions i) _ hPress _ hBelow, hPrefix]
    rfl
  refine ⟨hScan, ?_⟩
  rw [hScan, hPrefix]
  exact maxPriorityAction_append_press (actions i) _ hBelow hPress

/-- C24: the code diverges from the claim. Button 0 is mapped to `Press` and is `Up`,
button 1 is mapped to `DownRight` and is `Down`. The first active button mapped at or above
`Press` is button 1, so the claim's winning action is `DownRight`. The scan counts button 0
although it is `Up` (line 439 fetches `button_state`, no line reads it), stops there and
selects `Press`, the same winner as when button 0 is `Down`. -/
theorem C24_up_button_stops_the_scan :
    isPressedOrDown (firstButtonUp 0) = false ∧
      specWinningActionThroughPress 2 pressThenDownRight firstButtonUp =
        k_EmulatedTrackpadAction_DownRight ∧
      highestPriorityAction 2 pressThenDownRight firstButtonUp =
        k_EmulatedTrackpadAction_Press ∧
      highestPriorityAction 2 pressThenDownRight firstButtonUp =
        highestPriorityAction 2 pressThenDownRight (fun _ => some PSMButtonState_DOWN) := by
  have hCode := (highestPriorityAction_through_press 2 pressThenDownRight firstButtonUp 0
    (by decide) ⟨by decide, rfl⟩ (by decide) (fun j hj => absurd hj (Nat.not_lt_zero j))).2
  have hDown := (highestPriorityAction_through_press 2 pressThenDownRight
    (fun _ => some PSMButtonState_DOWN) 0
    (by decide) ⟨by decide, rfl⟩ (by decide) (fun j hj => absurd hj (Nat.not_lt_zero j))).2
  refine ⟨rfl, by decide, hCode, ?_⟩
  rw [hCode, hDown]

end steamvrbridge
